import Mathlib

/-!
# Iot-app: message routing, payload decoding and reconnection supervision

A shallow embedding of the dashboard MQTT clients
(`src/frontend/mqtt-websocket-client.js`, `src/frontend/mqtt-websocket-client-dual.js`),
of the shared decoder (`src/shared/mqtt-helper.js`) and of the LED controller
(`src/alert-system/led-controller.js`).

Conventions of the embedding:

* a JavaScript string is a `List Char`; every character the code inspects is ASCII;
* `new Date()` is a parameter `timestamp : Nat` (milliseconds);
* `this.log(...)` only writes to the console and is left out;
* `this.emit(name, data)` is recorded as one `Emitted` value, in program order;
* a JavaScript number produced by `parseInt` is `Option Int` (`none` is `NaN`),
  a number produced by `parseFloat` is a `JSNumber`;
* a method or an event handler of a client is a function from the state to the new state
  and the list of its effects; what the transport, the timers and the page do is an
  `Action`;
* updates of the page (DOM) are recorded as effects.
-/

namespace IotApp

/-! ## JavaScript string primitives -/

/-- Method `String.prototype.includes`: does `sub` occur in `s` as a contiguous substring. -/
def includes (s sub : List Char) : Bool :=
  sub.isPrefixOf s ||
    match s with
    | [] => false
    | _ :: cs => includes cs sub

/-- Method `String.prototype.split(sep)` for a one-character separator: the fields between
the separators, the empty string giving one empty field. -/
def split (sep : Char) : List Char → List (List Char)
  | [] => [[]]
  | c :: cs =>
    if c = sep then [] :: split sep cs
    else
      match split sep cs with
      | [] => [[c]]
      | f :: fs => (c :: f) :: fs

/-- The characters removed by `TrimString` (WhiteSpace and LineTerminator of ECMAScript). -/
def isStrWhiteSpaceChar (c : Char) : Bool :=
  let n := c.toNat
  n = 0x09 || n = 0x0A || n = 0x0B || n = 0x0C || n = 0x0D || n = 0x20 || n = 0xA0 ||
  n = 0x1680 || (0x2000 ≤ n && n ≤ 0x200A) || n = 0x2028 || n = 0x2029 || n = 0x202F ||
  n = 0x205F || n = 0x3000 || n = 0xFEFF

/-- The class `\d` of a regular expression and `DecimalDigit` of the number grammar:
the ASCII digits `0` to `9`. -/
def isDecimalDigit (c : Char) : Bool :=
  decide (48 ≤ c.toNat) && decide (c.toNat ≤ 57)

/-- The value of a character as a digit of the given radix (10 or 16), if it is one. -/
def digitValue (radix : Nat) (c : Char) : Option Nat :=
  let n := c.toNat
  if 48 ≤ n ∧ n ≤ 57 then some (n - 48)
  else if radix = 16 ∧ 97 ≤ n ∧ n ≤ 102 then some (n - 87)
  else if radix = 16 ∧ 65 ≤ n ∧ n ≤ 70 then some (n - 55)
  else none

/-- The number written by a list of digits of the given radix, most significant first. -/
def digitsValue (radix : Nat) (ds : List Char) : Nat :=
  ds.foldl (fun acc c => radix * acc + (digitValue radix c).getD 0) 0

/-- The sign prefix read by `parseInt` and `parseFloat`: `(negative, rest)`. -/
def readSign : List Char → Bool × List Char
  | '-' :: t => (true, t)
  | '+' :: t => (false, t)
  | s => (false, s)

/-- The radix prefix read by `parseInt` called without a radix: `0x` or `0X` selects 16. -/
def readRadix : List Char → Nat × List Char
  | '0' :: 'x' :: t => (16, t)
  | '0' :: 'X' :: t => (16, t)
  | s => (10, s)

/-- The global `parseInt(s)`: leading white space is skipped, then an optional sign, an
optional `0x`, and the longest run of digits; `none` is `NaN`. What follows the digits is
ignored. The result is the mathematical integer (the Number is its nearest double, and
`-0` is `0`). -/
def parseInt (s : List Char) : Option Int :=
  let s1 := s.dropWhile isStrWhiteSpaceChar
  let (neg, s2) := readSign s1
  let (radix, s3) := readRadix s2
  let ds := s3.takeWhile (fun c => (digitValue radix c).isSome)
  if ds.isEmpty then none
  else if neg then some (-(digitsValue radix ds : Int))
  else some (digitsValue radix ds : Int)

/-- A Number: `NaN`, an infinity, or a finite binary64 value `± mant * 2 ^ exp2` in the form
of IEEE 754: `exp2` from `-1074` to `971`, `mant` below `2 ^ 53`, and at least `2 ^ 52`
unless `exp2 = -1074` (zero and the subnormal values). `neg` with `mant = 0` is `-0`. -/
inductive JSNumber where
  | nan
  | infinity (neg : Bool)
  | finite (neg : Bool) (mant : Nat) (exp2 : Int)
  deriving DecidableEq, Repr

/-- The global `isNaN(x)`. -/
def JSNumber.isNaN : JSNumber → Bool
  | .nan => true
  | _ => false

/-- The real value of a finite Number. -/
def JSNumber.toRat : JSNumber → Option ℚ
  | .nan => none
  | .infinity _ => none
  | .finite neg m p => some ((if neg then -1 else 1) * (m : ℚ) * (2 : ℚ) ^ p)

/-- The integer nearest to `num / den`, a half going to the even neighbour (`den > 0`). -/
def roundHalfEven (num den : Nat) : Nat :=
  let n := num / den
  let r := num % den
  if 2 * r < den then n
  else if den < 2 * r then n + 1
  else if n % 2 = 0 then n else n + 1

/-- The number of halvings that take `n` below 2, at most `fuel` of them: for `n > 0` and
`fuel ≥ n` the exponent of the greatest power of two that is at most `n`. -/
def log2Aux : Nat → Nat → Nat
  | 0, _ => 0
  | fuel + 1, n => if n < 2 then 0 else log2Aux fuel (n / 2) + 1

/-- The exponent of the greatest power of two that is at most `a / b`, for positive `a`
and `b`. -/
def floorLog2 (a b : Nat) : Int :=
  let k : Int := (log2Aux a a : Int) - (log2Aux b b : Int)
  if b * 2 ^ k.toNat ≤ a * 2 ^ (-k).toNat then k else k - 1

/-- The Number value for the real number `± a / b` (`b > 0`), as ECMAScript defines it:
the binary64 value nearest to it, a tie going to the even mantissa, and an infinity when
the rounded value reaches `2 ^ 1024`. The quotient is rounded to a multiple of the
quantum `2 ^ q`, which is `2 ^ -1074` below `2 ^ -1022` and leaves 53 significant bits
above. -/
def numberValue (neg : Bool) (a b : Nat) : JSNumber :=
  if a = 0 then .finite neg 0 (-1074)
  else
    let q := max (floorLog2 a b) (-1022) - 52
    let n := roundHalfEven (a * 2 ^ (-q).toNat) (b * 2 ^ q.toNat)
    let mp : Nat × Int := if n = 2 ^ 53 then (2 ^ 52, q + 1) else (n, q)
    if mp.2 > 971 then .infinity neg else .finite neg mp.1 mp.2

/-- The operator `x - y` on Numbers: the exact difference of two finite values, rounded;
a difference of zero is `+0`, except `-0 - +0`, which is `-0`. -/
def JSNumber.sub : JSNumber → JSNumber → JSNumber
  | .nan, _ => .nan
  | _, .nan => .nan
  | .infinity n, .infinity m => if n = m then .nan else .infinity n
  | .infinity n, .finite _ _ _ => .infinity n
  | .finite _ _ _, .infinity m => .infinity (!m)
  | .finite n1 m1 p1, .finite n2 m2 p2 =>
    let p := min p1 p2
    let d : Int :=
      (if n1 then -1 else 1) * ((m1 * 2 ^ (p1 - p).toNat : Nat) : Int) -
        (if n2 then -1 else 1) * ((m2 * 2 ^ (p2 - p).toNat : Nat) : Int)
    if d = 0 then .finite (n1 && !n2) 0 (-1074)
    else numberValue (decide (d < 0)) (d.natAbs * 2 ^ p.toNat) (2 ^ (-p).toNat)

/-- The comparison `Math.abs(x) < Math.abs(y)` of two Numbers. -/
def JSNumber.absLt : JSNumber → JSNumber → Bool
  | .finite _ m1 p1, .finite _ m2 p2 =>
    decide (m1 * 2 ^ (p1 - min p1 p2).toNat < m2 * 2 ^ (p2 - min p1 p2).toNat)
  | .finite _ _ _, .infinity _ => true
  | _, _ => false

/-- The comparison `x > 0` of a Number. -/
def JSNumber.isPositive : JSNumber → Bool
  | .nan => false
  | .infinity neg => !neg
  | .finite neg m _ => !neg && decide (0 < m)

/-- The `ExponentPart` read by `parseFloat`: `e` or `E`, an optional sign and at least
one digit; anything else contributes exponent `0`. -/
def readExponent : List Char → Int
  | [] => 0
  | c :: t =>
    if c = 'e' ∨ c = 'E' then
      let (neg, t1) := readSign t
      let ds := t1.takeWhile isDecimalDigit
      if ds.isEmpty then 0
      else if neg then -(digitsValue 10 ds : Int)
      else (digitsValue 10 ds : Int)
    else 0

/-- The fraction read by `parseFloat` after the integer digits: the digits after a `.`
and the rest of the input. -/
def readFraction : List Char → List Char × List Char
  | '.' :: t => (t.takeWhile isDecimalDigit, t.dropWhile isDecimalDigit)
  | s => ([], s)

/-- The `StrUnsignedDecimalLiteral` read by `parseFloat` after the sign: `Infinity`, or
integer digits, an optional fraction and an optional exponent, with a digit on at least
one side of the `.`; `NaN` when there is none. The digits `ds` and the exponent `e` denote
the real number `ds * 10 ^ e`, and the result is the Number value for it. -/
def readStrDecimal (neg : Bool) (s2 : List Char) : JSNumber :=
  if "Infinity".toList.isPrefixOf s2 then .infinity neg
  else
    let ip := s2.takeWhile isDecimalDigit
    let frac := readFraction (s2.dropWhile isDecimalDigit)
    if ip.isEmpty ∧ frac.1.isEmpty then .nan
    else
      let e := readExponent frac.2 - (frac.1.length : Int)
      numberValue neg (digitsValue 10 (ip ++ frac.1) * 10 ^ e.toNat) (10 ^ (-e).toNat)

/-- The global `parseFloat(s)`: leading white space is skipped and the longest prefix that
is a `StrDecimalLiteral` is read; `NaN` when there is none. -/
def parseFloat (s : List Char) : JSNumber :=
  let signed := readSign (s.dropWhile isStrWhiteSpaceChar)
  readStrDecimal signed.1 signed.2

/-- Conversion `ToInt32` of an integer. -/
def toInt32 (x : Int) : Int := (x + 2 ^ 31) % 2 ^ 32 - 2 ^ 31

/-- The operator `x << k` on integers. -/
def shiftLeft (x : Int) (k : Nat) : Int := toInt32 (toInt32 x * 2 ^ (k % 32))

/-- Method `Number.prototype.toString(16)` of an integer. -/
def toStringHex (x : Int) : List Char :=
  if x < 0 then '-' :: Nat.toDigits 16 x.natAbs else Nat.toDigits 16 x.natAbs

/-- Method `String.prototype.padStart(n, c)`. -/
def padStart (n : Nat) (c : Char) (s : List Char) : List Char :=
  List.replicate (n - s.length) c ++ s

/-! ## Topic routing -/

/-- An anchored attempt of the regular expression `/E2025\/(\d+)/` at the start of `s`:
the captured group, the longest non-empty run of digits after `E2025/`. -/
def matchTeamAt (s : List Char) : Option (List Char) :=
  if "E2025/".toList.isPrefixOf s then
    let ds := (s.drop 6).takeWhile isDecimalDigit
    if ds.isEmpty then none else some ds
  else none

/-- Group 1 of `topic.match(/E2025\/(\d+)/)`, the leftmost match; `none` when the
expression does not match. -/
def matchTeam : List Char → Option (List Char)
  | [] => none
  | c :: cs =>
    match matchTeamAt (c :: cs) with
    | some g => some g
    | none => matchTeam cs

/-- The expression `teamMatch ? teamMatch[1] : 'XX'`. -/
def teamNumberOf (topic : List Char) : List Char :=
  match matchTeam topic with
  | some g => g
  | none => "XX".toList

/-- The handler a message is routed to, with the arguments it receives
`(messageStr, timestamp, teamNumber)`. -/
inductive HandlerCall where
  | temperature (value : List Char) (timestamp : Nat) (teamNumber : List Char)
  | humidity (value : List Char) (timestamp : Nat) (teamNumber : List Char)
  | alert (message : List Char) (timestamp : Nat) (teamNumber : List Char)
  deriving DecidableEq, Repr

/-! ## Events -/

/-- The object `{ r, g, b }`. -/
structure RGB where
  r : Int
  g : Int
  b : Int
  deriving DecidableEq, Repr

/-- The payload of `onTemperature` and `onHumidity`. `unit` is set by the single-broker
client, `broker` by the dual client. -/
structure SensorEvent where
  value : JSNumber
  timestamp : Nat
  teamNumber : List Char
  unit : Option (List Char)
  broker : Option (List Char)
  deriving DecidableEq, Repr

/-- The payload of `onAlert`. `broker` is set by the dual client only. -/
structure AlertEvent where
  teamNumber : List Char
  rgb : RGB
  timestamp : Nat
  hexColor : List Char
  broker : Option (List Char)
  deriving DecidableEq, Repr

/-- The payload of `onMessage`. -/
structure MessageEvent where
  topic : List Char
  message : List Char
  timestamp : Nat
  teamNumber : List Char
  deriving DecidableEq, Repr

/-- One call of `this.emit(name, data)` made while a message is handled. -/
inductive Emitted where
  | onTemperature (e : SensorEvent)
  | onHumidity (e : SensorEvent)
  | onAlert (e : AlertEvent)
  | onMessage (e : MessageEvent)
  deriving DecidableEq, Repr

/-- The predicate: the emission is one of `onTemperature`, `onHumidity`, `onAlert`. -/
def Emitted.isReading : Emitted → Bool
  | .onMessage _ => false
  | _ => true

/-! ## `MQTTHelper` (src/shared/mqtt-helper.js) -/

namespace MQTTHelper

/-- Function `MQTTHelper.parseRGBMessage(message)`; `none` is the `null` returned from the `catch`. -/
def parseRGBMessage (message : List Char) : Option RGB :=
  match split ';' message with
  | [f0, f1, f2] =>
    match parseInt f0, parseInt f1, parseInt f2 with
    | some r, some g, some b =>
      if r < 0 ∨ r > 255 ∨ g < 0 ∨ g > 255 ∨ b < 0 ∨ b > 255 then none
      else some { r := r, g := g, b := b }
    | _, _, _ => none
  | _ => none

end MQTTHelper

/-! ## `MQTTWebSocketClient` (src/frontend/mqtt-websocket-client.js): messages -/

namespace MQTTWebSocketClient

/-- Method `isValidRGB(r, g, b)` with `Number.isInteger`; `none` is `NaN`. -/
def isValidRGB (r g b : Option Int) : Bool :=
  match r, g, b with
  | some r, some g, some b =>
    decide (r ≥ 0) && decide (r ≤ 255) && decide (g ≥ 0) && decide (g ≤ 255) &&
      decide (b ≥ 0) && decide (b ≤ 255)
  | _, _, _ => false

/-- Method `rgbToHex(r, g, b)`: `"#" + ((1 << 24) + (r << 16) + (g << 8) + b).toString(16).slice(1)`. -/
def rgbToHex (r g b : Int) : List Char :=
  '#' :: (toStringHex (shiftLeft 1 24 + shiftLeft r 16 + shiftLeft g 8 + b)).drop 1

/-- Method `handleTemperatureMessage(value, timestamp, teamNumber)`: the emissions it makes. -/
def handleTemperatureMessage (value : List Char) (timestamp : Nat) (teamNumber : List Char) :
    List Emitted :=
  let temperature := parseFloat value
  if !temperature.isNaN then
    [.onTemperature { value := temperature, timestamp := timestamp, teamNumber := teamNumber,
                      unit := some "°C".toList, broker := none }]
  else []

/-- Method `handleHumidityMessage(value, timestamp, teamNumber)`: the emissions it makes. -/
def handleHumidityMessage (value : List Char) (timestamp : Nat) (teamNumber : List Char) :
    List Emitted :=
  let humidity := parseFloat value
  if !humidity.isNaN then
    [.onHumidity { value := humidity, timestamp := timestamp, teamNumber := teamNumber,
                   unit := some "%".toList, broker := none }]
  else []

/-- Method `handleAlertMessage(message, timestamp, teamNumber)`: the emissions it makes. -/
def handleAlertMessage (message : List Char) (timestamp : Nat) (teamNumber : List Char) :
    List Emitted :=
  match split ';' message with
  | [f0, f1, f2] =>
    let r := parseInt f0
    let g := parseInt f1
    let b := parseInt f2
    if isValidRGB r g b then
      match r, g, b with
      | some r, some g, some b =>
        [.onAlert { teamNumber := teamNumber, rgb := { r := r, g := g, b := b },
                    timestamp := timestamp, hexColor := rgbToHex r g b, broker := none }]
      | _, _, _ => []
    else []
  | _ => []

/-- The `if / else if` chain of `handleMessage`: which handler is called, if any. -/
def route (topic messageStr : List Char) (timestamp : Nat) : Option HandlerCall :=
  let teamNumber := teamNumberOf topic
  if includes topic "/temperature".toList then
    some (.temperature messageStr timestamp teamNumber)
  else if includes topic "/humidite".toList then
    some (.humidity messageStr timestamp teamNumber)
  else if includes topic "/Alerts/".toList then
    some (.alert messageStr timestamp teamNumber)
  else none

/-- Running the handler selected by `route`. -/
def runHandler : Option HandlerCall → List Emitted
  | some (.temperature v t n) => handleTemperatureMessage v t n
  | some (.humidity v t n) => handleHumidityMessage v t n
  | some (.alert m t n) => handleAlertMessage m t n
  | none => []

/-- Method `handleMessage(topic, message)` with `timestamp = new Date()`: the new value of
`messageCount` and the emissions, the handler's first and `onMessage` last. No statement
of the `try` block throws on string arguments, so the `catch` is never entered. -/
def handleMessage (messageCount : Nat) (topic message : List Char) (timestamp : Nat) :
    Nat × List Emitted :=
  (messageCount + 1,
   runHandler (route topic message timestamp) ++
     [.onMessage { topic := topic, message := message, timestamp := timestamp,
                   teamNumber := teamNumberOf topic }])

end MQTTWebSocketClient

/-! ## `MQTTDualClient` (src/frontend/mqtt-websocket-client-dual.js): messages -/

namespace MQTTDualClient

/-- Method `isValidRGB(r, g, b)`: every value is not `NaN` and within `0..255`; `none` is `NaN`. -/
def isValidRGB (r g b : Option Int) : Bool :=
  [r, g, b].all fun val =>
    match val with
    | some v => decide (v ≥ 0) && decide (v ≤ 255)
    | none => false

/-- Method `rgbToHex(r, g, b)`: each channel through `toString(16).padStart(2, '0')`, joined. -/
def rgbToHex (r g b : Int) : List Char :=
  '#' :: ([r, g, b].map fun x => padStart 2 '0' (toStringHex x)).flatten

/-- Method `handleTemperatureMessage(message, timestamp, teamNumber)`: the emissions it makes. -/
def handleTemperatureMessage (message : List Char) (timestamp : Nat)
    (teamNumber : List Char) : List Emitted :=
  let temperature := parseFloat message
  if !temperature.isNaN then
    [.onTemperature { value := temperature, timestamp := timestamp, teamNumber := teamNumber,
                      unit := none, broker := some "local".toList }]
  else []

/-- Method `handleHumidityMessage(message, timestamp, teamNumber)`: the emissions it makes. -/
def handleHumidityMessage (message : List Char) (timestamp : Nat)
    (teamNumber : List Char) : List Emitted :=
  let humidity := parseFloat message
  if !humidity.isNaN then
    [.onHumidity { value := humidity, timestamp := timestamp, teamNumber := teamNumber,
                   unit := none, broker := some "local".toList }]
  else []

/-- Method `handleAlertMessage(message, timestamp, teamNumber)`: the emissions it makes. -/
def handleAlertMessage (message : List Char) (timestamp : Nat) (teamNumber : List Char) :
    List Emitted :=
  match split ';' message with
  | [f0, f1, f2] =>
    let r := parseInt f0
    let g := parseInt f1
    let b := parseInt f2
    if isValidRGB r g b then
      match r, g, b with
      | some r, some g, some b =>
        [.onAlert { teamNumber := teamNumber, rgb := { r := r, g := g, b := b },
                    timestamp := timestamp, hexColor := rgbToHex r g b,
                    broker := some "hivemq".toList }]
      | _, _, _ => []
    else []
  | _ => []

/-- The `if / else if` chain of `handleLocalMessage`: which handler is called, if any. -/
def routeLocal (topic messageStr : List Char) (timestamp : Nat) : Option HandlerCall :=
  let teamNumber := teamNumberOf topic
  if includes topic "/temperature".toList then
    some (.temperature messageStr timestamp teamNumber)
  else if includes topic "/humidite".toList then
    some (.humidity messageStr timestamp teamNumber)
  else none

/-- The `if` of `handleHiveMQMessage`: which handler is called, if any. -/
def routeHiveMQ (topic messageStr : List Char) (timestamp : Nat) : Option HandlerCall :=
  let teamNumber := teamNumberOf topic
  if includes topic "/Alerts/".toList then
    some (.alert messageStr timestamp teamNumber)
  else none

/-- Running the handler selected by `routeLocal` or `routeHiveMQ`. -/
def runHandler : Option HandlerCall → List Emitted
  | some (.temperature v t n) => handleTemperatureMessage v t n
  | some (.humidity v t n) => handleHumidityMessage v t n
  | some (.alert m t n) => handleAlertMessage m t n
  | none => []

/-- Method `handleLocalMessage(topic, message)`: the new `messageCount.local` and the emissions. -/
def handleLocalMessage (localCount : Nat) (topic message : List Char) (timestamp : Nat) :
    Nat × List Emitted :=
  (localCount + 1, runHandler (routeLocal topic message timestamp))

/-- Method `handleHiveMQMessage(topic, message)`: the new `messageCount.hivemq` and the emissions. -/
def handleHiveMQMessage (hivemqCount : Nat) (topic message : List Char) (timestamp : Nat) :
    Nat × List Emitted :=
  (hivemqCount + 1, runHandler (routeHiveMQ topic message timestamp))

end MQTTDualClient


/-! ## Wire formats (spec §6) -/

/-- The sensor topic `<namespace>/Data/<epoch>/<id>/<leaf>` of the message bus. -/
def dataTopic (ns epoch id leaf : List Char) : List Char :=
  ns ++ '/' :: ("Data".toList ++ '/' :: (epoch ++ '/' :: (id ++ '/' :: leaf)))

/-- The subscription patterns of `MQTTWebSocketClient`, `Object.values(this.config.topics)`. -/
def MQTTWebSocketClient.topics : List (List Char) :=
  ["GTI700/Data/E2025/+/temperature".toList, "GTI700/Data/E2025/+/humidite".toList,
   "GTI700/Alerts/E2025/+".toList]

/-- One level of a subscription pattern against one level of a topic: `+` matches any
single level, another pattern level matches itself only. -/
def levelMatches (pat seg : List Char) : Bool :=
  pat == "+".toList || pat == seg

/-- Single-level wildcard matching of a topic against a subscription pattern, as the spec
states it (§4.1); in the repository it is done by the broker, not by the client: the same
number of levels, each matching. -/
def topicMatches (pattern topic : List Char) : Bool :=
  let ps := split '/' pattern
  let ts := split '/' topic
  ps.length == ts.length && (List.zipWith levelMatches ps ts).all id

/-- The optional fraction of a decimal number: nothing, or `.` and the fraction digits. -/
def fractionText : Option (List Char) → List Char
  | none => []
  | some fd => '.' :: fd

/-- The text of an ASCII decimal number: a sign (empty, `+` or `-`), integer digits, and
optionally a `.` followed by fraction digits. -/
def decimalText (sign ip : List Char) (frac : Option (List Char)) : List Char :=
  sign ++ (ip ++ fractionText frac)

/-- The number written by `decimalText sign ip frac`. -/
def decimalValue (sign ip : List Char) (frac : Option (List Char)) : ℚ :=
  (if sign = ['-'] then -1 else 1) *
    ((digitsValue 10 ip : ℚ) + match frac with
      | none => 0
      | some fd => (digitsValue 10 fd : ℚ) / (10 : ℚ) ^ fd.length)

/-- The decimal rendering of a non-negative integer, `String(n)`. -/
def decimalString (n : Nat) : List Char := Nat.toDigits 10 n

/-- The alert payload `R;G;B` for three channel values. -/
def alertPayload (r g b : Nat) : List Char :=
  decimalString r ++ ';' :: (decimalString g ++ ';' :: decimalString b)

/-! ## `MQTTWebSocketClient`: connection supervision -/

namespace MQTTWebSocketClient

/-- The fields of a client read and written by the connection logic. `hasClient` says
that `this.client` is not `null`. The broker address in `config` plays no part here. -/
structure State where
  hasClient : Bool
  isConnected : Bool
  connectionAttempts : Nat
  maxReconnectAttempts : Nat
  reconnectDelay : Nat
  autoReconnect : Bool
  messageCount : Nat
  deriving DecidableEq, Repr

/-- The state set up by the constructor. -/
def State.init : State :=
  { hasClient := false, isConnected := false, connectionAttempts := 0,
    maxReconnectAttempts := 10, reconnectDelay := 3000, autoReconnect := true,
    messageCount := 0 }

/-- The lifecycle events of the dispatcher. -/
inductive Lifecycle where
  | onConnect
  | onDisconnect
  | onError
  deriving DecidableEq, Repr

/-- What a method or a transport handler does to the outside, in program order. -/
inductive Effect where
  /-- Call `this.emit(event)`. -/
  | emit (event : Lifecycle)
  /-- Call `setTimeout(callback, delay)` with the reconnect callback, `delay` in ms. -/
  | setTimeout (delay : ℚ)
  /-- Call `mqtt.connect(brokerUrl, options)`: a new transport starts connecting. -/
  | mqttConnect
  /-- Call `this.client.publish('GTI700/Status/Dashboard', ...)` with the given status. -/
  | publishStatus (status : List Char)
  /-- Call `this.client.subscribe(topic, ...)`. -/
  | subscribe (topic : List Char)
  /-- Call `this.client.end(true)`. -/
  | clientEnd
  deriving DecidableEq

/-- The delay computed by `scheduleReconnect`:
`this.reconnectDelay * Math.pow(1.5, this.connectionAttempts - 1)`, as an exact rational. -/
def retryDelay (s : State) : ℚ :=
  (s.reconnectDelay : ℚ) * (3 / 2 : ℚ) ^ ((s.connectionAttempts : Int) - 1)

/-- Method `scheduleReconnect()`: below the ceiling a timer is set, at the ceiling
`autoReconnect` is switched off. -/
def scheduleReconnect (s : State) : State × List Effect :=
  if s.connectionAttempts < s.maxReconnectAttempts then
    (s, [.setTimeout (retryDelay s)])
  else
    ({ s with autoReconnect := false }, [])

/-- Method `publishStatus(status)`: publishes only while connected. -/
def publishStatus (s : State) (status : List Char) : List Effect :=
  if s.isConnected then [.publishStatus status] else []

/-- Method `subscribeToTopics()`. -/
def subscribeToTopics : List Effect :=
  topics.map .subscribe

/-- Method `connect()` up to the registration of the transport handlers: nothing when
already connected, otherwise a new transport is created. -/
def connect (s : State) : State × List Effect :=
  if s.isConnected then (s, [])
  else ({ s with hasClient := true }, [.mqttConnect])

/-- The handler of the transport event `connect`. -/
def onConnect (s : State) : State × List Effect :=
  let s1 := { s with isConnected := true, connectionAttempts := 0 }
  (s1, publishStatus s1 "online".toList ++ subscribeToTopics ++ [.emit .onConnect])

/-- The handler of the transport event `error`. -/
def onError (s : State) : State × List Effect :=
  (s, [.emit .onError])

/-- The handler of the transport event `close`. -/
def onClose (s : State) : State × List Effect :=
  let s1 := { s with isConnected := false }
  if s1.autoReconnect ∧ s1.connectionAttempts < s1.maxReconnectAttempts then
    let r := scheduleReconnect s1
    (r.1, .emit .onDisconnect :: r.2)
  else (s1, [.emit .onDisconnect])

/-- The handler of the transport event `reconnect`. -/
def onReconnect (s : State) : State × List Effect :=
  ({ s with connectionAttempts := s.connectionAttempts + 1 }, [])

/-- The callback given to `setTimeout` by `scheduleReconnect`. -/
def onReconnectTimer (s : State) : State × List Effect :=
  if !s.isConnected then connect s else (s, [])

/-- Method `disconnect()`. -/
def disconnect (s : State) : State × List Effect :=
  if s.isConnected ∧ s.hasClient then
    ({ s with autoReconnect := false, isConnected := false },
     publishStatus { s with autoReconnect := false } "offline".toList ++ [.clientEnd])
  else (s, [])

/-- One failed connection cycle: `connect()` is called (by the caller the first time, by
the reconnect timer afterwards), no `connect` event arrives, and the transport reports
`close`. The result is the state after the `close` handler. -/
def failedCycle (s : State) : State :=
  (onClose (connect s).1).1

/-- The timers set by a list of effects. -/
def scheduledRetries (es : List Effect) : List ℚ :=
  es.filterMap fun e =>
    match e with
    | .setTimeout d => some d
    | _ => none

end MQTTWebSocketClient

/-! ## `MQTTWebSocketClient`: the client with its pending timers -/

namespace MQTTWebSocketClient

/-- A client together with the reconnect timers that `scheduleReconnect` has set and that
have not fired yet (each holds the same callback; the list keeps their delays). -/
structure System where
  client : State
  timers : List ℚ

/-- The system right after the constructor: no timer is pending. -/
def System.init : System :=
  { client := State.init, timers := [] }

/-- What can happen to a client: a call of a public method by the page, an event of the
transport created by `connect()`, or the expiry of a pending reconnect timer. -/
inductive Action where
  | callConnect
  | callDisconnect
  | transportConnect
  | transportError
  | transportClose
  | transportReconnect
  | timerFires
  deriving DecidableEq, Repr

/-- The method or handler run by an action. The transport handlers are registered on the
transport inside `connect()`, so a transport event needs `this.client`; the timer callback
runs only when a timer is pending. -/
def handlerOf (sys : System) : Action → State × List Effect
  | .callConnect => connect sys.client
  | .callDisconnect => disconnect sys.client
  | .transportConnect => if sys.client.hasClient then onConnect sys.client else (sys.client, [])
  | .transportError => if sys.client.hasClient then onError sys.client else (sys.client, [])
  | .transportClose => if sys.client.hasClient then onClose sys.client else (sys.client, [])
  | .transportReconnect =>
    if sys.client.hasClient then onReconnect sys.client else (sys.client, [])
  | .timerFires => if sys.timers.isEmpty then (sys.client, []) else onReconnectTimer sys.client

/-- One action: the handler runs, a fired timer leaves the pending list, and the timers
set by the handler join it. Nothing in the class ever calls `clearTimeout`. -/
def System.step (sys : System) (a : Action) : System × List Effect :=
  let r := handlerOf sys a
  let remaining := if a = .timerFires then sys.timers.drop 1 else sys.timers
  ({ client := r.1, timers := remaining ++ scheduledRetries r.2 }, r.2)

/-- A sequence of actions, from left to right; the result is the final system. -/
def System.run (sys : System) (as : List Action) : System :=
  as.foldl (fun s a => (s.step a).1) sys

/-- The predicate: the effects start a connection attempt (`mqtt.connect` is called). -/
def startsConnection (es : List Effect) : Bool :=
  es.contains .mqttConnect

end MQTTWebSocketClient

/-! ## `MQTTDualClient`: connection supervision -/

namespace MQTTDualClient

/-- The two brokers of the dual client. -/
inductive Broker where
  | local
  | hivemq
  deriving DecidableEq, Repr

/-- The fields of a dual client read and written by the connection logic.
`hasLocalClient` says that `this.localClient` is not `null`, `attemptsLocal` is
`this.connectionAttempts.local`, `messageCountLocal` is `this.messageCount.local`, and
likewise for HiveMQ. -/
structure State where
  hasLocalClient : Bool
  hasHivemqClient : Bool
  isLocalConnected : Bool
  isHivemqConnected : Bool
  attemptsLocal : Nat
  attemptsHivemq : Nat
  maxReconnectAttempts : Nat
  reconnectDelay : Nat
  messageCountLocal : Nat
  messageCountHivemq : Nat
  deriving DecidableEq, Repr

/-- The state set up by the constructor. -/
def State.init : State :=
  { hasLocalClient := false, hasHivemqClient := false, isLocalConnected := false,
    isHivemqConnected := false, attemptsLocal := 0, attemptsHivemq := 0,
    maxReconnectAttempts := 10, reconnectDelay := 3000, messageCountLocal := 0,
    messageCountHivemq := 0 }

/-- The object returned by `getConnectionStatus()`. -/
structure ConnectionStatus where
  «local» : Bool
  hivemq : Bool
  both : Bool
  deriving DecidableEq, Repr

/-- Method `getConnectionStatus()`. -/
def getConnectionStatus (s : State) : ConnectionStatus :=
  { «local» := s.isLocalConnected, hivemq := s.isHivemqConnected,
    both := s.isLocalConnected && s.isHivemqConnected }

/-- What `updateConnectionUI()` writes to the status element, one value per branch:
class `connected`, class `connecting` with the two ticks of the text, class
`disconnected`. -/
inductive UIStatus where
  | connected
  | connecting (localUp hivemqUp : Bool)
  | disconnected
  deriving DecidableEq, Repr

/-- Method `updateConnectionUI()`: the branch taken for the current status. -/
def updateConnectionUI (s : State) : UIStatus :=
  let status := getConnectionStatus s
  if status.both then .connected
  else if status.local || status.hivemq then .connecting status.local status.hivemq
  else .disconnected

/-- What a method or a transport handler of the dual client does to the outside. -/
inductive Effect where
  /-- Call `this.emit('onConnect', broker)`. -/
  | emitConnect (broker : Broker)
  /-- Call `this.emit('onDisconnect', broker)`. -/
  | emitDisconnect (broker : Broker)
  /-- Call `this.emit('onError', ...)` for the broker. -/
  | emitError (broker : Broker)
  /-- Call `mqtt.connect(brokerUrl, options)` for the broker. -/
  | mqttConnect (broker : Broker)
  /-- Call `subscribe(topic, ...)` on the broker's transport. -/
  | subscribe (broker : Broker) (topic : List Char)
  /-- Call `end()` on the broker's transport. -/
  | clientEnd (broker : Broker)
  /-- The log line `Statut connexions: Local=..., HiveMQ=...` of `connectAll`. -/
  | logStatus (localUp hivemqUp : Bool)
  /-- The update of the status element made by `updateConnectionUI()`. -/
  | updateUI (status : UIStatus)
  /-- An emission of a message handler. -/
  | emitted (e : Emitted)
  deriving DecidableEq, Repr

/-- The subscription patterns of the local broker, `Object.values(this.config.local.topics)`. -/
def localTopics : List (List Char) :=
  ["GTI700/Data/E2025/+/temperature".toList, "GTI700/Data/E2025/+/humidite".toList]

/-- The subscription patterns of HiveMQ, `Object.values(this.config.hivemq.topics)`. -/
def hivemqTopics : List (List Char) :=
  ["GTI700/Alerts/E2025/+".toList]

/-- Method `connectLocal()` up to the registration of the handlers. -/
def connectLocal (s : State) : State × List Effect :=
  ({ s with hasLocalClient := true }, [.mqttConnect .local])

/-- Method `connectHiveMQ()` up to the registration of the handlers. -/
def connectHiveMQ (s : State) : State × List Effect :=
  ({ s with hasHivemqClient := true }, [.mqttConnect .hivemq])

/-- The handler of the local transport's event `connect`. -/
def onLocalConnect (s : State) : State × List Effect :=
  ({ s with isLocalConnected := true, attemptsLocal := 0 },
   localTopics.map (.subscribe .local) ++ [.emitConnect .local])

/-- The handler of the HiveMQ transport's event `connect`. -/
def onHivemqConnect (s : State) : State × List Effect :=
  ({ s with isHivemqConnected := true, attemptsHivemq := 0 },
   hivemqTopics.map (.subscribe .hivemq) ++ [.emitConnect .hivemq])

/-- The handler of the local transport's event `error`. -/
def onLocalError (s : State) : State × List Effect :=
  (s, [.emitError .local])

/-- The handler of the HiveMQ transport's event `error`. -/
def onHivemqError (s : State) : State × List Effect :=
  (s, [.emitError .hivemq])

/-- The handler of the local transport's event `close`. -/
def onLocalClose (s : State) : State × List Effect :=
  let s1 := { s with isLocalConnected := false }
  (s1, [.emitDisconnect .local, .updateUI (updateConnectionUI s1)])

/-- The handler of the HiveMQ transport's event `close`. -/
def onHivemqClose (s : State) : State × List Effect :=
  let s1 := { s with isHivemqConnected := false }
  (s1, [.emitDisconnect .hivemq, .updateUI (updateConnectionUI s1)])

/-- The handler of the local transport's event `message`. -/
def onLocalMessage (s : State) (topic message : List Char) (timestamp : Nat) :
    State × List Effect :=
  let r := handleLocalMessage s.messageCountLocal topic message timestamp
  ({ s with messageCountLocal := r.1 }, r.2.map .emitted)

/-- The handler of the HiveMQ transport's event `message`. -/
def onHivemqMessage (s : State) (topic message : List Char) (timestamp : Nat) :
    State × List Effect :=
  let r := handleHiveMQMessage s.messageCountHivemq topic message timestamp
  ({ s with messageCountHivemq := r.1 }, r.2.map .emitted)

/-- Method `disconnectAll()`. -/
def disconnectAll (s : State) : State × List Effect :=
  let s1 := if s.hasLocalClient then { s with isLocalConnected := false } else s
  let e1 := if s.hasLocalClient then [Effect.clientEnd .local] else []
  let s2 := if s1.hasHivemqClient then { s1 with isHivemqConnected := false } else s1
  let e2 := if s1.hasHivemqClient then [Effect.clientEnd .hivemq] else []
  (s2, e1 ++ e2 ++ [.updateUI (updateConnectionUI s2)])

/-- How the promise of `connectLocal()` or `connectHiveMQ()` settles: the transport
reports `connect` (the promise resolves) or `error` (it rejects). -/
inductive ConnectOutcome where
  | connected
  | failed
  deriving DecidableEq, Repr

/-- The handler that settles the promise of `connectLocal()`, with the settled result. -/
def settleLocal (s : State) : ConnectOutcome → (State × List Effect) × Except String Unit
  | .connected => (onLocalConnect s, .ok ())
  | .failed => (onLocalError s, .error "local")

/-- The handler that settles the promise of `connectHiveMQ()`, with the settled result. -/
def settleHiveMQ (s : State) : ConnectOutcome → (State × List Effect) × Except String Unit
  | .connected => (onHivemqConnect s, .ok ())
  | .failed => (onHivemqError s, .error "hivemq")

/-- The function `Promise.allSettled`, awaited: it yields the settled results and never
rejects. -/
def allSettled (results : List (Except String Unit)) :
    Except String (List (Except String Unit)) :=
  .ok results

/-- Method `connectAll()`, given how each promise settles and which transport reports
first. Both connections are started, the two results are awaited with
`Promise.allSettled`, then the status is logged and shown; the `catch` logs and returns.
The result is `.error` when `connectAll` raises. -/
def connectAll (s : State) (localOutcome hivemqOutcome : ConnectOutcome)
    (localFirst : Bool) : Except String (State × List Effect) :=
  let c1 := connectLocal s
  let c2 := connectHiveMQ c1.1
  let settled :=
    if localFirst then
      let r1 := settleLocal c2.1 localOutcome
      let r2 := settleHiveMQ r1.1.1 hivemqOutcome
      (r2.1.1, r1.1.2 ++ r2.1.2, [r1.2, r2.2])
    else
      let r2 := settleHiveMQ c2.1 hivemqOutcome
      let r1 := settleLocal r2.1.1 localOutcome
      (r1.1.1, r2.1.2 ++ r1.1.2, [r1.2, r2.2])
  let s' := settled.1
  let started := c1.2 ++ c2.2 ++ settled.2.1
  match allSettled settled.2.2 with
  | .ok _ =>
    let status := getConnectionStatus s'
    .ok (s', started ++ [.logStatus status.local status.hivemq,
                         .updateUI (updateConnectionUI s')])
  | .error _ => .ok (s', started)

/-- What can happen to a dual client: a call of a public method by the page, or an event
of one of the two transports. -/
inductive Action where
  | callConnectLocal
  | callConnectHiveMQ
  | callDisconnectAll
  | localConnect
  | localError
  | localClose
  | localMessage (topic message : List Char) (timestamp : Nat)
  | hivemqConnect
  | hivemqError
  | hivemqClose
  | hivemqMessage (topic message : List Char) (timestamp : Nat)
  deriving DecidableEq, Repr

/-- One action. The transport handlers are registered on the transport when it is
created, so an event of a transport needs that transport. -/
def step (s : State) : Action → State × List Effect
  | .callConnectLocal => connectLocal s
  | .callConnectHiveMQ => connectHiveMQ s
  | .callDisconnectAll => disconnectAll s
  | .localConnect => if s.hasLocalClient then onLocalConnect s else (s, [])
  | .localError => if s.hasLocalClient then onLocalError s else (s, [])
  | .localClose => if s.hasLocalClient then onLocalClose s else (s, [])
  | .localMessage t m ts => if s.hasLocalClient then onLocalMessage s t m ts else (s, [])
  | .hivemqConnect => if s.hasHivemqClient then onHivemqConnect s else (s, [])
  | .hivemqError => if s.hasHivemqClient then onHivemqError s else (s, [])
  | .hivemqClose => if s.hasHivemqClient then onHivemqClose s else (s, [])
  | .hivemqMessage t m ts => if s.hasHivemqClient then onHivemqMessage s t m ts else (s, [])

/-- The states a dual client can be in: the constructor's state and what actions make
of it. -/
inductive Reachable : State → Prop where
  | init : Reachable State.init
  | step (s : State) (a : Action) (h : Reachable s) : Reachable (step s a).1

end MQTTDualClient

/-! ## Event dispatcher (`on` / `emit` of both dashboard clients) -/

/-- The event names for which the constructor creates a callback array. -/
inductive EventName where
  | onConnect
  | onDisconnect
  | onMessage
  | onError
  | onTemperature
  | onHumidity
  | onAlert
  deriving DecidableEq, Repr

/-- The property name of an event in `this.callbacks`. -/
def EventName.toName : EventName → List Char
  | .onConnect => "onConnect".toList
  | .onDisconnect => "onDisconnect".toList
  | .onMessage => "onMessage".toList
  | .onError => "onError".toList
  | .onTemperature => "onTemperature".toList
  | .onHumidity => "onHumidity".toList
  | .onAlert => "onAlert".toList

/-- The keys of `this.callbacks`, in the order of the constructor. -/
def EventName.all : List EventName :=
  [.onConnect, .onDisconnect, .onMessage, .onError, .onTemperature, .onHumidity, .onAlert]

/-- The property names that the object literal `this.callbacks` inherits from
`Object.prototype`; each has a truthy value that is not an array. -/
def objectPrototypeNames : List (List Char) :=
  ["constructor".toList, "hasOwnProperty".toList, "isPrototypeOf".toList,
   "propertyIsEnumerable".toList, "toLocaleString".toList, "toString".toList,
   "valueOf".toList, "__proto__".toList, "__defineGetter__".toList,
   "__defineSetter__".toList, "__lookupGetter__".toList, "__lookupSetter__".toList]

/-- The value of `this.callbacks[event]`: the array of a known event, an inherited
property, or `undefined`. -/
inductive Lookup where
  | array (e : EventName)
  | inherited
  | undefined
  deriving DecidableEq, Repr

/-- The expression `this.callbacks[event]` for a string `event`. -/
def lookupCallbacks (event : List Char) : Lookup :=
  match EventName.all.find? (fun e => e.toName = event) with
  | some e => .array e
  | none => if event ∈ objectPrototypeNames then .inherited else .undefined

/-- A value thrown by a callback, by what the `catch` of `emit` can do with it. The
`catch` logs the template `${error.message}`. For an `Error`, and for any other value whose
property `message` can be read and turned into a string, this gives a text (`undefined`
for a value without the property). For `null` and `undefined` reading the property raises
a `TypeError` inside the `catch`; so does a `message` that cannot be turned into a
string. -/
inductive Thrown where
  | withMessage (message : String)
  | unreadable
  deriving DecidableEq, Repr

/-- What a call of a callback does: it returns, or it throws a value. -/
inductive CallResult where
  | returned
  | threw (value : Thrown)
  deriving DecidableEq, Repr

/-- A registered callback: an identity, and what a call with a payload does. Callbacks
that call back into the dispatcher are outside the model. -/
structure Callback (α : Type) where
  ident : Nat
  run : α → CallResult

/-- The object `this.callbacks`: one array of callbacks per known event. -/
structure Callbacks (α : Type) where
  handlers : EventName → List (Callback α)

/-- The object `this.callbacks` built by the constructor: every array empty. -/
def Callbacks.empty (α : Type) : Callbacks α :=
  { handlers := fun _ => [] }

/-- What happens during one `emit`, in order: a callback is called with the payload, or
the `catch` logs the message of the error a callback threw. -/
inductive Dispatched (α : Type) where
  | invoked (ident : Nat) (payload : α)
  | caught (event : List Char) (message : String)

/-- How a call of `emit` ends: what happened during it, and the exception that left it,
if one did. -/
structure Emission (α : Type) where
  trace : List (Dispatched α)
  raised : Option String

/-- The calls made during an `emit`, in order: which callback, with which payload. -/
def invocations {α : Type} : List (Dispatched α) → List (Nat × α)
  | [] => []
  | .invoked i p :: rest => (i, p) :: invocations rest
  | .caught _ _ :: rest => invocations rest

/-- The error messages logged by the `catch` during an `emit`, in order. -/
def caughtMessages {α : Type} : List (Dispatched α) → List String
  | [] => []
  | .invoked _ _ :: rest => caughtMessages rest
  | .caught _ m :: rest => m :: caughtMessages rest

/-- The body of the `forEach` of `emit`: the callback is called inside `try`; an error it
throws is caught, and the `catch` logs `error.message`. Reading `message` of a thrown
`null` or `undefined` raises inside the `catch`, and that exception leaves the body. -/
def callGuarded {α : Type} (event : List Char) (payload : α) (cb : Callback α) :
    Emission α :=
  match cb.run payload with
  | .returned => { trace := [.invoked cb.ident payload], raised := none }
  | .threw (.withMessage m) =>
    { trace := [.invoked cb.ident payload, .caught event m], raised := none }
  | .threw .unreadable =>
    { trace := [.invoked cb.ident payload],
      raised := some "TypeError: Cannot read properties of null (reading 'message')" }

/-- The call `this.callbacks[event].forEach(...)` of `emit`: the body runs for each
callback in array order; an exception that leaves the body ends the loop. -/
def forEachGuarded {α : Type} (event : List Char) (payload : α) :
    List (Callback α) → Emission α
  | [] => { trace := [], raised := none }
  | cb :: rest =>
    let r := callGuarded event payload cb
    match r.raised with
    | some err => { trace := r.trace, raised := some err }
    | none =>
      let rs := forEachGuarded event payload rest
      { trace := r.trace ++ rs.trace, raised := rs.raised }

/-- Method `on(event, callback)` of both clients: the callback is pushed on the array of a
known event; for an unknown event nothing is registered (the single-broker client logs a
warning); for an inherited property name the call of `push` raises a `TypeError`. -/
def Callbacks.on {α : Type} (cbs : Callbacks α) (event : List Char) (callback : Callback α) :
    Except String (Callbacks α) :=
  match lookupCallbacks event with
  | .array e => .ok { handlers := Function.update cbs.handlers e (cbs.handlers e ++ [callback]) }
  | .inherited => .error "TypeError: this.callbacks[event].push is not a function"
  | .undefined => .ok cbs

/-- Method `emit(event, data)` of both clients: the callbacks of the event's array are
called in array order, each inside its own `try`; for an unknown event nothing happens;
for an inherited property name the call of `forEach` raises a `TypeError`. -/
def Callbacks.emit {α : Type} (cbs : Callbacks α) (event : List Char) (payload : α) :
    Emission α :=
  match lookupCallbacks event with
  | .array e => forEachGuarded event payload (cbs.handlers e)
  | .inherited =>
    { trace := [],
      raised := some "TypeError: this.callbacks[event].forEach is not a function" }
  | .undefined => { trace := [], raised := none }

/-- A sequence of calls of `on`, from left to right, starting from the constructor's
`this.callbacks`; a call that raises leaves the object unchanged. -/
def Callbacks.register {α : Type} (cbs : Callbacks α) :
    List (List Char × Callback α) → Callbacks α
  | [] => cbs
  | (event, cb) :: rest =>
    match cbs.on event cb with
    | .ok cbs' => Callbacks.register cbs' rest
    | .error _ => Callbacks.register cbs rest

/-- The callbacks of a sequence of registrations that were registered under one name. -/
def registeredFor {α : Type} (event : List Char) (regs : List (List Char × Callback α)) :
    List (Callback α) :=
  (regs.filter fun r => r.1 = event).map Prod.snd

/-! ## `LEDController` (src/alert-system/led-controller.js) -/

namespace LEDController

/-- A value passed for a colour channel: an integer Number, or any other value (`NaN`, a
fraction, an infinity, a value that is not a Number), for which `Number.isInteger` is
false. -/
inductive JSArg where
  | integer (i : Int)
  | notInteger
  deriving DecidableEq, Repr

/-- Method `isValidRGB(r, g, b)`. -/
def isValidRGB (r g b : JSArg) : Bool :=
  match r, g, b with
  | .integer r, .integer g, .integer b =>
    decide (r ≥ 0) && decide (r ≤ 255) && decide (g ≥ 0) && decide (g ≤ 255) &&
      decide (b ≥ 0) && decide (b ≤ 255)
  | _, _, _ => false

/-- The fields of the controller written by `setColor`. -/
structure State where
  currentColor : RGB
  isInitialized : Bool
  deriving DecidableEq, Repr

/-- The state set up by the constructor. -/
def State.init : State :=
  { currentColor := { r := 0, g := 0, b := 0 }, isInitialized := false }

/-- Method `Number.prototype.toString()` of an integer. -/
def numberToString (i : Int) : List Char :=
  if i < 0 then '-' :: Nat.toDigits 10 i.natAbs else Nat.toDigits 10 i.natAbs

/-- One run of the hardware driver: `spawn(python, [script, r, g, b])` with the three
channel arguments as strings. -/
structure DriverCall where
  args : List (List Char)
  deriving DecidableEq, Repr

/-- How a run of the driver ends: the process closes with an exit code, the process
reports `error`, or `spawn` itself throws. -/
inductive DriverOutcome where
  | exit (code : Int)
  | error
  | spawnThrows
  deriving DecidableEq, Repr

/-- The result of `setColor` and `setColorHardware`: the new state, the runs of the driver,
and the settled promise (`.ok` with the colour set, `.error` when it rejects). -/
structure Result where
  state : State
  calls : List DriverCall
  settled : Except String RGB

/-- Method `setColorHardware(r, g, b)`, given how the driver ends: `currentColor` is
written in the `close` handler, for exit code 0 only. -/
def setColorHardware (s : State) (r g b : Int) (outcome : DriverOutcome) : Result :=
  let call : DriverCall := { args := [numberToString r, numberToString g, numberToString b] }
  match outcome with
  | .exit code =>
    if code = 0 then
      { state := { s with currentColor := { r := r, g := g, b := b } }, calls := [call],
        settled := .ok { r := r, g := g, b := b } }
    else { state := s, calls := [call], settled := .error "Script Python code" }
  | .error => { state := s, calls := [call], settled := .error "Erreur py" }
  | .spawnThrows => { state := s, calls := [call], settled := .error "Erreur setColor" }

/-- Method `setColor(r, g, b)`: invalid values throw before the driver is run. -/
def setColor (s : State) (r g b : JSArg) (outcome : DriverOutcome) : Result :=
  if !isValidRGB r g b then
    { state := s, calls := [], settled := .error "Valeurs RGB invalides" }
  else
    match r, g, b with
    | .integer r, .integer g, .integer b => setColorHardware s r g b outcome
    | _, _, _ => { state := s, calls := [], settled := .error "Valeurs RGB invalides" }

/-- The predicate: the promise rejected (the `async` method threw). -/
def Result.threw (res : Result) : Bool :=
  match res.settled with
  | .ok _ => false
  | .error _ => true

end LEDController

/-! ## `ConfigLoader` (src/shared/config-loader.js) and the classification of its topics -/

/-- The alert topic `<namespace>/Alerts/<epoch>/<id>` of the message bus. -/
def alertsTopic (ns epoch id : List Char) : List Char :=
  ns ++ '/' :: ("Alerts".toList ++ '/' :: (epoch ++ '/' :: id))

namespace ConfigLoader

/-- The object returned by `getTopics()`. -/
structure Topics where
  temperature : List Char
  humidity : List Char
  alerts : List Char
  deriving DecidableEq, Repr

/-- Method `getTopics()`, for the text of `this.get('teamNumber')` in the three template
strings. -/
def getTopics (teamNumber : List Char) : Topics :=
  { temperature := "GTI700/Data/E2025/".toList ++ teamNumber ++ "/temperature".toList,
    humidity := "GTI700/Data/E2025/".toList ++ teamNumber ++ "/humidite".toList,
    alerts := "GTI700/Alerts/E2025/".toList ++ teamNumber }

end ConfigLoader

/-- The team number a handler receives. -/
def HandlerCall.team : HandlerCall → List Char
  | .temperature _ _ n => n
  | .humidity _ _ n => n
  | .alert _ _ n => n

/-- A numeric path segment: a non-empty string of decimal digits. -/
def isNumericSegment (seg : List Char) : Bool :=
  !seg.isEmpty && seg.all isDecimalDigit

/-! ## `IoTDashboard` (src/frontend/script.js): history and active alerts -/

/-- A sample of the sensor reader by its value: `NaN`, an infinity, or a finite value.
The publisher only compares samples for equality. -/
inductive ExtNum where
  | nan
  | inf (neg : Bool)
  | fin (q : ℚ)
  deriving DecidableEq

namespace IoTDashboard

/-- The trend shown next to a history entry. -/
inductive Trend where
  | stable
  | up
  | down
  deriving DecidableEq, Repr

/-- An entry of a history array: `{ value, timestamp, trend }`. -/
structure HistoryEntry where
  value : JSNumber
  timestamp : Nat
  trend : Trend
  deriving DecidableEq, Repr

/-- The two sensor types, the keys of `this.sensorData`. -/
inductive SensorType where
  | temperature
  | humidity
  deriving DecidableEq, Repr

/-- The value of `this.alertsData` for a team: the alert data with the fields added by
`handleAlertData`. -/
structure AlertEntry where
  data : AlertEvent
  isActive : Bool
  lastColor : List Char
  lastRGB : RGB
  deriving DecidableEq, Repr

/-- The fields of the dashboard written by `addToHistory` and `handleAlertData`:
the two history arrays, the map `alertsData` keyed by team number, and
`maxHistoryLength`. -/
structure State where
  temperatureHistory : List HistoryEntry
  humidityHistory : List HistoryEntry
  alertsData : List Char → Option AlertEntry
  maxHistoryLength : Nat

/-- The state set up by the constructor. -/
def State.init : State :=
  { temperatureHistory := [], humidityHistory := [], alertsData := fun _ => none,
    maxHistoryLength := 15 }

/-- The array `this.sensorData[type].history`. -/
def State.history (s : State) : SensorType → List HistoryEntry
  | .temperature => s.temperatureHistory
  | .humidity => s.humidityHistory

/-- Writing the array `this.sensorData[type].history`. -/
def State.setHistory (s : State) (type : SensorType) (h : List HistoryEntry) : State :=
  match type with
  | .temperature => { s with temperatureHistory := h }
  | .humidity => { s with humidityHistory := h }

/-- The Number of the literal `0.1`. -/
def tenth : JSNumber := numberValue false 1 10

/-- Method `calculateTrend(history, newValue)`: `stable` for an empty history or a
difference to the newest entry below `0.1` in absolute value, else `up` for a positive
difference and `down` otherwise. -/
def calculateTrend (history : List HistoryEntry) (newValue : JSNumber) : Trend :=
  match history with
  | [] => .stable
  | last :: _ =>
    let diff := newValue.sub last.value
    if diff.absLt tenth then .stable
    else if diff.isPositive then .up else .down

/-- Method `addToHistory(type, data)`: the new entry is put in front (`unshift`), and an
array longer than `maxHistoryLength` is cut after that many entries (`splice`). -/
def addToHistory (s : State) (type : SensorType) (data : SensorEvent) : State :=
  let history := s.history type
  let unshifted : List HistoryEntry :=
    { value := data.value, timestamp := data.timestamp,
      trend := calculateTrend history data.value } :: history
  let spliced :=
    if unshifted.length > s.maxHistoryLength then unshifted.take s.maxHistoryLength
    else unshifted
  s.setHistory type spliced

/-- A sequence of calls of `addToHistory`, from left to right. -/
def addAllToHistory (s : State) (calls : List (SensorType × SensorEvent)) : State :=
  calls.foldl (fun st c => addToHistory st c.1 c.2) s

/-- The `(value, timestamp)` pairs of the data of the calls made for one sensor type, in
call order. -/
def stampsOf (type : SensorType) (calls : List (SensorType × SensorEvent)) :
    List (JSNumber × Nat) :=
  (calls.filter fun c => c.1 = type).map fun c => (c.2.value, c.2.timestamp)

/-- Method `handleAlertData(data)`: the entry of the team is replaced by the new alert,
marked active; the result holds the team whose expiry timer (30000 ms) is started. -/
def handleAlertData (s : State) (data : AlertEvent) : State × List Char :=
  let entry : AlertEntry :=
    { data := data, isActive := true, lastColor := data.hexColor, lastRGB := data.rgb }
  ({ s with alertsData := Function.update s.alertsData data.teamNumber (some entry) },
   data.teamNumber)

/-- The callback of the expiry timer started by `handleAlertData` for a team: the entry
that the map holds for the team when the timer fires is marked inactive. -/
def onAlertTimer (s : State) (teamNumber : List Char) : State :=
  match s.alertsData teamNumber with
  | some alertData =>
    let marked : AlertEntry := { alertData with isActive := false }
    { s with alertsData := Function.update s.alertsData teamNumber (some marked) }
  | none => s

end IoTDashboard

/-! ## `SensorPublisher` (src/sensor-layer/sensor-publisher.js) -/

/-- The operator `a === b` on Numbers: `NaN` equals nothing, itself included. -/
def ExtNum.strictEquals : ExtNum → ExtNum → Bool
  | .nan, _ => false
  | _, .nan => false
  | a, b => decide (a = b)

namespace SensorPublisher

/-- The fields of the publisher. `mqttClient` is the identity of the transport held in
`this.mqttClient` (`none` is `null`), `created` counts the transports created so far,
`readerStarted` says that `startSensorReading()` has run, `startAwaits` is the transport
whose connection `start()` is waiting for, and `timers` counts the pending reconnect
timers of the `close` handlers. -/
structure State where
  teamNumber : List Char
  mqttClient : Option Nat
  created : Nat
  isConnected : Bool
  readerStarted : Bool
  startAwaits : Option Nat
  timers : Nat
  lastTemperature : Option ExtNum
  lastHumidity : Option ExtNum
  lastPublishTimeTemperature : Nat
  lastPublishTimeHumidity : Nat
  publishCountTemperature : Nat
  publishCountHumidity : Nat
  deriving DecidableEq

/-- The state set up by the constructor for a configured team number. -/
def State.init (teamNumber : List Char) : State :=
  { teamNumber := teamNumber, mqttClient := none, created := 0, isConnected := false,
    readerStarted := false, startAwaits := none, timers := 0, lastTemperature := none,
    lastHumidity := none, lastPublishTimeTemperature := 0, lastPublishTimeHumidity := 0,
    publishCountTemperature := 0, publishCountHumidity := 0 }

/-- What a method or a handler of the publisher does to the outside. -/
inductive Effect where
  /-- Call `MQTTHelper.createLocalClient()`: a new transport starts connecting. -/
  | createClient (id : Nat)
  /-- Call `publish(topic, value.toFixed(2))` on the transport. -/
  | publish (id : Nat) (topic : List Char) (value : ExtNum)
  /-- Call `setTimeout(() => this.connectMQTT(), 5000)`. -/
  | setTimeout (delay : Nat)
  /-- Call `end()` on the transport. -/
  | clientEnd (id : Nat)
  /-- Call `this.sensorReader.stop()`. -/
  | readerStop
  deriving DecidableEq

/-- Function `MQTTHelper.formatSensorValue(value, 2)` on a Number: `null` for `NaN`,
otherwise the text `value.toFixed(2)`, which stands here as the value itself. -/
def formatSensorValue (value : ExtNum) : Option ExtNum :=
  match value with
  | .nan => none
  | v => some v

/-- The expression `value !== last` for a Number and a field that is `null` or a Number. -/
def differs (value : ExtNum) (last : Option ExtNum) : Bool :=
  match last with
  | none => true
  | some l => !value.strictEquals l

/-- Method `publishTemperature(temperature, timestamp)`. -/
def publishTemperature (s : State) (temperature : ExtNum) : State × List Effect :=
  if !s.isConnected then (s, [])
  else
    match formatSensorValue temperature, s.mqttClient with
    | some formatted, some id =>
      ({ s with publishCountTemperature := s.publishCountTemperature + 1 },
       [.publish id (ConfigLoader.getTopics s.teamNumber).temperature formatted])
    | _, _ => (s, [])

/-- Method `publishHumidity(humidity, timestamp)`. -/
def publishHumidity (s : State) (humidity : ExtNum) : State × List Effect :=
  if !s.isConnected then (s, [])
  else
    match formatSensorValue humidity, s.mqttClient with
    | some formatted, some id =>
      ({ s with publishCountHumidity := s.publishCountHumidity + 1 },
       [.publish id (ConfigLoader.getTopics s.teamNumber).humidity formatted])
    | _, _ => (s, [])

/-- The publish interval of `startSensorReading`, in ms. -/
def publishInterval : Nat := 5000

/-- The callback given to `onTemperatureData`, with `now = Date.now()`. -/
def onTemperatureData (s : State) (temperature : ExtNum) (now : Nat) : State × List Effect :=
  let shouldPublish :=
    differs temperature s.lastTemperature ||
      decide ((now : Int) - (s.lastPublishTimeTemperature : Int) > (publishInterval : Int))
  if shouldPublish then
    let r := publishTemperature s temperature
    ({ r.1 with lastTemperature := some temperature, lastPublishTimeTemperature := now }, r.2)
  else (s, [])

/-- The callback given to `onHumidityData`, with `now = Date.now()`. -/
def onHumidityData (s : State) (humidity : ExtNum) (now : Nat) : State × List Effect :=
  let shouldPublish :=
    differs humidity s.lastHumidity ||
      decide ((now : Int) - (s.lastPublishTimeHumidity : Int) > (publishInterval : Int))
  if shouldPublish then
    let r := publishHumidity s humidity
    ({ r.1 with lastHumidity := some humidity, lastPublishTimeHumidity := now }, r.2)
  else (s, [])

/-- Method `connectMQTT()` up to the registration of the handlers. -/
def connectMQTT (s : State) : State × List Effect :=
  ({ s with mqttClient := some s.created, created := s.created + 1 },
   [.createClient s.created])

/-- Method `startSensorReading()`. -/
def startSensorReading (s : State) : State :=
  { s with readerStarted := true, lastPublishTimeTemperature := 0,
           lastPublishTimeHumidity := 0 }

/-- What can happen to a publisher: a call of `start()` or `stop()`, an event of one of
the transports it created, the expiry of a reconnect timer, or a sample of the reader. -/
inductive Action where
  | callStart
  | callStop
  | transportConnect (id : Nat)
  | transportError (id : Nat)
  | transportClose (id : Nat)
  | timerFires
  | temperature (value : ExtNum) (now : Nat)
  | humidity (value : ExtNum) (now : Nat)
  deriving DecidableEq

/-- One action. `start()` calls `connectMQTT()` and waits; when the awaited transport
reports `connect`, `start()` goes on with `startSensorReading()`. The `close` handler of
every transport sets a timer that calls `connectMQTT()` again. `stop()` stops the reader
and ends the transport. -/
def step (s : State) : Action → State × List Effect
  | .callStart =>
    let r := connectMQTT s
    ({ r.1 with startAwaits := some s.created }, r.2)
  | .callStop =>
    ({ s with isConnected := false },
     (if s.readerStarted then [Effect.readerStop] else []) ++
       match s.mqttClient with
       | some id => [.clientEnd id]
       | none => [])
  | .transportConnect id =>
    if id < s.created then
      let s1 := { s with isConnected := true }
      if s.startAwaits = some id then
        (startSensorReading { s1 with startAwaits := none }, [])
      else (s1, [])
    else (s, [])
  | .transportError id =>
    if id < s.created then
      ({ s with isConnected := false,
                startAwaits := if s.startAwaits = some id then none else s.startAwaits }, [])
    else (s, [])
  | .transportClose id =>
    if id < s.created then
      ({ s with isConnected := false, timers := s.timers + 1 }, [.setTimeout 5000])
    else (s, [])
  | .timerFires =>
    if s.timers = 0 then (s, [])
    else
      let r := connectMQTT { s with timers := s.timers - 1 }
      (r.1, r.2)
  | .temperature v now => if s.readerStarted then onTemperatureData s v now else (s, [])
  | .humidity v now => if s.readerStarted then onHumidityData s v now else (s, [])

/-- A sequence of actions, from left to right: the final state and all effects in order. -/
def run (s : State) (as : List Action) : State × List Effect :=
  as.foldl (fun acc a => ((step acc.1 a).1, acc.2 ++ (step acc.1 a).2)) (s, [])

/-- The predicate: the effect starts a broker connection. -/
def Effect.isConnectionAttempt : Effect → Bool
  | .createClient _ => true
  | _ => false

end SensorPublisher

/-! ## `AlertSubscriber` (src/alert-system/alert-subscriber.js) -/

namespace AlertSubscriber

/-- The fields of the subscriber. `client` is the identity of the transport held in
`this.client` (`none` is `null`), `created` counts the transports created so far,
`startAwaits` is the transport whose connection `start()` is waiting for, and `timers`
counts the pending reconnect timers of the `close` handlers. -/
structure State where
  teamNumber : List Char
  client : Option Nat
  created : Nat
  isConnected : Bool
  startAwaits : Option Nat
  timers : Nat
  alertCount : Nat
  deriving DecidableEq, Repr

/-- The state set up by the constructor for a configured team number. -/
def State.init (teamNumber : List Char) : State :=
  { teamNumber := teamNumber, client := none, created := 0, isConnected := false,
    startAwaits := none, timers := 0, alertCount := 0 }

/-- What a method or a handler of the subscriber does to the outside. -/
inductive Effect where
  /-- Call `MQTTHelper.createHiveMQClient()`: a new transport starts connecting. -/
  | createClient (id : Nat)
  /-- Call `subscribe(topic, ...)` on the transport. -/
  | subscribe (id : Nat) (topic : List Char)
  /-- Call `setTimeout(() => this.connectHiveMQ(), 5000)`. -/
  | setTimeout (delay : Nat)
  /-- Call `end()` on the transport. -/
  | clientEnd (id : Nat)
  /-- Call `this.ledController.initialize()` or `cleanup()`. -/
  | ledOff
  deriving DecidableEq, Repr

/-- Method `connectHiveMQ()` up to the registration of the handlers. -/
def connectHiveMQ (s : State) : State × List Effect :=
  ({ s with client := some s.created, created := s.created + 1 }, [.createClient s.created])

/-- Method `subscribeToAlerts()`: one request on the transport held in `this.client`. -/
def subscribeToAlerts (s : State) : List Effect :=
  match s.client with
  | some id => [.subscribe id (ConfigLoader.getTopics s.teamNumber).alerts]
  | none => []

/-- What can happen to a subscriber: a call of `start()` or `stop()`, an event of one of
the transports it created, or the expiry of a reconnect timer. -/
inductive Action where
  | callStart
  | callStop
  | transportConnect (id : Nat)
  | transportError (id : Nat)
  | transportClose (id : Nat)
  | timerFires
  deriving DecidableEq, Repr

/-- One action. `start()` initialises the LED, calls `connectHiveMQ()` and waits; when
the awaited transport reports `connect`, `start()` goes on with `subscribeToAlerts()`.
The `connect` handler itself only sets `isConnected`. The `close` handler of every
transport sets a timer that calls `connectHiveMQ()` again. `stop()` switches the LED off
and ends the transport. -/
def step (s : State) : Action → State × List Effect
  | .callStart =>
    let r := connectHiveMQ s
    ({ r.1 with startAwaits := some s.created }, .ledOff :: r.2)
  | .callStop =>
    ({ s with isConnected := false },
     .ledOff ::
       match s.client with
       | some id => [.clientEnd id]
       | none => [])
  | .transportConnect id =>
    if id < s.created then
      let s1 := { s with isConnected := true }
      if s.startAwaits = some id then
        ({ s1 with startAwaits := none }, subscribeToAlerts s1)
      else (s1, [])
    else (s, [])
  | .transportError id =>
    if id < s.created then
      ({ s with isConnected := false,
                startAwaits := if s.startAwaits = some id then none else s.startAwaits }, [])
    else (s, [])
  | .transportClose id =>
    if id < s.created then
      ({ s with isConnected := false, timers := s.timers + 1 }, [.setTimeout 5000])
    else (s, [])
  | .timerFires =>
    if s.timers = 0 then (s, [])
    else connectHiveMQ { s with timers := s.timers - 1 }

/-- A sequence of actions, from left to right: the final state and all effects in order. -/
def run (s : State) (as : List Action) : State × List Effect :=
  as.foldl (fun acc a => ((step acc.1 a).1, acc.2 ++ (step acc.1 a).2)) (s, [])

/-- The predicate: the effect starts a broker connection. -/
def Effect.isConnectionAttempt : Effect → Bool
  | .createClient _ => true
  | _ => false

/-- The transports on which a subscription request was issued. -/
def subscribedClients (es : List Effect) : List Nat :=
  es.filterMap fun e =>
    match e with
    | .subscribe id _ => some id
    | _ => none

end AlertSubscriber

/-! ## `MQTTWebSocketClient.getUptime` and `LEDController.setColorFromMQTTMessage` -/

/-- Method `getUptime()` of `MQTTWebSocketClient`, for `uptimeMs = Date.now() -
this.startTime`: hours, minutes and seconds, each padded to two characters, joined by
`:`. -/
def MQTTWebSocketClient.getUptime (uptimeMs : Nat) : List Char :=
  let hours := uptimeMs / (1000 * 60 * 60)
  let minutes := uptimeMs % (1000 * 60 * 60) / (1000 * 60)
  let seconds := uptimeMs % (1000 * 60) / 1000
  padStart 2 '0' (decimalString hours) ++
    ':' :: (padStart 2 '0' (decimalString minutes) ++
      ':' :: padStart 2 '0' (decimalString seconds))

/-- The value that `parseInt` hands to `setColor`: an integer, or `NaN`. -/
def LEDController.toArg : Option Int → LEDController.JSArg
  | some i => .integer i
  | none => .notInteger

/-- Method `setColorFromMQTTMessage(message)`: a payload without exactly three fields
throws; otherwise the three `parseInt` values go to `setColor`; the `catch` logs and
throws again. -/
def LEDController.setColorFromMQTTMessage (s : LEDController.State) (message : List Char)
    (outcome : LEDController.DriverOutcome) : LEDController.Result :=
  match split ';' message with
  | [f0, f1, f2] =>
    LEDController.setColor s (LEDController.toArg (parseInt f0))
      (LEDController.toArg (parseInt f1)) (LEDController.toArg (parseInt f2)) outcome
  | _ => { state := s, calls := [], settled := .error "Format MQTT invalide" }

/-- The two hexadecimal digits of a channel value: sixteens, then units. -/
def hexPair (n : Nat) : List Char :=
  [Nat.digitChar (n / 16), Nat.digitChar (n % 16)]

/-- A lowercase hexadecimal digit: `0` to `9` or `a` to `f`. -/
def isLowerHexDigit (c : Char) : Bool :=
  isDecimalDigit c || (decide (97 ≤ c.toNat) && decide (c.toNat ≤ 102))

/-! ## `MQTTWebSocketClient`: the states a client reaches -/

namespace MQTTWebSocketClient

/-- Method `setAutoReconnect(enabled)`. -/
def setAutoReconnect (s : State) (enabled : Bool) : State :=
  { s with autoReconnect := enabled }

/-- Method `updateConfig(host, port)`: a connected client is disconnected first, then the
address is stored and the attempt counter is set to 0. -/
def updateConfig (s : State) : State × List Effect :=
  let r := if s.isConnected then disconnect s else (s, [])
  ({ r.1 with connectionAttempts := 0 }, r.2)

/-- The systems a client can be in. It starts from the constructor; the page calls
`connect()`, `disconnect()`, `updateConfig()` and `setAutoReconnect()`, the transport
reports `connect`, `error` and `close`, and pending reconnect timers fire. The transport
is created by `connect()` with `reconnectPeriod: 0`, so it never reconnects by itself and
never reports `reconnect`. -/
inductive System.Reachable : System → Prop where
  | init : System.Reachable System.init
  | step (sys : System) (a : Action) (ha : a ≠ .transportReconnect)
      (h : System.Reachable sys) : System.Reachable (sys.step a).1
  | updateConfig (sys : System) (h : System.Reachable sys) :
      System.Reachable { sys with client := (updateConfig sys.client).1 }
  | setAutoReconnect (sys : System) (enabled : Bool) (h : System.Reachable sys) :
      System.Reachable { sys with client := setAutoReconnect sys.client enabled }

end MQTTWebSocketClient

/-! # Theorems -/
/-! ## Lemmas on the string primitives -/

theorem includes_of_isPrefixOf {s sub : List Char} (h : sub.isPrefixOf s = true) :
    includes s sub = true := by
  unfold includes
  simp [h]

theorem includes_append_left (a : List Char) {b sub : List Char} (h : includes b sub = true) :
    includes (a ++ b) sub = true := by
  induction a with
  | nil => simpa using h
  | cons c cs ih =>
    rw [List.cons_append]
    unfold includes
    simp [ih]

theorem includes_append_self (a sub t : List Char) : includes (a ++ (sub ++ t)) sub = true :=
  includes_append_left a (includes_of_isPrefixOf (by simp))

/-- A pattern `p/` is a prefix of `s/rest`, for `p` and `s` free of `/`, only when `p = s`. -/
theorem prefix_sep_iff (p s rest : List Char) (hp : '/' ∉ p) (hs : '/' ∉ s) :
    (p ++ ['/']) <+: (s ++ '/' :: rest) ↔ p = s := by
  induction p generalizing s with
  | nil =>
    cases s with
    | nil => simp
    | cons c s' =>
      have hc : c ≠ '/' := fun h => hs (by simp [h])
      simp [List.cons_prefix_cons, Ne.symm hc]
  | cons a p' ih =>
    have ha : a ≠ '/' := fun h => hp (by simp [h])
    cases s with
    | nil => simp [List.cons_prefix_cons, ha]
    | cons c s' =>
      have hp' : '/' ∉ p' := fun h => hp (List.mem_cons_of_mem _ h)
      have hs' : '/' ∉ s' := fun h => hs (List.mem_cons_of_mem _ h)
      simp [List.cons_prefix_cons, ih s' hp' hs']

theorem matchTeamAt_segment (s rest : List Char) (hs : '/' ∉ s) :
    matchTeamAt (s ++ '/' :: rest) =
      if s = "E2025".toList ∧ (rest.takeWhile isDecimalDigit).isEmpty = false then
        some (rest.takeWhile isDecimalDigit)
      else none := by
  have hpre : "E2025/".toList.isPrefixOf (s ++ '/' :: rest) = true ↔ "E2025".toList = s := by
    rw [List.isPrefixOf_iff_prefix]
    exact prefix_sep_iff "E2025".toList s rest (by decide) hs
  unfold matchTeamAt
  by_cases h : s = "E2025".toList
  · subst h
    have h1 : "E2025/".toList.isPrefixOf ("E2025".toList ++ '/' :: rest) = true := hpre.2 rfl
    rw [if_pos h1]
    have h2 : List.drop 6 ("E2025".toList ++ '/' :: rest) = rest := rfl
    rw [h2]
    cases hd : (List.takeWhile isDecimalDigit rest).isEmpty <;> simp [hd]
  · have h1 : ¬ ("E2025/".toList.isPrefixOf (s ++ '/' :: rest) = true) :=
      fun hh => h (hpre.1 hh).symm
    rw [if_neg h1, if_neg (fun hh => h hh.1)]

theorem matchTeam_sep (rest : List Char) : matchTeam ('/' :: rest) = matchTeam rest := by
  have h : matchTeamAt ('/' :: rest) = none := by
    have := matchTeamAt_segment [] rest (by simp)
    simpa using this
  rw [matchTeam, h]

/-- Scanning a `/`-free segment: the expression matches inside `s/rest` only at a final
`E2025` of `s` followed by digits; otherwise the search goes on in `rest`. -/
theorem matchTeam_segment (s rest : List Char) (hs : '/' ∉ s) :
    matchTeam (s ++ '/' :: rest) =
      if "E2025".toList.isSuffixOf s = true ∧
          (rest.takeWhile isDecimalDigit).isEmpty = false then
        some (rest.takeWhile isDecimalDigit)
      else matchTeam rest := by
  induction s with
  | nil =>
    rw [List.nil_append, matchTeam_sep]
    simp [List.isSuffixOf_iff_suffix]
  | cons c s' ih =>
    have hs' : '/' ∉ s' := fun h => hs (List.mem_cons_of_mem _ h)
    rw [List.cons_append, matchTeam, ← List.cons_append, matchTeamAt_segment _ _ hs, ih hs']
    simp only [List.isSuffixOf_iff_suffix, List.suffix_cons_iff]
    generalize "E2025".toList = p
    by_cases hd : (rest.takeWhile isDecimalDigit).isEmpty = false
    · by_cases he : c :: s' = p
      · simp [hd, he]
      · have he' : ¬ (p = c :: s') := fun h => he h.symm
        simp [hd, he, he']
    · simp [hd]

theorem takeWhile_digits_append (ds : List Char) (c : Char) (t : List Char)
    (hds : ∀ x ∈ ds, isDecimalDigit x = true) (hc : isDecimalDigit c = false) :
    (ds ++ c :: t).takeWhile isDecimalDigit = ds := by
  induction ds with
  | nil => simp [List.takeWhile_cons, hc]
  | cons d ds' ih =>
    have hd : isDecimalDigit d = true := hds d (by simp)
    have hds' : ∀ x ∈ ds', isDecimalDigit x = true := fun x hx => hds x (List.mem_cons_of_mem _ hx)
    simp [List.takeWhile_cons, hd, ih hds']

theorem sep_not_mem_digits (ds : List Char) (hds : ∀ x ∈ ds, isDecimalDigit x = true) : '/' ∉ ds :=
  fun h => absurd (hds '/' h) (by decide)

/-- The team number read from `ns/Data/epoch/id/leaf`, for a leaf in which the expression
finds nothing: `id` when the epoch segment ends in `E2025`, the sentinel otherwise. -/
theorem teamNumberOf_dataTopic (ns epoch id leaf : List Char)
    (hns : '/' ∉ ns) (hep : '/' ∉ epoch) (hid : id ≠ [])
    (hdig : ∀ c ∈ id, isDecimalDigit c = true)
    (hleaf0 : leaf.takeWhile isDecimalDigit = []) (hleaf : matchTeam leaf = none) :
    teamNumberOf (ns ++ '/' :: ("Data".toList ++ '/' :: (epoch ++ '/' :: (id ++ '/' :: leaf)))) =
      if "E2025".toList.isSuffixOf epoch = true then id else "XX".toList := by
  have hidsep : '/' ∉ id := sep_not_mem_digits id hdig
  have htk : (id ++ '/' :: leaf).takeWhile isDecimalDigit = id :=
    takeWhile_digits_append id '/' leaf hdig (by decide)
  have h4 : matchTeam (id ++ '/' :: leaf) = none := by
    rw [matchTeam_segment id leaf hidsep, hleaf0,
      if_neg (fun hh => absurd hh.2 (by decide)), hleaf]
  have h3 : matchTeam (epoch ++ '/' :: (id ++ '/' :: leaf)) =
      if "E2025".toList.isSuffixOf epoch = true then some id else none := by
    rw [matchTeam_segment epoch _ hep, htk, h4]
    have hne : id.isEmpty = false := by
      cases id with
      | nil => exact absurd rfl hid
      | cons d ds => rfl
    by_cases h : "E2025".toList.isSuffixOf epoch = true
    · rw [if_pos ⟨h, hne⟩, if_pos h]
    · rw [if_neg (fun hh => h hh.1), if_neg h]
  have h2 : matchTeam ("Data".toList ++ '/' :: (epoch ++ '/' :: (id ++ '/' :: leaf))) =
      matchTeam (epoch ++ '/' :: (id ++ '/' :: leaf)) := by
    rw [matchTeam_segment "Data".toList _ (by decide),
      if_neg (fun hh => absurd hh.1 (by decide))]
  have h1 : matchTeam (ns ++ '/' :: ("Data".toList ++ '/' :: (epoch ++ '/' :: (id ++ '/' :: leaf)))) =
      matchTeam ("Data".toList ++ '/' :: (epoch ++ '/' :: (id ++ '/' :: leaf))) := by
    rw [matchTeam_segment ns _ hns]
    have : (("Data".toList ++ '/' :: (epoch ++ '/' :: (id ++ '/' :: leaf))).takeWhile
        isDecimalDigit).isEmpty = true := by
      show ((List.takeWhile isDecimalDigit ('D' :: _)).isEmpty = true)
      rw [List.takeWhile_cons_of_neg (by decide)]
      rfl
    rw [if_neg (fun hh => by rw [this] at hh; exact absurd hh.2 (by decide))]
  unfold teamNumberOf
  rw [h1, h2, h3]
  by_cases h : "E2025".toList.isSuffixOf epoch = true
  · rw [if_pos h, if_pos h]
  · rw [if_neg h, if_neg h]


/-! ## C1: routing of temperature topics -/

theorem includes_dataTopic_temperature (ns epoch id : List Char) :
    includes (dataTopic ns epoch id "temperature".toList) "/temperature".toList = true := by
  have h : dataTopic ns epoch id "temperature".toList =
      (ns ++ '/' :: ("Data".toList ++ '/' :: (epoch ++ '/' :: id))) ++
        ("/temperature".toList ++ []) := by
    simp [dataTopic]
  rw [h]
  exact includes_append_self _ _ _

/-- C1, as stated, fails: with epoch segment `E2024` the topic
`GTI700/Data/E2024/12/temperature` is routed to the temperature handler with team number
`XX`, not `12`. -/
theorem C1_counterexample :
    MQTTWebSocketClient.route (dataTopic "GTI700".toList "E2024".toList "12".toList
        "temperature".toList) "23.5".toList 0
      = some (.temperature "23.5".toList 0 "XX".toList) ∧
    MQTTDualClient.routeLocal (dataTopic "GTI700".toList "E2024".toList "12".toList
        "temperature".toList) "23.5".toList 0
      = some (.temperature "23.5".toList 0 "XX".toList) ∧
    "XX".toList ≠ "12".toList := by
  decide

/-- C1 (amended): for every topic `<namespace>/Data/<epoch>/<id>/temperature` whose
namespace and epoch are single levels and whose `<id>` is a non-empty string of decimal
digits, `handleMessage` and `handleLocalMessage` call `handleTemperatureMessage`, and the
team number they pass is `<id>` when the epoch level ends in `E2025` and the sentinel `XX`
otherwise. -/
theorem C1_temperature_topic_routed (ns epoch id msg : List Char) (ts n : Nat)
    (hns : '/' ∉ ns) (hep : '/' ∉ epoch) (hid : id ≠ [])
    (hdig : ∀ c ∈ id, isDecimalDigit c = true) :
    MQTTWebSocketClient.route (dataTopic ns epoch id "temperature".toList) msg ts
      = some (.temperature msg ts
          (if "E2025".toList.isSuffixOf epoch = true then id else "XX".toList)) ∧
    MQTTDualClient.routeLocal (dataTopic ns epoch id "temperature".toList) msg ts
      = some (.temperature msg ts
          (if "E2025".toList.isSuffixOf epoch = true then id else "XX".toList)) ∧
    (MQTTWebSocketClient.handleMessage n (dataTopic ns epoch id "temperature".toList) msg ts).2
      = MQTTWebSocketClient.handleTemperatureMessage msg ts
          (if "E2025".toList.isSuffixOf epoch = true then id else "XX".toList) ++
        [.onMessage { topic := dataTopic ns epoch id "temperature".toList, message := msg,
                      timestamp := ts,
                      teamNumber :=
                        if "E2025".toList.isSuffixOf epoch = true then id else "XX".toList }] ∧
    (MQTTDualClient.handleLocalMessage n (dataTopic ns epoch id "temperature".toList) msg ts).2
      = MQTTDualClient.handleTemperatureMessage msg ts
          (if "E2025".toList.isSuffixOf epoch = true then id else "XX".toList) := by
  have hteam := teamNumberOf_dataTopic ns epoch id "temperature".toList hns hep hid hdig
    (by decide) (by decide)
  have hinc := includes_dataTopic_temperature ns epoch id
  have hteam' : teamNumberOf (dataTopic ns epoch id "temperature".toList) =
      if "E2025".toList.isSuffixOf epoch = true then id else "XX".toList := hteam
  have h1 : MQTTWebSocketClient.route (dataTopic ns epoch id "temperature".toList) msg ts
      = some (.temperature msg ts
          (if "E2025".toList.isSuffixOf epoch = true then id else "XX".toList)) := by
    unfold MQTTWebSocketClient.route
    rw [hteam']
    simp only [hinc, if_true]
  have h2 : MQTTDualClient.routeLocal (dataTopic ns epoch id "temperature".toList) msg ts
      = some (.temperature msg ts
          (if "E2025".toList.isSuffixOf epoch = true then id else "XX".toList)) := by
    unfold MQTTDualClient.routeLocal
    rw [hteam']
    simp only [hinc, if_true]
  refine ⟨h1, h2, ?_, ?_⟩
  · unfold MQTTWebSocketClient.handleMessage
    rw [h1, hteam']
    rfl
  · unfold MQTTDualClient.handleLocalMessage
    rw [h2]
    rfl

/-- C1 witness: the configured topic of team 12. -/
theorem C1_temperature_topic_routed_witness :
    MQTTWebSocketClient.route "GTI700/Data/E2025/12/temperature".toList "23.5".toList 0
      = some (.temperature "23.5".toList 0 "12".toList) ∧
    MQTTDualClient.routeLocal "GTI700/Data/E2025/12/temperature".toList "23.5".toList 0
      = some (.temperature "23.5".toList 0 "12".toList) :=
  ⟨(C1_temperature_topic_routed "GTI700".toList "E2025".toList "12".toList "23.5".toList 0 0
      (by decide) (by decide) (by decide) (by decide)).1,
   (C1_temperature_topic_routed "GTI700".toList "E2025".toList "12".toList "23.5".toList 0 0
      (by decide) (by decide) (by decide) (by decide)).2.1⟩


/-! ## C2: topics outside the subscriptions -/

/-- C2, as stated, fails: `lab/temperature` matches none of the three subscription
patterns, yet `handleMessage` calls the temperature handler and emits `onTemperature`. -/
theorem C2_counterexample :
    (∀ p ∈ MQTTWebSocketClient.topics, topicMatches p "lab/temperature".toList = false) ∧
    MQTTWebSocketClient.route "lab/temperature".toList "23.5".toList 0
      = some (.temperature "23.5".toList 0 "XX".toList) ∧
    (MQTTWebSocketClient.handleMessage 0 "lab/temperature".toList "23.5".toList 0).2
      = [.onTemperature { value := .finite false 6614661952700416 (-48), timestamp := 0,
                          teamNumber := "XX".toList, unit := some "°C".toList,
                          broker := none },
         .onMessage { topic := "lab/temperature".toList, message := "23.5".toList,
                      timestamp := 0, teamNumber := "XX".toList }] := by
  decide

/-- C2 (amended): for every topic that contains none of the substrings `/temperature`,
`/humidite` and `/Alerts/`, `handleMessage` calls none of the three handlers and its only
emission is `onMessage`: no `onTemperature`, `onHumidity` or `onAlert`. -/
theorem C2_unrouted_topic_dropped (topic message : List Char) (ts n : Nat)
    (ht : includes topic "/temperature".toList = false)
    (hh : includes topic "/humidite".toList = false)
    (ha : includes topic "/Alerts/".toList = false) :
    MQTTWebSocketClient.route topic message ts = none ∧
    (MQTTWebSocketClient.handleMessage n topic message ts).2
      = [.onMessage { topic := topic, message := message, timestamp := ts,
                      teamNumber := teamNumberOf topic }] ∧
    (∀ e ∈ (MQTTWebSocketClient.handleMessage n topic message ts).2,
      e.isReading = false) := by
  have h1 : MQTTWebSocketClient.route topic message ts = none := by
    simp only [MQTTWebSocketClient.route, ht, hh, ha, Bool.false_eq_true, if_false]
  have h2 : (MQTTWebSocketClient.handleMessage n topic message ts).2
      = [.onMessage { topic := topic, message := message, timestamp := ts,
                      teamNumber := teamNumberOf topic }] := by
    unfold MQTTWebSocketClient.handleMessage
    rw [h1]
    rfl
  refine ⟨h1, h2, ?_⟩
  intro e he
  rw [h2] at he
  simp only [List.mem_singleton] at he
  subst he
  rfl

/-- C2 witness: the status topic of the dashboard. -/
theorem C2_unrouted_topic_dropped_witness :
    MQTTWebSocketClient.route "GTI700/Status/Dashboard".toList "online".toList 7 = none ∧
    (MQTTWebSocketClient.handleMessage 3 "GTI700/Status/Dashboard".toList "online".toList 7).2
      = [.onMessage { topic := "GTI700/Status/Dashboard".toList, message := "online".toList,
                      timestamp := 7,
                      teamNumber := teamNumberOf "GTI700/Status/Dashboard".toList }] :=
  ⟨(C2_unrouted_topic_dropped "GTI700/Status/Dashboard".toList "online".toList 7 3
      (by decide) (by decide) (by decide)).1,
   (C2_unrouted_topic_dropped "GTI700/Status/Dashboard".toList "online".toList 7 3
      (by decide) (by decide) (by decide)).2.1⟩


/-! ## C3 to C6: the alert payload decoders -/

/-- Both dashboard validators accept exactly the triples of integers within `0..255`. -/
theorem isValidRGB_iff (r g b : Option Int) :
    (MQTTWebSocketClient.isValidRGB r g b = true ↔
      ∃ x y z : Int, r = some x ∧ g = some y ∧ b = some z ∧
        0 ≤ x ∧ x ≤ 255 ∧ 0 ≤ y ∧ y ≤ 255 ∧ 0 ≤ z ∧ z ≤ 255) ∧
    (MQTTDualClient.isValidRGB r g b = true ↔
      ∃ x y z : Int, r = some x ∧ g = some y ∧ b = some z ∧
        0 ≤ x ∧ x ≤ 255 ∧ 0 ≤ y ∧ y ≤ 255 ∧ 0 ≤ z ∧ z ≤ 255) := by
  cases r <;> cases g <;> cases b <;>
    simp [MQTTWebSocketClient.isValidRGB, MQTTDualClient.isValidRGB, and_assoc]

/-- A three-field payload with a field that `parseInt` reads as `NaN` or outside `0..255`
is not decoded. -/
theorem parseRGBMessage_bad_channel (payload f0 f1 f2 : List Char)
    (hsplit : split ';' payload = [f0, f1, f2])
    (hbad : ∃ f ∈ [f0, f1, f2], ∀ v, parseInt f = some v → v < 0 ∨ 255 < v) :
    MQTTHelper.parseRGBMessage payload = none := by
  unfold MQTTHelper.parseRGBMessage
  rw [hsplit]
  obtain ⟨f, hf, hv⟩ := hbad
  simp only [List.mem_cons, List.mem_singleton, List.not_mem_nil, or_false] at hf
  cases h0 : parseInt f0 with
  | none => simp [h0]
  | some r =>
    cases h1 : parseInt f1 with
    | none => simp [h0, h1]
    | some g =>
      cases h2 : parseInt f2 with
      | none => simp [h0, h1, h2]
      | some b =>
        have hcond : r < 0 ∨ r > 255 ∨ g < 0 ∨ g > 255 ∨ b < 0 ∨ b > 255 := by
          rcases hf with rfl | rfl | rfl
          · have := hv r h0
            omega
          · have := hv g h1
            omega
          · have := hv b h2
            omega
        simp only [h0, h1, h2]
        rw [if_pos hcond]

/-- C3, as stated, fails: the fields `1.5` and `12abc` are not decimal integers, yet
`parseRGBMessage` accepts the payload `1.5;12abc;0` and returns the leading integers. -/
theorem C3_counterexample :
    split ';' "1.5;12abc;0".toList = ["1.5".toList, "12abc".toList, "0".toList] ∧
    MQTTHelper.parseRGBMessage "1.5;12abc;0".toList = some { r := 1, g := 12, b := 0 } := by
  decide

/-- C3 (amended): for every payload with exactly three `;`-separated fields in which some
field is read by `parseInt` as `NaN` (no leading integer) or as a value outside `0..255`,
`parseRGBMessage` returns `null`. -/
theorem C3_invalid_channel_rejected (payload f0 f1 f2 : List Char)
    (hsplit : split ';' payload = [f0, f1, f2])
    (hbad : ∃ f ∈ [f0, f1, f2], ∀ v, parseInt f = some v → v < 0 ∨ 255 < v) :
    MQTTHelper.parseRGBMessage payload = none :=
  parseRGBMessage_bad_channel payload f0 f1 f2 hsplit hbad

/-- C3 witness: the payload `300;0;0` of the spec. -/
theorem C3_invalid_channel_rejected_witness :
    MQTTHelper.parseRGBMessage "300;0;0".toList = none :=
  C3_invalid_channel_rejected "300;0;0".toList "300".toList "0".toList "0".toList
    (by decide) ⟨"300".toList, by decide, fun v hv => by
      have h : parseInt "300".toList = some 300 := by decide
      rw [h] at hv
      cases hv
      decide⟩


/-- What `parseRGBMessage` returns when it succeeds: the three `parseInt` values of
exactly three fields, all within `0..255`. -/
theorem parseRGBMessage_eq_some_iff (payload : List Char) (c : RGB) :
    MQTTHelper.parseRGBMessage payload = some c ↔
      ∃ f0 f1 f2, split ';' payload = [f0, f1, f2] ∧
        parseInt f0 = some c.r ∧ parseInt f1 = some c.g ∧ parseInt f2 = some c.b ∧
        0 ≤ c.r ∧ c.r ≤ 255 ∧ 0 ≤ c.g ∧ c.g ≤ 255 ∧ 0 ≤ c.b ∧ c.b ≤ 255 := by
  unfold MQTTHelper.parseRGBMessage
  generalize split ';' payload = l
  rcases l with _ | ⟨a0, _ | ⟨a1, _ | ⟨a2, _ | ⟨a3, l⟩⟩⟩⟩
  · simp
  · simp
  · simp
  · cases h0 : parseInt a0 with
    | none => simp [h0]
    | some r =>
      cases h1 : parseInt a1 with
      | none => simp [h0, h1]
      | some g =>
        cases h2 : parseInt a2 with
        | none => simp [h0, h1, h2]
        | some b =>
          simp only [h0, h1, h2]
          by_cases hc : r < 0 ∨ r > 255 ∨ g < 0 ∨ g > 255 ∨ b < 0 ∨ b > 255
          · rw [if_pos hc]
            constructor
            · intro h
              cases h
            · rintro ⟨f0, f1, f2, hl, e0, e1, e2, hr⟩
              simp only [List.cons.injEq, and_true] at hl
              obtain ⟨rfl, rfl, rfl⟩ := hl
              rw [h0] at e0
              rw [h1] at e1
              rw [h2] at e2
              cases e0
              cases e1
              cases e2
              omega
          · rw [if_neg hc]
            constructor
            · intro h
              cases h
              exact ⟨a0, a1, a2, rfl, h0, h1, h2, by dsimp only; omega⟩
            · rintro ⟨f0, f1, f2, hl, e0, e1, e2, _⟩
              simp only [List.cons.injEq, and_true] at hl
              obtain ⟨rfl, rfl, rfl⟩ := hl
              rw [h0] at e0
              rw [h1] at e1
              rw [h2] at e2
              cases e0
              cases e1
              cases e2
              rfl
  · simp

/-- The single-broker `handleAlertMessage` emits `onAlert` exactly for the payloads that
`parseRGBMessage` decodes, with the decoded colour. -/
theorem webSocket_handleAlertMessage_eq (payload team : List Char) (ts : Nat) :
    MQTTWebSocketClient.handleAlertMessage payload ts team =
      match MQTTHelper.parseRGBMessage payload with
      | some c => [.onAlert { teamNumber := team, rgb := c, timestamp := ts,
                              hexColor := MQTTWebSocketClient.rgbToHex c.r c.g c.b,
                              broker := none }]
      | none => [] := by
  unfold MQTTWebSocketClient.handleAlertMessage MQTTHelper.parseRGBMessage
  generalize split ';' payload = l
  rcases l with _ | ⟨a0, _ | ⟨a1, _ | ⟨a2, _ | ⟨a3, l⟩⟩⟩⟩ <;> try rfl
  cases h0 : parseInt a0 <;> cases h1 : parseInt a1 <;> cases h2 : parseInt a2 <;>
    simp only [h0, h1, h2, MQTTWebSocketClient.isValidRGB] <;> try rfl
  rename_i r g b
  by_cases hc : r < 0 ∨ r > 255 ∨ g < 0 ∨ g > 255 ∨ b < 0 ∨ b > 255
  · rw [if_pos hc, if_neg]
    simp only [Bool.and_eq_true, decide_eq_true_eq, not_and]
    omega
  · rw [if_neg hc, if_pos]
    simp only [Bool.and_eq_true, decide_eq_true_eq]
    omega

/-- The dual-broker `handleAlertMessage` emits `onAlert` exactly for the payloads that
`parseRGBMessage` decodes, with the decoded colour. -/
theorem dual_handleAlertMessage_eq (payload team : List Char) (ts : Nat) :
    MQTTDualClient.handleAlertMessage payload ts team =
      match MQTTHelper.parseRGBMessage payload with
      | some c => [.onAlert { teamNumber := team, rgb := c, timestamp := ts,
                              hexColor := MQTTDualClient.rgbToHex c.r c.g c.b,
                              broker := some "hivemq".toList }]
      | none => [] := by
  unfold MQTTDualClient.handleAlertMessage MQTTHelper.parseRGBMessage
  generalize split ';' payload = l
  rcases l with _ | ⟨a0, _ | ⟨a1, _ | ⟨a2, _ | ⟨a3, l⟩⟩⟩⟩ <;> try rfl
  cases h0 : parseInt a0 <;> cases h1 : parseInt a1 <;> cases h2 : parseInt a2 <;>
    simp only [h0, h1, h2, MQTTDualClient.isValidRGB, List.all_cons, List.all_nil,
      Bool.and_true, Bool.and_false, Bool.false_and, Bool.false_eq_true, if_false]
  rename_i r g b
  by_cases hc : r < 0 ∨ r > 255 ∨ g < 0 ∨ g > 255 ∨ b < 0 ∨ b > 255
  · rw [if_pos hc, if_neg]
    simp only [Bool.and_eq_true, decide_eq_true_eq, not_and]
    omega
  · rw [if_neg hc, if_pos]
    simp only [Bool.and_eq_true, decide_eq_true_eq]
    omega


/-- C4: for every payload, every emission of `handleAlertMessage`, in both dashboard
clients, is an `onAlert` whose channels `r`, `g`, `b` are integers within `0..255`; and
when a channel of a three-field payload is `NaN` or out of range, nothing is emitted. -/
theorem C4_alert_channels_valid (payload team : List Char) (ts : Nat) :
    (∀ e ∈ MQTTWebSocketClient.handleAlertMessage payload ts team,
      ∃ a, e = .onAlert a ∧ 0 ≤ a.rgb.r ∧ a.rgb.r ≤ 255 ∧ 0 ≤ a.rgb.g ∧ a.rgb.g ≤ 255 ∧
        0 ≤ a.rgb.b ∧ a.rgb.b ≤ 255) ∧
    (∀ e ∈ MQTTDualClient.handleAlertMessage payload ts team,
      ∃ a, e = .onAlert a ∧ 0 ≤ a.rgb.r ∧ a.rgb.r ≤ 255 ∧ 0 ≤ a.rgb.g ∧ a.rgb.g ≤ 255 ∧
        0 ≤ a.rgb.b ∧ a.rgb.b ≤ 255) ∧
    (∀ f0 f1 f2, split ';' payload = [f0, f1, f2] →
      (∃ f ∈ [f0, f1, f2], ∀ v, parseInt f = some v → v < 0 ∨ 255 < v) →
      MQTTWebSocketClient.handleAlertMessage payload ts team = [] ∧
      MQTTDualClient.handleAlertMessage payload ts team = []) := by
  rw [webSocket_handleAlertMessage_eq, dual_handleAlertMessage_eq]
  refine ⟨?_, ?_, ?_⟩
  · intro e he
    cases hp : MQTTHelper.parseRGBMessage payload with
    | none => rw [hp] at he; cases he
    | some c =>
      rw [hp] at he
      simp only [List.mem_singleton] at he
      obtain ⟨_, _, _, _, _, _, _, hr⟩ := (parseRGBMessage_eq_some_iff payload c).1 hp
      exact ⟨_, he, hr⟩
  · intro e he
    cases hp : MQTTHelper.parseRGBMessage payload with
    | none => rw [hp] at he; cases he
    | some c =>
      rw [hp] at he
      simp only [List.mem_singleton] at he
      obtain ⟨_, _, _, _, _, _, _, hr⟩ := (parseRGBMessage_eq_some_iff payload c).1 hp
      exact ⟨_, he, hr⟩
  · intro f0 f1 f2 hsplit hbad
    rw [parseRGBMessage_bad_channel payload f0 f1 f2 hsplit hbad]
    exact ⟨rfl, rfl⟩

/-- C4 witness: `255;0;0` is emitted with channels in range, `255;300;0` is not emitted. -/
theorem C4_alert_channels_valid_witness :
    (∀ e ∈ MQTTWebSocketClient.handleAlertMessage "255;0;0".toList 0 "12".toList,
      ∃ a, e = .onAlert a ∧ 0 ≤ a.rgb.r ∧ a.rgb.r ≤ 255 ∧ 0 ≤ a.rgb.g ∧ a.rgb.g ≤ 255 ∧
        0 ≤ a.rgb.b ∧ a.rgb.b ≤ 255) ∧
    MQTTWebSocketClient.handleAlertMessage "255;0;0".toList 0 "12".toList ≠ [] ∧
    (MQTTWebSocketClient.handleAlertMessage "255;300;0".toList 0 "12".toList = [] ∧
      MQTTDualClient.handleAlertMessage "255;300;0".toList 0 "12".toList = []) :=
  ⟨(C4_alert_channels_valid "255;0;0".toList "12".toList 0).1, by decide,
   (C4_alert_channels_valid "255;300;0".toList "12".toList 0).2.2
      "255".toList "300".toList "0".toList (by decide)
      ⟨"300".toList, by decide, fun v hv => by
        have h : parseInt "300".toList = some 300 := by decide
        rw [h] at hv
        cases hv
        decide⟩⟩

/-- C5: for every payload whose number of `;`-separated fields is not 3,
`parseRGBMessage` returns `null` and `handleAlertMessage` of both dashboard clients emits
nothing. -/
theorem C5_wrong_field_count_rejected (payload team : List Char) (ts : Nat)
    (hlen : (split ';' payload).length ≠ 3) :
    MQTTHelper.parseRGBMessage payload = none ∧
    MQTTWebSocketClient.handleAlertMessage payload ts team = [] ∧
    MQTTDualClient.handleAlertMessage payload ts team = [] := by
  have h : MQTTHelper.parseRGBMessage payload = none := by
    cases hp : MQTTHelper.parseRGBMessage payload with
    | none => rfl
    | some c =>
      obtain ⟨f0, f1, f2, hs, _⟩ := (parseRGBMessage_eq_some_iff payload c).1 hp
      rw [hs] at hlen
      exact absurd rfl hlen
  rw [webSocket_handleAlertMessage_eq, dual_handleAlertMessage_eq, h]
  exact ⟨rfl, rfl, rfl⟩

/-- C5 witness: the two-field payload `1;2` of the spec. -/
theorem C5_wrong_field_count_rejected_witness :
    MQTTHelper.parseRGBMessage "1;2".toList = none ∧
    MQTTWebSocketClient.handleAlertMessage "1;2".toList 0 "12".toList = [] ∧
    MQTTDualClient.handleAlertMessage "1;2".toList 0 "12".toList = [] :=
  C5_wrong_field_count_rejected "1;2".toList "12".toList 0 (by decide)

theorem split_of_not_mem (sep : Char) (a : List Char) (ha : sep ∉ a) :
    split sep a = [a] := by
  induction a with
  | nil => rfl
  | cons c cs ih =>
    have hc : c ≠ sep := fun h => ha (by simp [h])
    have hcs : sep ∉ cs := fun h => ha (List.mem_cons_of_mem _ h)
    rw [split, if_neg hc, ih hcs]

theorem split_append_sep (sep : Char) (a rest : List Char) (ha : sep ∉ a) :
    split sep (a ++ sep :: rest) = a :: split sep rest := by
  induction a with
  | nil => simp [split]
  | cons c cs ih =>
    have hc : c ≠ sep := fun h => ha (by simp [h])
    have hcs : sep ∉ cs := fun h => ha (List.mem_cons_of_mem _ h)
    rw [List.cons_append, split, if_neg hc, ih hcs]

set_option maxRecDepth 100000 in
/-- The decimal rendering of a channel value is read back by `parseInt` and holds no `;`. -/
theorem parseInt_decimalString (n : Nat) (h : n ≤ 255) :
    parseInt (decimalString n) = some (n : Int) ∧ ';' ∉ decimalString n := by
  have key : ∀ m : Fin 256, parseInt (decimalString m.val) = some (m.val : Int) ∧
      ';' ∉ decimalString m.val := by
    decide
  exact key ⟨n, by omega⟩

/-- C6: round trip of the alert wire format: for all integers `r`, `g`, `b` within
`0..255`, `parseRGBMessage` applied to their decimal renderings joined by `;` returns
exactly `{r, g, b}`. -/
theorem C6_alert_payload_round_trip (r g b : Nat) (hr : r ≤ 255) (hg : g ≤ 255)
    (hb : b ≤ 255) :
    MQTTHelper.parseRGBMessage (alertPayload r g b) = some { r := r, g := g, b := b } := by
  obtain ⟨pr, sr⟩ := parseInt_decimalString r hr
  obtain ⟨pg, sg⟩ := parseInt_decimalString g hg
  obtain ⟨pb, sb⟩ := parseInt_decimalString b hb
  rw [parseRGBMessage_eq_some_iff]
  refine ⟨decimalString r, decimalString g, decimalString b, ?_, pr, pg, pb, ?_⟩
  · unfold alertPayload
    rw [split_append_sep _ _ _ sr, split_append_sep _ _ _ sg, split_of_not_mem _ _ sb]
  · dsimp only
    omega

/-- C6 witness: the payload `255;0;0` of the spec. -/
theorem C6_alert_payload_round_trip_witness :
    MQTTHelper.parseRGBMessage "255;0;0".toList = some { r := 255, g := 0, b := 0 } :=
  C6_alert_payload_round_trip 255 0 0 (by decide) (by decide) (by decide)


/-! ## The Number value: binary64 rounding -/

/-- With enough fuel the halving count brackets `n` between two powers of two. -/
theorem log2Aux_spec (fuel n : Nat) (h1 : 1 ≤ n) (hf : n ≤ fuel) :
    2 ^ log2Aux fuel n ≤ n ∧ n < 2 ^ (log2Aux fuel n + 1) := by
  induction fuel generalizing n with
  | zero => omega
  | succ fuel ih =>
    unfold log2Aux
    split
    · constructor <;> simp <;> omega
    · have h2 : 2 ≤ n := by omega
      obtain ⟨l1, l2⟩ := ih (n / 2) (by omega) (by omega)
      constructor
      · rw [pow_succ]; omega
      · rw [pow_succ]; omega

/-- A power of two with an integer exponent as a quotient of two natural powers. -/
theorem zpow_two_split (k : ℤ) :
    (2 : ℚ) ^ k = (2 : ℚ) ^ k.toNat / (2 : ℚ) ^ (-k).toNat := by
  rcases le_total 0 k with h | h
  · have h1 : (-k).toNat = 0 := Int.toNat_eq_zero.2 (by omega)
    rw [h1, pow_zero, div_one, ← zpow_natCast, Int.toNat_of_nonneg h]
  · have h1 : k.toNat = 0 := Int.toNat_eq_zero.2 h
    have h2 : ((-k).toNat : ℤ) = -k := Int.toNat_of_nonneg (by omega)
    rw [h1, pow_zero, ← zpow_natCast, h2, zpow_neg, one_div, inv_inv]

/-- The exponent found by `floorLog2` brackets the quotient. -/
theorem floorLog2_spec (a b : Nat) (ha : 0 < a) (hb : 0 < b) :
    (2 : ℚ) ^ floorLog2 a b ≤ (a : ℚ) / b ∧ (a : ℚ) / b < (2 : ℚ) ^ (floorLog2 a b + 1) := by
  obtain ⟨a1, a2⟩ := log2Aux_spec a a ha le_rfl
  obtain ⟨b1, b2⟩ := log2Aux_spec b b hb le_rfl
  unfold floorLog2
  dsimp only
  generalize log2Aux a a = la at a1 a2 ⊢
  generalize log2Aux b b = lb at b1 b2 ⊢
  have hbq : (0 : ℚ) < b := by exact_mod_cast hb
  have a1q : (2 : ℚ) ^ la ≤ a := by exact_mod_cast a1
  have a2q : (a : ℚ) < 2 ^ (la + 1) := by exact_mod_cast a2
  have b1q : (2 : ℚ) ^ lb ≤ b := by exact_mod_cast b1
  have b2q : (b : ℚ) < 2 ^ (lb + 1) := by exact_mod_cast b2
  have hpa : (0 : ℚ) < 2 ^ la := by positivity
  have hpb : (0 : ℚ) < 2 ^ lb := by positivity
  have hup : (a : ℚ) / b < (2 : ℚ) ^ ((la : ℤ) - lb + 1) := by
    have e : (2 : ℚ) ^ ((la : ℤ) - lb + 1) = 2 ^ (la + 1) / 2 ^ lb := by
      rw [show (la : ℤ) - lb + 1 = ((la + 1 : ℕ) : ℤ) - (lb : ℕ) by push_cast; ring,
        zpow_sub₀ (by norm_num), zpow_natCast, zpow_natCast]
    rw [e, div_lt_div_iff₀ hbq hpb]
    calc (a : ℚ) * 2 ^ lb ≤ a * b := by
          apply mul_le_mul_of_nonneg_left b1q (by positivity)
      _ < 2 ^ (la + 1) * b := by
          apply mul_lt_mul_of_pos_right a2q hbq
  have hlo : (2 : ℚ) ^ ((la : ℤ) - lb - 1) < (a : ℚ) / b := by
    have e : (2 : ℚ) ^ ((la : ℤ) - lb - 1) = 2 ^ la / 2 ^ (lb + 1) := by
      rw [show (la : ℤ) - lb - 1 = ((la : ℕ) : ℤ) - ((lb + 1 : ℕ) : ℤ) by push_cast; ring,
        zpow_sub₀ (by norm_num), zpow_natCast, zpow_natCast]
    rw [e, div_lt_div_iff₀ (by positivity) hbq]
    calc (2 : ℚ) ^ la * b < 2 ^ la * 2 ^ (lb + 1) := by
          apply mul_lt_mul_of_pos_left b2q hpa
      _ ≤ a * 2 ^ (lb + 1) := by
          apply mul_le_mul_of_nonneg_right a1q (by positivity)
  generalize hk : (la : ℤ) - (lb : ℤ) = k at hup hlo ⊢
  have hC : (b * 2 ^ k.toNat ≤ a * 2 ^ (-k).toNat) ↔ (2 : ℚ) ^ k ≤ (a : ℚ) / b := by
    rw [zpow_two_split k, div_le_div_iff₀ (by positivity) hbq]
    constructor
    · intro h
      have : ((b * 2 ^ k.toNat : ℕ) : ℚ) ≤ ((a * 2 ^ (-k).toNat : ℕ) : ℚ) := by
        exact_mod_cast h
      push_cast at this
      linarith
    · intro h
      have : ((b * 2 ^ k.toNat : ℕ) : ℚ) ≤ ((a * 2 ^ (-k).toNat : ℕ) : ℚ) := by
        push_cast
        linarith
      exact_mod_cast this
  split
  · rename_i h
    exact ⟨hC.1 h, hup⟩
  · rename_i h
    refine ⟨le_of_lt hlo, ?_⟩
    rw [sub_add_cancel]
    exact lt_of_not_le (fun hle => h (hC.2 hle))

/-- Rounding to the nearest integer, in integers: the result is within half of the
quotient, and at exactly half it is even. -/
theorem roundHalfEven_int (num den : Nat) (hd : 0 < den) :
    2 * (roundHalfEven num den * den) ≤ 2 * num + den ∧
    2 * num ≤ 2 * (roundHalfEven num den * den) + den ∧
    ((2 * (roundHalfEven num den * den) = 2 * num + den ∨
      2 * num = 2 * (roundHalfEven num den * den) + den) →
      roundHalfEven num den % 2 = 0) := by
  have hdm := Nat.div_add_mod num den
  have hr := Nat.mod_lt num hd
  unfold roundHalfEven
  dsimp only
  generalize num % den = r at hdm hr ⊢
  generalize num / den = n0 at hdm ⊢
  have e1 : n0 * den = den * n0 := mul_comm _ _
  have e2 : (n0 + 1) * den = den * n0 + den := by rw [add_mul, e1, one_mul]
  generalize den * n0 = P at hdm e1 e2
  split_ifs with h1 h2 h3
  · rw [e1]; omega
  · rw [e2]; omega
  · rw [e1]; omega
  · rw [e2]; omega

/-- Rounding to the nearest integer: the result is within `1 / 2` of the quotient, and at
exactly `1 / 2` it is even. -/
theorem roundHalfEven_spec (num den : Nat) (hd : 0 < den) :
    |((roundHalfEven num den : ℕ) : ℚ) - (num : ℚ) / den| ≤ 1 / 2 ∧
    (|((roundHalfEven num den : ℕ) : ℚ) - (num : ℚ) / den| = 1 / 2 →
      roundHalfEven num den % 2 = 0) := by
  obtain ⟨h1, h2, h3⟩ := roundHalfEven_int num den hd
  generalize roundHalfEven num den = n at h1 h2 h3 ⊢
  have hden : (0 : ℚ) < den := by exact_mod_cast hd
  have key : (n : ℚ) - (num : ℚ) / den = ((n : ℚ) * den - num) / den := by
    field_simp
  have q1 : (2 : ℚ) * ((n : ℚ) * den) ≤ 2 * num + den := by exact_mod_cast h1
  have q2 : (2 : ℚ) * num ≤ 2 * ((n : ℚ) * den) + den := by exact_mod_cast h2
  rw [key]
  constructor
  · rw [abs_le]
    constructor
    · rw [le_div_iff₀ hden]; linarith
    · rw [div_le_iff₀ hden]; linarith
  · intro h
    apply h3
    rcases abs_eq (by norm_num : (0 : ℚ) ≤ 1 / 2) |>.1 h with h | h
    · left
      rw [div_eq_iff (ne_of_gt hden)] at h
      have : (2 : ℚ) * ((n : ℚ) * den) = 2 * num + den := by linarith
      exact_mod_cast this
    · right
      rw [div_eq_iff (ne_of_gt hden)] at h
      have : (2 : ℚ) * num = 2 * ((n : ℚ) * den) + den := by linarith
      exact_mod_cast this

/-- The integer chosen by rounding is at least as near as any other integer. -/
theorem nearest_integer (n j : Nat) (t : ℚ) (hn : |(n : ℚ) - t| ≤ 1 / 2) :
    |(n : ℚ) - t| ≤ |(j : ℚ) - t| ∧ (j ≠ n → 1 / 2 ≤ |(j : ℚ) - t|) := by
  have hne : j ≠ n → 1 / 2 ≤ |(j : ℚ) - t| := by
    intro hjn
    have h1 : (1 : ℚ) ≤ |(j : ℚ) - n| := by
      have : (1 : ℤ) ≤ |(j : ℤ) - n| := Int.one_le_abs (by omega)
      exact_mod_cast this
    have h2 : |(j : ℚ) - n| ≤ |(j : ℚ) - t| + |(n : ℚ) - t| := by
      have := abs_sub_le (j : ℚ) t n
      rwa [abs_sub_comm t (n : ℚ)] at this
    linarith
  refine ⟨?_, hne⟩
  by_cases hjn : j = n
  · rw [hjn]
  · exact le_trans hn (hne hjn)

/-- The rounded multiple of the quantum `2 ^ q` is nearest to `x` among all values
`m' * 2 ^ p'` with `m' < 2 ^ 53` and `p' ≥ -1074`, and in a tie its multiplier is even. -/
theorem nearest_core (x t : ℚ) (n : Nat) (q : Int) (hx : x = t * 2 ^ q)
    (hn : |(n : ℚ) - t| ≤ 1 / 2) (heven : |(n : ℚ) - t| = 1 / 2 → n % 2 = 0)
    (hlow : -1074 < q → (2 : ℚ) ^ 52 ≤ t) (m' : Nat) (p' : Int) (hm' : m' < 2 ^ 53)
    (hp' : -1074 ≤ p') :
    |(n : ℚ) * 2 ^ q - x| ≤ |(m' : ℚ) * 2 ^ p' - x| ∧
    ((m' : ℚ) * 2 ^ p' ≠ (n : ℚ) * 2 ^ q →
      |(n : ℚ) * 2 ^ q - x| = |(m' : ℚ) * 2 ^ p' - x| → n % 2 = 0) := by
  have hg : (0 : ℚ) < 2 ^ q := by positivity
  have hv : |(n : ℚ) * 2 ^ q - x| = |(n : ℚ) - t| * 2 ^ q := by
    rw [hx, ← sub_mul, abs_mul, abs_of_pos hg]
  by_cases hp : q ≤ p'
  · have hsplit : (2 : ℚ) ^ p' = (2 : ℚ) ^ (p' - q).toNat * 2 ^ q := by
      rw [← zpow_natCast, Int.toNat_of_nonneg (by omega), ← zpow_add₀ (by norm_num)]
      congr 1
      ring
    have hy : (m' : ℚ) * 2 ^ p' = ((m' * 2 ^ (p' - q).toNat : ℕ) : ℚ) * 2 ^ q := by
      rw [hsplit]
      push_cast
      ring
    generalize m' * 2 ^ (p' - q).toNat = j at hy
    have hyv : |(m' : ℚ) * 2 ^ p' - x| = |(j : ℚ) - t| * 2 ^ q := by
      rw [hy, hx, ← sub_mul, abs_mul, abs_of_pos hg]
    obtain ⟨hle, hne⟩ := nearest_integer n j t hn
    rw [hv, hyv]
    refine ⟨mul_le_mul_of_nonneg_right hle (le_of_lt hg), ?_⟩
    intro hdiff htie
    have hjn : j ≠ n := by
      intro h
      apply hdiff
      rw [hy, h]
    have h1 := hne hjn
    have h2 : |(n : ℚ) - t| = |(j : ℚ) - t| := by
      have := mul_right_cancel₀ (ne_of_gt hg) htie
      exact this
    apply heven
    linarith
  · have hq : -1074 < q := by omega
    have ht := hlow hq
    obtain ⟨hle, _⟩ := nearest_integer n (2 ^ 52) t hn
    have hc : ((2 ^ 52 : ℕ) : ℚ) = 2 ^ 52 := by norm_cast
    have h52 : |((2 ^ 52 : ℕ) : ℚ) - t| = t - 2 ^ 52 := by
      rw [hc, abs_sub_comm, abs_of_nonneg (by linarith)]
    rw [h52] at hle
    have hy : (m' : ℚ) * 2 ^ p' < 2 ^ 52 * 2 ^ q := by
      have h1 : (m' : ℚ) < 2 ^ 53 := by exact_mod_cast hm'
      have h2 : (2 : ℚ) ^ p' ≤ 2 ^ (q - 1) :=
        zpow_le_zpow_right₀ (by norm_num) (by omega)
      have h3 : (2 : ℚ) ^ 53 * 2 ^ (q - 1) = 2 ^ 52 * 2 ^ q := by
        rw [zpow_sub_one₀ (by norm_num)]
        ring
      calc (m' : ℚ) * 2 ^ p' < 2 ^ 53 * 2 ^ p' := by
            apply mul_lt_mul_of_pos_right h1 (by positivity)
        _ ≤ 2 ^ 53 * 2 ^ (q - 1) := by
            apply mul_le_mul_of_nonneg_left h2 (by positivity)
        _ = 2 ^ 52 * 2 ^ q := h3
    have hxl : (2 : ℚ) ^ 52 * 2 ^ q ≤ x := by
      rw [hx]
      exact mul_le_mul_of_nonneg_right ht (le_of_lt hg)
    have hyv : |(m' : ℚ) * 2 ^ p' - x| = x - (m' : ℚ) * 2 ^ p' := by
      rw [abs_sub_comm, abs_of_nonneg (by linarith)]
    have hlt : |(n : ℚ) * 2 ^ q - x| < |(m' : ℚ) * 2 ^ p' - x| := by
      rw [hv, hyv]
      calc |(n : ℚ) - t| * 2 ^ q ≤ (t - 2 ^ 52) * 2 ^ q :=
            mul_le_mul_of_nonneg_right hle (le_of_lt hg)
        _ = x - 2 ^ 52 * 2 ^ q := by rw [hx]; ring
        _ < x - (m' : ℚ) * 2 ^ p' := by linarith
    exact ⟨le_of_lt hlt, fun _ htie => absurd htie (ne_of_lt hlt)⟩

/-- The overflow threshold of binary64 rounding, `2 ^ 1024 - 2 ^ 970`, in two forms. -/
theorem threshold_eq :
    (2 : ℚ) ^ (1024 : ℤ) - 2 ^ (970 : ℤ) = (2 ^ 53 - 1 / 2) * 2 ^ (971 : ℤ) ∧
    (2 : ℚ) ^ (1023 : ℤ) < (2 : ℚ) ^ (1024 : ℤ) - 2 ^ (970 : ℤ) ∧
    (2 : ℚ) ^ (1024 : ℤ) - 2 ^ (970 : ℤ) ≤ 2 ^ (1024 : ℤ) := by
  have e1 : (2 : ℚ) ^ (1024 : ℤ) = 2 ^ 53 * 2 ^ (971 : ℤ) := by
    rw [show (1024 : ℤ) = ((53 : ℕ) : ℤ) + 971 by norm_num, zpow_add₀ (by norm_num),
      zpow_natCast]
  have e2 : (2 : ℚ) ^ (970 : ℤ) = 1 / 2 * 2 ^ (971 : ℤ) := by
    rw [show (970 : ℤ) = 971 - 1 by norm_num, zpow_sub_one₀ (by norm_num)]
    ring
  have e3 : (2 : ℚ) ^ (1024 : ℤ) = 2 * 2 ^ (1023 : ℤ) := by
    rw [show (1024 : ℤ) = 1023 + 1 by norm_num, zpow_add_one₀ (by norm_num)]
    ring
  have e4 : (2 : ℚ) ^ (970 : ℤ) < 2 ^ (1023 : ℤ) :=
    zpow_lt_zpow_right₀ (by norm_num) (by norm_num)
  have e5 : (0 : ℚ) < 2 ^ (970 : ℤ) := by positivity
  refine ⟨by rw [e1, e2]; ring, by rw [e3]; linarith, by linarith⟩

/-- The Number value for a positive quotient `a / b`: `Infinity` exactly from
`2 ^ 1024 - 2 ^ 970` on; below that a finite value in IEEE form (`mant < 2 ^ 53`,
`-1074 ≤ exp2 ≤ 971`, `mant ≥ 2 ^ 52` unless `exp2 = -1074`) that is nearest to `a / b`
among all values `m' * 2 ^ p'` with `m' < 2 ^ 53` and `p' ≥ -1074`, with an even mantissa
when another such value is equally near. -/
theorem numberValue_spec (neg : Bool) (a b : Nat) (ha : 0 < a) (hb : 0 < b) :
    (numberValue neg a b = .infinity neg ∧
      (2 : ℚ) ^ (1024 : ℤ) - 2 ^ (970 : ℤ) ≤ (a : ℚ) / b) ∨
    (∃ m p, numberValue neg a b = .finite neg m p ∧ m < 2 ^ 53 ∧ -1074 ≤ p ∧ p ≤ 971 ∧
      (2 ^ 52 ≤ m ∨ p = -1074) ∧ (a : ℚ) / b < (2 : ℚ) ^ (1024 : ℤ) - 2 ^ (970 : ℤ) ∧
      ∀ (m' : Nat) (p' : Int), m' < 2 ^ 53 → -1074 ≤ p' →
        |(m : ℚ) * 2 ^ p - (a : ℚ) / b| ≤ |(m' : ℚ) * 2 ^ p' - (a : ℚ) / b| ∧
        ((m' : ℚ) * 2 ^ p' ≠ (m : ℚ) * 2 ^ p →
          |(m : ℚ) * 2 ^ p - (a : ℚ) / b| = |(m' : ℚ) * 2 ^ p' - (a : ℚ) / b| →
          m % 2 = 0)) := by
  obtain ⟨he1, he2⟩ := floorLog2_spec a b ha hb
  obtain ⟨hT1, hT2, hT3⟩ := threshold_eq
  have ha0 : a ≠ 0 := by omega
  unfold numberValue
  rw [if_neg ha0]
  dsimp only
  generalize floorLog2 a b = e at he1 he2 ⊢
  generalize hq : max e (-1022) - 52 = q
  have hq1 : -1074 ≤ q := by omega
  have hq2 : e ≤ q + 52 := by omega
  have hq3 : -1074 < q → q + 52 = e := by omega
  have hbq : (0 : ℚ) < b := by exact_mod_cast hb
  have haq : (0 : ℚ) < a := by exact_mod_cast ha
  generalize hxdef : (a : ℚ) / b = x at he1 he2 ⊢
  have hg : (0 : ℚ) < 2 ^ q := by positivity
  have hdenpos : 0 < b * 2 ^ q.toNat := by positivity
  have ht : ((a * 2 ^ (-q).toNat : ℕ) : ℚ) / ((b * 2 ^ q.toNat : ℕ) : ℚ) = x / 2 ^ q := by
    rw [← hxdef, zpow_two_split q]
    push_cast
    field_simp
  obtain ⟨hn, heven⟩ := roundHalfEven_spec (a * 2 ^ (-q).toNat) (b * 2 ^ q.toNat) hdenpos
  rw [ht] at hn heven
  generalize roundHalfEven (a * 2 ^ (-q).toNat) (b * 2 ^ q.toNat) = n at hn heven ⊢
  generalize htdef : x / 2 ^ q = t at hn heven
  have hxt : x = t * 2 ^ q := by
    rw [← htdef]
    field_simp
  have hup : x < 2 ^ 53 * 2 ^ q := by
    calc x < 2 ^ (e + 1) := he2
      _ ≤ 2 ^ (q + 53) := zpow_le_zpow_right₀ (by norm_num) (by omega)
      _ = 2 ^ 53 * 2 ^ q := by
          rw [show q + 53 = ((53 : ℕ) : ℤ) + q by push_cast; ring, zpow_add₀ (by norm_num),
            zpow_natCast]
  have ht53 : t < 2 ^ 53 := by
    rw [hxt] at hup
    exact lt_of_mul_lt_mul_right hup (le_of_lt hg)
  have hlow : -1074 < q → (2 : ℚ) ^ 52 ≤ t := by
    intro h
    have h1 : (2 : ℚ) ^ 52 * 2 ^ q ≤ t * 2 ^ q := by
      rw [← hxt]
      calc (2 : ℚ) ^ 52 * 2 ^ q = 2 ^ (q + 52) := by
            rw [show q + 52 = ((52 : ℕ) : ℤ) + q by push_cast; ring,
              zpow_add₀ (by norm_num), zpow_natCast]
        _ = 2 ^ e := by rw [hq3 h]
        _ ≤ x := he1
    exact le_of_mul_le_mul_right h1 hg
  have hnle := (abs_le.1 hn).2
  have hnge := (abs_le.1 hn).1
  have hn53 : n ≤ 2 ^ 53 := by
    have h1 : (n : ℚ) < ((2 ^ 53 + 1 : ℕ) : ℚ) := by
      push_cast
      linarith
    have := Nat.cast_lt.1 h1
    omega
  have hcore := nearest_core x t n q hxt hn heven hlow
  by_cases hn2 : n = 2 ^ 53
  · rw [if_pos hn2]
    dsimp only
    have hnq : (n : ℚ) = 2 ^ 53 := by rw [hn2]; norm_cast
    by_cases hq971 : q + 1 > 971
    · rw [if_pos hq971]
      left
      refine ⟨rfl, ?_⟩
      rw [hT1, hxt]
      have h1 : (2 : ℚ) ^ (971 : ℤ) ≤ 2 ^ q := zpow_le_zpow_right₀ (by norm_num) (by omega)
      have h2 : (2 : ℚ) ^ 53 - 1 / 2 ≤ t := by linarith
      calc ((2 : ℚ) ^ 53 - 1 / 2) * 2 ^ (971 : ℤ) ≤ (2 ^ 53 - 1 / 2) * 2 ^ q :=
            mul_le_mul_of_nonneg_left h1 (by norm_num)
        _ ≤ t * 2 ^ q := mul_le_mul_of_nonneg_right h2 (le_of_lt hg)
    · rw [if_neg hq971]
      right
      have hv : ((2 ^ 52 : ℕ) : ℚ) * 2 ^ (q + 1) = (n : ℚ) * 2 ^ q := by
        rw [hnq, zpow_add_one₀ (by norm_num)]
        push_cast
        ring
      refine ⟨2 ^ 52, q + 1, rfl, by norm_num, by omega, by omega, Or.inl le_rfl, ?_, ?_⟩
      · calc x < 2 ^ 53 * 2 ^ q := hup
          _ = 2 ^ (q + 53) := by
              rw [show q + 53 = ((53 : ℕ) : ℤ) + q by push_cast; ring,
                zpow_add₀ (by norm_num), zpow_natCast]
          _ ≤ 2 ^ (1023 : ℤ) := zpow_le_zpow_right₀ (by norm_num) (by omega)
          _ < _ := hT2
      · intro m' p' hm' hp'
        rw [hv]
        obtain ⟨c1, _⟩ := hcore m' p' hm' hp'
        exact ⟨c1, fun _ _ => by norm_num⟩
  · rw [if_neg hn2]
    dsimp only
    have hnlt : n < 2 ^ 53 := by omega
    by_cases hq971 : q > 971
    · rw [if_pos hq971]
      left
      refine ⟨rfl, ?_⟩
      calc (2 : ℚ) ^ (1024 : ℤ) - 2 ^ (970 : ℤ) ≤ 2 ^ (1024 : ℤ) := hT3
        _ ≤ 2 ^ e := zpow_le_zpow_right₀ (by norm_num) (by omega)
        _ ≤ x := he1
    · rw [if_neg hq971]
      right
      refine ⟨n, q, rfl, hnlt, hq1, by omega, ?_, ?_, ?_⟩
      · by_cases hq0 : q = -1074
        · exact Or.inr hq0
        · left
          have h1 := hlow (by omega)
          have h2 : (((2 ^ 52 - 1 : ℕ)) : ℚ) < (n : ℚ) := by
            have hc : (((2 ^ 52 - 1 : ℕ)) : ℚ) = 2 ^ 52 - 1 := by norm_num
            rw [hc]
            linarith
          have := Nat.cast_lt.1 h2
          omega
      · by_contra hge
        have hge' : (2 : ℚ) ^ (1024 : ℤ) - 2 ^ (970 : ℤ) ≤ x := le_of_not_lt hge
        have hq' : q = 971 := by
          by_contra hne
          have h1 : x < 2 ^ (1023 : ℤ) := by
            calc x < 2 ^ 53 * 2 ^ q := hup
              _ = 2 ^ (q + 53) := by
                  rw [show q + 53 = ((53 : ℕ) : ℤ) + q by push_cast; ring,
                    zpow_add₀ (by norm_num), zpow_natCast]
              _ ≤ 2 ^ (1023 : ℤ) := zpow_le_zpow_right₀ (by norm_num) (by omega)
          linarith
        rw [hT1, hxt, hq'] at hge'
        have h2 : (2 : ℚ) ^ 53 - 1 / 2 ≤ t :=
          le_of_mul_le_mul_right hge' (by positivity)
        have h3 : (((2 ^ 53 - 2 : ℕ)) : ℚ) < (n : ℚ) := by
          have hc : (((2 ^ 53 - 2 : ℕ)) : ℚ) = 2 ^ 53 - 2 := by norm_num
          rw [hc]
          linarith
        have h4 := Nat.cast_lt.1 h3
        have h5 : n = 2 ^ 53 - 1 := by omega
        have h6 : (n : ℚ) = 2 ^ 53 - 1 := by rw [h5]; norm_num
        have h7 : |(n : ℚ) - t| = 1 / 2 := by
          apply le_antisymm hn
          rw [abs_sub_comm, abs_of_nonneg (by linarith)]
          linarith
        have h8 := heven h7
        omega
      · intro m' p' hm' hp'
        exact hcore m' p' hm' hp'


/-- The Number value for a quotient `a / b` that may be zero: see `numberValue_spec`. -/
theorem numberValue_spec_zero (neg : Bool) (a b : Nat) (hb : 0 < b) :
    (numberValue neg a b = .infinity neg ∧
      (2 : ℚ) ^ (1024 : ℤ) - 2 ^ (970 : ℤ) ≤ (a : ℚ) / b) ∨
    (∃ m p, numberValue neg a b = .finite neg m p ∧ m < 2 ^ 53 ∧ -1074 ≤ p ∧ p ≤ 971 ∧
      (2 ^ 52 ≤ m ∨ p = -1074) ∧ (a : ℚ) / b < (2 : ℚ) ^ (1024 : ℤ) - 2 ^ (970 : ℤ) ∧
      ∀ (m' : Nat) (p' : Int), m' < 2 ^ 53 → -1074 ≤ p' →
        |(m : ℚ) * 2 ^ p - (a : ℚ) / b| ≤ |(m' : ℚ) * 2 ^ p' - (a : ℚ) / b| ∧
        ((m' : ℚ) * 2 ^ p' ≠ (m : ℚ) * 2 ^ p →
          |(m : ℚ) * 2 ^ p - (a : ℚ) / b| = |(m' : ℚ) * 2 ^ p' - (a : ℚ) / b| →
          m % 2 = 0)) := by
  rcases Nat.eq_zero_or_pos a with h0 | hpos
  · right
    subst h0
    obtain ⟨_, hT2, _⟩ := threshold_eq
    have hpos : (0 : ℚ) < 2 ^ (1023 : ℤ) := by positivity
    refine ⟨0, -1074, rfl, by norm_num, le_rfl, by norm_num, Or.inr rfl, ?_, ?_⟩
    · simp only [Nat.cast_zero, zero_div]
      linarith
    · intro m' p' _ _
      refine ⟨?_, fun _ _ => rfl⟩
      simp only [Nat.cast_zero, zero_div, zero_mul, sub_zero, abs_zero]
      exact abs_nonneg _
  · exact numberValue_spec neg a b hpos hb

set_option maxRecDepth 100000 in
set_option exponentiation.threshold 5000 in
/-- Values of `parseFloat` at the edges of binary64: the greatest finite value and the
first text that overflows, a tie above `2 ^ 53` that goes to the even mantissa, the least
normal value, the least subnormal value, `-0`, and text ignored after the number. -/
theorem parseFloat_examples :
    parseFloat "1.7976931348623158e308".toList = .finite false (2 ^ 53 - 1) 971 ∧
    parseFloat "1.7976931348623159e308".toList = .infinity false ∧
    parseFloat "9007199254740993".toList = .finite false (2 ^ 52) 1 ∧
    parseFloat "9007199254740995".toList = .finite false (2 ^ 52 + 2) 1 ∧
    parseFloat "2.2250738585072014e-308".toList = .finite false (2 ^ 52) (-1074) ∧
    parseFloat "5e-324".toList = .finite false 1 (-1074) ∧
    parseFloat "2e-324".toList = .finite false 0 (-1074) ∧
    parseFloat "-0".toList = .finite true 0 (-1074) ∧
    parseFloat "  -12.5e1xyz".toList = .finite true (125 * 2 ^ 46) (-46) ∧
    parseFloat "abc".toList = .nan := by
  decide

/-! ## C7 and C8: the sensor payload decoder -/

/-- C7, as stated, fails: the payload `Infinity` does not parse as a finite number
(`parseFloat` gives `Infinity`, which is not `NaN`), yet all four handlers emit a reading. -/
theorem C7_counterexample :
    parseFloat "Infinity".toList = .infinity false ∧
    MQTTWebSocketClient.handleTemperatureMessage "Infinity".toList 0 "12".toList
      = [.onTemperature { value := .infinity false, timestamp := 0, teamNumber := "12".toList,
                          unit := some "°C".toList, broker := none }] ∧
    MQTTWebSocketClient.handleHumidityMessage "Infinity".toList 0 "12".toList
      = [.onHumidity { value := .infinity false, timestamp := 0, teamNumber := "12".toList,
                       unit := some "%".toList, broker := none }] ∧
    MQTTDualClient.handleTemperatureMessage "Infinity".toList 0 "12".toList
      = [.onTemperature { value := .infinity false, timestamp := 0, teamNumber := "12".toList,
                          unit := none, broker := some "local".toList }] ∧
    MQTTDualClient.handleHumidityMessage "Infinity".toList 0 "12".toList
      = [.onHumidity { value := .infinity false, timestamp := 0, teamNumber := "12".toList,
                       unit := none, broker := some "local".toList }] := by
  decide

/-- C7 (amended): for every payload, `handleTemperatureMessage` and
`handleHumidityMessage` of both dashboard clients emit a reading exactly when `parseFloat`
of the payload is not `NaN` (the value may be infinite), and the reading carries that
value; a payload that `parseFloat` reads as `NaN` produces no reading. -/
theorem C7_reading_iff_not_nan (payload team : List Char) (ts : Nat) :
    (MQTTWebSocketClient.handleTemperatureMessage payload ts team ≠ [] ↔
      (parseFloat payload).isNaN = false) ∧
    (MQTTWebSocketClient.handleHumidityMessage payload ts team ≠ [] ↔
      (parseFloat payload).isNaN = false) ∧
    (MQTTDualClient.handleTemperatureMessage payload ts team ≠ [] ↔
      (parseFloat payload).isNaN = false) ∧
    (MQTTDualClient.handleHumidityMessage payload ts team ≠ [] ↔
      (parseFloat payload).isNaN = false) ∧
    (∀ e ∈ MQTTWebSocketClient.handleTemperatureMessage payload ts team ++
          MQTTWebSocketClient.handleHumidityMessage payload ts team ++
          MQTTDualClient.handleTemperatureMessage payload ts team ++
          MQTTDualClient.handleHumidityMessage payload ts team,
      ∃ ev, (e = .onTemperature ev ∨ e = .onHumidity ev) ∧ ev.value = parseFloat payload ∧
        ev.value ≠ .nan) := by
  unfold MQTTWebSocketClient.handleTemperatureMessage
    MQTTWebSocketClient.handleHumidityMessage MQTTDualClient.handleTemperatureMessage
    MQTTDualClient.handleHumidityMessage
  cases h : parseFloat payload <;> simp [JSNumber.isNaN]

/-- C7 witness: the payload `abc` of the spec produces no reading, `23.5` produces one. -/
theorem C7_reading_iff_not_nan_witness :
    MQTTWebSocketClient.handleTemperatureMessage "23.5".toList 0 "12".toList ≠ [] ∧
    ¬ MQTTWebSocketClient.handleTemperatureMessage "abc".toList 0 "12".toList ≠ [] ∧
    ¬ MQTTDualClient.handleHumidityMessage "abc".toList 0 "12".toList ≠ [] :=
  ⟨(C7_reading_iff_not_nan "23.5".toList "12".toList 0).1.2 (by decide),
   fun h => absurd ((C7_reading_iff_not_nan "abc".toList "12".toList 0).1.1 h) (by decide),
   fun h => absurd ((C7_reading_iff_not_nan "abc".toList "12".toList 0).2.2.2.1.1 h)
     (by decide)⟩


theorem isDecimalDigit_bounds {c : Char} (h : isDecimalDigit c = true) :
    48 ≤ c.toNat ∧ c.toNat ≤ 57 := by
  simpa [isDecimalDigit] using h

theorem not_whiteSpace_of_digit {c : Char} (h : isDecimalDigit c = true) :
    isStrWhiteSpaceChar c = false := by
  have hb := isDecimalDigit_bounds h
  cases hw : isStrWhiteSpaceChar c with
  | false => rfl
  | true =>
    simp only [isStrWhiteSpaceChar, Bool.or_eq_true, Bool.and_eq_true, decide_eq_true_eq] at hw
    omega

theorem readSign_of_digit {c : Char} (t : List Char) (h : isDecimalDigit c = true) :
    readSign (c :: t) = (false, c :: t) := by
  have h1 : c ≠ '-' := fun e => by subst e; exact absurd h (by decide)
  have h2 : c ≠ '+' := fun e => by subst e; exact absurd h (by decide)
  unfold readSign
  split
  · rename_i heq
    simp only [List.cons.injEq] at heq
    exact absurd heq.1 h1
  · rename_i heq
    simp only [List.cons.injEq] at heq
    exact absurd heq.1 h2
  · rfl

theorem takeWhile_digits (ds : List Char) (hds : ∀ x ∈ ds, isDecimalDigit x = true) :
    ds.takeWhile isDecimalDigit = ds := by
  rw [List.takeWhile_eq_self_iff]
  exact hds

theorem dropWhile_digits (ds : List Char) (hds : ∀ x ∈ ds, isDecimalDigit x = true) :
    ds.dropWhile isDecimalDigit = [] := by
  rw [List.dropWhile_eq_nil_iff]
  exact hds

theorem dropWhile_digits_append (ds : List Char) (c : Char) (t : List Char)
    (hds : ∀ x ∈ ds, isDecimalDigit x = true) (hc : isDecimalDigit c = false) :
    (ds ++ c :: t).dropWhile isDecimalDigit = c :: t := by
  induction ds with
  | nil => simp [List.dropWhile_cons, hc]
  | cons d ds' ih =>
    have hd : isDecimalDigit d = true := hds d (by simp)
    have hds' : ∀ x ∈ ds', isDecimalDigit x = true :=
      fun x hx => hds x (List.mem_cons_of_mem _ hx)
    simp [List.dropWhile_cons, hd, ih hds']

/-- The text after the sign of a decimal number: integer digits and optional fraction. -/
theorem readStrDecimal_digits (neg : Bool) (d : Char) (ip : List Char)
    (frac : Option (List Char))
    (hd : isDecimalDigit d = true) (hip : ∀ c ∈ ip, isDecimalDigit c = true)
    (hfd : ∀ fd, frac = some fd → ∀ c ∈ fd, isDecimalDigit c = true) :
    readStrDecimal neg (d :: (ip ++ fractionText frac))
    = numberValue neg (digitsValue 10 ((d :: ip) ++ frac.getD []))
        (10 ^ (frac.getD []).length) := by
  have hI : d ≠ 'I' := fun e => by subst e; exact absurd hd (by decide)
  have hall : ∀ c ∈ d :: ip, isDecimalDigit c = true := by
    intro c hc
    rcases List.mem_cons.1 hc with rfl | hc
    · exact hd
    · exact hip c hc
  have hpre : "Infinity".toList.isPrefixOf (d :: (ip ++ fractionText frac)) = false := by
    show List.isPrefixOf ('I' :: _) (d :: _) = false
    simp [List.isPrefixOf, Ne.symm hI]
  unfold readStrDecimal
  rw [hpre, ← List.cons_append]
  cases frac with
  | none =>
    simp only [fractionText, List.append_nil, Bool.false_eq_true, if_false, Option.getD_none]
    rw [takeWhile_digits _ hall, dropWhile_digits _ hall]
    simp [readFraction, readExponent]
  | some fd =>
    have hfd' := hfd fd rfl
    simp only [fractionText, Bool.false_eq_true, if_false, Option.getD_some]
    rw [takeWhile_digits_append _ '.' fd hall (by decide),
      dropWhile_digits_append _ '.' fd hall (by decide)]
    simp only [readFraction]
    rw [takeWhile_digits _ hfd', dropWhile_digits _ hfd']
    simp [readExponent]

theorem parseFloat_decimalText (sign ip : List Char) (frac : Option (List Char))
    (hsign : sign = [] ∨ sign = ['+'] ∨ sign = ['-'])
    (hne : ip ≠ []) (hip : ∀ c ∈ ip, isDecimalDigit c = true)
    (hfd : ∀ fd, frac = some fd → ∀ c ∈ fd, isDecimalDigit c = true) :
    parseFloat (decimalText sign ip frac) =
      numberValue (decide (sign = ['-'])) (digitsValue 10 (ip ++ frac.getD []))
        (10 ^ (frac.getD []).length) := by
  cases ip with
  | nil => exact absurd rfl hne
  | cons d ip' =>
    have hd : isDecimalDigit d = true := hip d (by simp)
    have hip' : ∀ c ∈ ip', isDecimalDigit c = true :=
      fun c hc => hip c (List.mem_cons_of_mem _ hc)
    have hbody := fun neg => readStrDecimal_digits neg d ip' frac hd hip' hfd
    rcases hsign with rfl | rfl | rfl
    · show readStrDecimal (readSign (List.dropWhile isStrWhiteSpaceChar
          (d :: (ip' ++ fractionText frac)))).1 (readSign (List.dropWhile isStrWhiteSpaceChar
          (d :: (ip' ++ fractionText frac)))).2 = _
      rw [List.dropWhile_cons_of_neg (by rw [not_whiteSpace_of_digit hd]; decide),
        readSign_of_digit _ hd]
      exact hbody false
    · show readStrDecimal (readSign (List.dropWhile isStrWhiteSpaceChar
          ('+' :: d :: (ip' ++ fractionText frac)))).1 (readSign (List.dropWhile
          isStrWhiteSpaceChar ('+' :: d :: (ip' ++ fractionText frac)))).2 = _
      rw [List.dropWhile_cons_of_neg (by decide)]
      exact hbody false
    · show readStrDecimal (readSign (List.dropWhile isStrWhiteSpaceChar
          ('-' :: d :: (ip' ++ fractionText frac)))).1 (readSign (List.dropWhile
          isStrWhiteSpaceChar ('-' :: d :: (ip' ++ fractionText frac)))).2 = _
      rw [List.dropWhile_cons_of_neg (by decide)]
      exact hbody true

theorem digitsValue_foldl (radix : Nat) (ds : List Char) (acc : Nat) :
    ds.foldl (fun acc c => radix * acc + (digitValue radix c).getD 0) acc =
      acc * radix ^ ds.length + digitsValue radix ds := by
  unfold digitsValue
  induction ds generalizing acc with
  | nil => simp
  | cons d ds ih =>
    rw [List.foldl_cons, ih, List.foldl_cons, ih (radix * 0 + _), List.length_cons]
    ring

theorem digitsValue_append (radix : Nat) (a b : List Char) :
    digitsValue radix (a ++ b) = digitsValue radix a * radix ^ b.length + digitsValue radix b := by
  conv_lhs => unfold digitsValue
  rw [List.foldl_append]
  exact digitsValue_foldl radix b _

/-- The magnitude of the number written by a decimal text is the quotient of all its
digits by the power of ten of its fraction length. -/
theorem abs_decimalValue (sign ip : List Char) (frac : Option (List Char)) :
    |decimalValue sign ip frac| =
      ((digitsValue 10 (ip ++ frac.getD []) : ℕ) : ℚ) /
        ((10 ^ (frac.getD []).length : ℕ) : ℚ) := by
  have hval : ((digitsValue 10 ip : ℕ) : ℚ) +
      (match frac with
        | none => 0
        | some fd => ((digitsValue 10 fd : ℕ) : ℚ) / (10 : ℚ) ^ fd.length) =
      ((digitsValue 10 (ip ++ frac.getD []) : ℕ) : ℚ) /
        ((10 ^ (frac.getD []).length : ℕ) : ℚ) := by
    cases frac with
    | none => simp
    | some fd =>
      simp only [Option.getD_some]
      rw [digitsValue_append]
      have h10 : ((10 : ℚ) ^ fd.length) ≠ 0 := by positivity
      push_cast
      field_simp
  have hnn : (0 : ℚ) ≤ ((digitsValue 10 (ip ++ frac.getD []) : ℕ) : ℚ) /
      ((10 ^ (frac.getD []).length : ℕ) : ℚ) := by positivity
  unfold decimalValue
  rw [hval, abs_mul, abs_of_nonneg hnn]
  by_cases h : sign = ['-'] <;> simp [h]

/-- The digits `0` written any number of times denote zero. -/
theorem digitsValue_zeros (k : Nat) : digitsValue 10 (List.replicate k '0') = 0 := by
  induction k with
  | zero => rfl
  | succ k ih =>
    have h0 : digitsValue 10 ['0'] = 0 := by decide
    rw [List.replicate_succ, show ('0' :: List.replicate k '0') =
      ['0'] ++ List.replicate k '0' from rfl, digitsValue_append, ih, h0]
    simp

set_option maxRecDepth 100000 in
set_option exponentiation.threshold 2000 in
/-- The Number value for the integer `10 ^ 309` is `Infinity`. -/
theorem numberValue_overflow_example : numberValue false (10 ^ 309) 1 = .infinity false := by
  decide

/-- The payload `1` followed by `k` zeros is read as the Number value for `10 ^ k`. -/
theorem parseFloat_power_of_ten (k : Nat) :
    parseFloat ('1' :: List.replicate k '0') = numberValue false (10 ^ k) 1 := by
  have hp := parseFloat_decimalText [] ('1' :: List.replicate k '0') none (Or.inl rfl)
    (List.cons_ne_nil _ _) (by
      intro c hc
      rcases List.mem_cons.1 hc with rfl | hc
      · decide
      · rw [List.eq_of_mem_replicate hc]
        decide) (by intro fd h; cases h)
  have hdec : decide (([] : List Char) = ['-']) = false := by decide
  have hd : digitsValue 10 ('1' :: List.replicate k '0') = 10 ^ k := by
    have h1 : digitsValue 10 ['1'] = 1 := by decide
    rw [show ('1' :: List.replicate k '0') = ['1'] ++ List.replicate k '0' from rfl,
      digitsValue_append, List.length_replicate, digitsValue_zeros, h1]
    ring
  rw [decimalText, fractionText, List.append_nil, List.nil_append, hdec, Option.getD_none,
    List.append_nil, hd, List.length_nil, pow_zero] at hp
  exact hp

/-- C8, as stated, fails. The payload `0.1` is an ASCII decimal number, and the value of
the event emitted for it is the binary64 number `7205759403792794 * 2 ^ -56`, which is
not one tenth. The payload `1` followed by 309 zeros is an ASCII decimal number, and the
value emitted for it is `Infinity`. -/
theorem C8_counterexample :
    (MQTTWebSocketClient.handleTemperatureMessage "0.1".toList 0 "12".toList
        = [.onTemperature { value := .finite false 7205759403792794 (-56), timestamp := 0,
                            teamNumber := "12".toList, unit := some "°C".toList,
                            broker := none }] ∧
     decimalValue [] "0".toList (some "1".toList) = 1 / 10 ∧
     (JSNumber.finite false 7205759403792794 (-56)).toRat ≠ some (1 / 10)) ∧
    MQTTWebSocketClient.handleTemperatureMessage ('1' :: List.replicate 309 '0') 0
        "12".toList
      = [.onTemperature { value := .infinity false, timestamp := 0,
                          teamNumber := "12".toList, unit := some "°C".toList,
                          broker := none }] := by
  refine ⟨⟨by decide, ?_, ?_⟩, ?_⟩
  · have h1 : digitsValue 10 "0".toList = 0 := by decide
    have h2 : digitsValue 10 "1".toList = 1 := by decide
    have h3 : "1".toList.length = 1 := by decide
    unfold decimalValue
    simp only [h1, h2, h3]
    norm_num
  · simp only [JSNumber.toRat, ne_eq, Option.some.injEq]
    norm_num
  · unfold MQTTWebSocketClient.handleTemperatureMessage
    rw [parseFloat_power_of_ten, numberValue_overflow_example]
    rfl

/-- C8 (amended): for every payload that is an ASCII decimal number (optional sign,
digits, optional `.` followed by fraction digits),
`MQTTWebSocketClient.handleTemperatureMessage` emits exactly one `onTemperature` event
whose teamNumber and timestamp are the ones it was given and whose value is the Number
for that number: it has the sign of the text; it is an infinity when the magnitude of the
number is `2 ^ 1024 - 2 ^ 970` or more; below that it is a finite binary64 value whose
magnitude is nearest to the magnitude of the number among all binary64 magnitudes, with
an even mantissa when another one is equally near. -/
theorem C8_decimal_payload_emitted (sign ip : List Char) (frac : Option (List Char))
    (team : List Char) (ts : Nat)
    (hsign : sign = [] ∨ sign = ['+'] ∨ sign = ['-'])
    (hne : ip ≠ []) (hip : ∀ c ∈ ip, isDecimalDigit c = true)
    (hfd : ∀ fd, frac = some fd → ∀ c ∈ fd, isDecimalDigit c = true) :
    MQTTWebSocketClient.handleTemperatureMessage (decimalText sign ip frac) ts team
      = [.onTemperature { value := parseFloat (decimalText sign ip frac), timestamp := ts,
                          teamNumber := team, unit := some "°C".toList, broker := none }] ∧
    ((parseFloat (decimalText sign ip frac) = .infinity (decide (sign = ['-'])) ∧
        (2 : ℚ) ^ (1024 : ℤ) - 2 ^ (970 : ℤ) ≤ |decimalValue sign ip frac|) ∨
     (∃ m p, parseFloat (decimalText sign ip frac) = .finite (decide (sign = ['-'])) m p ∧
        m < 2 ^ 53 ∧ -1074 ≤ p ∧ p ≤ 971 ∧ (2 ^ 52 ≤ m ∨ p = -1074) ∧
        |decimalValue sign ip frac| < (2 : ℚ) ^ (1024 : ℤ) - 2 ^ (970 : ℤ) ∧
        ∀ (m' : Nat) (p' : Int), m' < 2 ^ 53 → -1074 ≤ p' →
          abs ((m : ℚ) * 2 ^ p - |decimalValue sign ip frac|) ≤
            abs ((m' : ℚ) * 2 ^ p' - |decimalValue sign ip frac|) ∧
          ((m' : ℚ) * 2 ^ p' ≠ (m : ℚ) * 2 ^ p →
            abs ((m : ℚ) * 2 ^ p - |decimalValue sign ip frac|) =
              abs ((m' : ℚ) * 2 ^ p' - |decimalValue sign ip frac|) → m % 2 = 0))) := by
  have hp := parseFloat_decimalText sign ip frac hsign hne hip hfd
  have hspec := numberValue_spec_zero (decide (sign = ['-']))
    (digitsValue 10 (ip ++ frac.getD [])) (10 ^ (frac.getD []).length) (by positivity)
  rw [← hp, ← abs_decimalValue sign ip frac] at hspec
  refine ⟨?_, hspec⟩
  unfold MQTTWebSocketClient.handleTemperatureMessage
  rcases hspec with ⟨h, _⟩ | ⟨m, p, h, _⟩ <;> rw [h] <;> rfl

/-- C8 witness: the payload `23.5` of the spec gives one event, whose value is the binary64
number `6614661952700416 * 2 ^ -48`, which is 23.5 exactly. -/
theorem C8_decimal_payload_emitted_witness :
    MQTTWebSocketClient.handleTemperatureMessage "23.5".toList 1700000000000 "12".toList
      = [.onTemperature { value := parseFloat "23.5".toList, timestamp := 1700000000000,
                          teamNumber := "12".toList, unit := some "°C".toList,
                          broker := none }] ∧
    parseFloat "23.5".toList = .finite false 6614661952700416 (-48) ∧
    (JSNumber.finite false 6614661952700416 (-48)).toRat = some (47 / 2) :=
  ⟨(C8_decimal_payload_emitted [] "23".toList (some "5".toList) "12".toList 1700000000000
      (Or.inl rfl) (by decide) (by decide) (by decide)).1,
   by decide,
   by simp only [JSNumber.toRat]; norm_num⟩

theorem decimalValue_example : decimalValue [] "23".toList (some "5".toList) = 47 / 2 := by
  have h1 : digitsValue 10 "23".toList = 23 := by decide
  have h2 : digitsValue 10 "5".toList = 5 := by decide
  have h3 : "5".toList.length = 1 := by decide
  unfold decimalValue
  simp only [h1, h2, h3]
  norm_num


/-! ## C9 and C10: reconnection backoff and retry ceiling -/

theorem retryDelay_eq (s : MQTTWebSocketClient.State) (hdelay : s.reconnectDelay = 3000)
    (h1 : 1 ≤ s.connectionAttempts) :
    MQTTWebSocketClient.retryDelay s = 3000 * (3 / 2 : ℚ) ^ (s.connectionAttempts - 1) := by
  unfold MQTTWebSocketClient.retryDelay
  have h : ((s.connectionAttempts : Int) - 1) = ((s.connectionAttempts - 1 : ℕ) : Int) := by
    omega
  rw [h, zpow_natCast, hdelay]
  norm_num

/-- C9: when `scheduleReconnect` runs with attempt counter `n`, `1 ≤ n < 10`
(`maxReconnectAttempts = 10`, `reconnectDelay = 3000`), exactly one retry is scheduled,
after `3000 * (3/2)^(n-1)` ms; for `n = 1, 2, 3, 4` this is 3000, 4500, 6750 and 10125 ms;
and the delay is strictly increasing in `n`. -/
theorem C9_backoff_delay (s : MQTTWebSocketClient.State)
    (hmax : s.maxReconnectAttempts = 10) (hdelay : s.reconnectDelay = 3000)
    (h1 : 1 ≤ s.connectionAttempts) (h10 : s.connectionAttempts < 10) :
    (MQTTWebSocketClient.scheduleReconnect s).2
      = [.setTimeout (3000 * (3 / 2 : ℚ) ^ (s.connectionAttempts - 1))] ∧
    (MQTTWebSocketClient.scheduleReconnect s).1 = s ∧
    (s.connectionAttempts = 1 → MQTTWebSocketClient.retryDelay s = 3000) ∧
    (s.connectionAttempts = 2 → MQTTWebSocketClient.retryDelay s = 4500) ∧
    (s.connectionAttempts = 3 → MQTTWebSocketClient.retryDelay s = 6750) ∧
    (s.connectionAttempts = 4 → MQTTWebSocketClient.retryDelay s = 10125) ∧
    (∀ m, 1 ≤ m → m < s.connectionAttempts →
      MQTTWebSocketClient.retryDelay { s with connectionAttempts := m }
        < MQTTWebSocketClient.retryDelay s) := by
  have hd := retryDelay_eq s hdelay h1
  have hlt : s.connectionAttempts < s.maxReconnectAttempts := by omega
  refine ⟨?_, ?_, ?_, ?_, ?_, ?_, ?_⟩
  · unfold MQTTWebSocketClient.scheduleReconnect
    rw [if_pos hlt, hd]
  · unfold MQTTWebSocketClient.scheduleReconnect
    rw [if_pos hlt]
  · intro h
    rw [hd, h]
    norm_num
  · intro h
    rw [hd, h]
    norm_num
  · intro h
    rw [hd, h]
    norm_num
  · intro h
    rw [hd, h]
    norm_num
  · intro m hm1 hmn
    rw [hd, retryDelay_eq { s with connectionAttempts := m } hdelay hm1]
    have hpow : (3 / 2 : ℚ) ^ (m - 1) < (3 / 2 : ℚ) ^ (s.connectionAttempts - 1) :=
      pow_lt_pow_right₀ (by norm_num) (by omega)
    show 3000 * (3 / 2 : ℚ) ^ (m - 1) < _
    linarith

/-- C9 witness: the first four retries of a client with the constructor's settings. -/
theorem C9_backoff_delay_witness :
    MQTTWebSocketClient.retryDelay
      { MQTTWebSocketClient.State.init with connectionAttempts := 1 } = 3000 ∧
    MQTTWebSocketClient.retryDelay
      { MQTTWebSocketClient.State.init with connectionAttempts := 2 } = 4500 ∧
    MQTTWebSocketClient.retryDelay
      { MQTTWebSocketClient.State.init with connectionAttempts := 3 } = 6750 ∧
    MQTTWebSocketClient.retryDelay
      { MQTTWebSocketClient.State.init with connectionAttempts := 4 } = 10125 ∧
    MQTTWebSocketClient.retryDelay
      { MQTTWebSocketClient.State.init with connectionAttempts := 1 }
      < MQTTWebSocketClient.retryDelay
          { MQTTWebSocketClient.State.init with connectionAttempts := 2 } :=
  ⟨(C9_backoff_delay { MQTTWebSocketClient.State.init with connectionAttempts := 1 }
      rfl rfl (by decide) (by decide)).2.2.1 rfl,
   (C9_backoff_delay { MQTTWebSocketClient.State.init with connectionAttempts := 2 }
      rfl rfl (by decide) (by decide)).2.2.2.1 rfl,
   (C9_backoff_delay { MQTTWebSocketClient.State.init with connectionAttempts := 3 }
      rfl rfl (by decide) (by decide)).2.2.2.2.1 rfl,
   (C9_backoff_delay { MQTTWebSocketClient.State.init with connectionAttempts := 4 }
      rfl rfl (by decide) (by decide)).2.2.2.2.2.1 rfl,
   (C9_backoff_delay { MQTTWebSocketClient.State.init with connectionAttempts := 2 }
      rfl rfl (by decide) (by decide)).2.2.2.2.2.2 1 (by decide) (by decide)⟩

/-- A failed cycle leaves a disconnected client with counter 0 as it was, and its `close`
handler sets a reconnect timer. -/
theorem failedCycle_keeps_counter (s : MQTTWebSocketClient.State)
    (hc : s.isConnected = false) (ha : s.connectionAttempts = 0)
    (hr : s.autoReconnect = true) (hm : s.maxReconnectAttempts = 10) :
    (MQTTWebSocketClient.failedCycle s).isConnected = false ∧
    (MQTTWebSocketClient.failedCycle s).connectionAttempts = 0 ∧
    (MQTTWebSocketClient.failedCycle s).autoReconnect = true ∧
    (MQTTWebSocketClient.failedCycle s).maxReconnectAttempts = 10 ∧
    MQTTWebSocketClient.scheduledRetries
        (MQTTWebSocketClient.onClose (MQTTWebSocketClient.connect s).1).2
      = [MQTTWebSocketClient.retryDelay (MQTTWebSocketClient.failedCycle s)] := by
  simp [MQTTWebSocketClient.failedCycle, MQTTWebSocketClient.connect,
    MQTTWebSocketClient.onClose, MQTTWebSocketClient.scheduleReconnect,
    MQTTWebSocketClient.scheduledRetries, MQTTWebSocketClient.retryDelay, hc, ha, hr, hm]

theorem failedCycle_iterate (k : Nat) :
    (MQTTWebSocketClient.failedCycle^[k] MQTTWebSocketClient.State.init).isConnected = false ∧
    (MQTTWebSocketClient.failedCycle^[k] MQTTWebSocketClient.State.init).connectionAttempts
      = 0 ∧
    (MQTTWebSocketClient.failedCycle^[k] MQTTWebSocketClient.State.init).autoReconnect = true ∧
    (MQTTWebSocketClient.failedCycle^[k] MQTTWebSocketClient.State.init).maxReconnectAttempts
      = 10 := by
  induction k with
  | zero => exact ⟨rfl, rfl, rfl, rfl⟩
  | succ k ih =>
    rw [Function.iterate_succ_apply']
    obtain ⟨hc, ha, hr, hm⟩ := ih
    obtain ⟨h1, h2, h3, h4, _⟩ := failedCycle_keeps_counter _ hc ha hr hm
    exact ⟨h1, h2, h3, h4⟩

/-- C10 (code defect): after any number `k` of consecutive failed connection cycles of a
fresh client, in particular after `maxReconnectAttempts = 10` of them, the attempt counter
is still 0, `autoReconnect` is still on, and the `close` of the next cycle sets a reconnect
timer again: the client never stops scheduling retries. -/
theorem C10_retry_ceiling_never_reached (k : Nat) :
    (MQTTWebSocketClient.failedCycle^[k] MQTTWebSocketClient.State.init).connectionAttempts
      = 0 ∧
    (MQTTWebSocketClient.failedCycle^[k] MQTTWebSocketClient.State.init).autoReconnect = true ∧
    MQTTWebSocketClient.scheduledRetries
        (MQTTWebSocketClient.onClose (MQTTWebSocketClient.connect
          (MQTTWebSocketClient.failedCycle^[k] MQTTWebSocketClient.State.init)).1).2 ≠ [] := by
  obtain ⟨hc, ha, hr, hm⟩ := failedCycle_iterate k
  refine ⟨ha, hr, ?_⟩
  rw [(failedCycle_keeps_counter _ hc ha hr hm).2.2.2.2]
  exact List.cons_ne_nil _ _


/-! ## C11, C12 and C16: the attempt counter and the reconnect timer -/

/-- None of the steps of a reconnection cycle (the `close` handler, `scheduleReconnect`,
the timer callback, `connect()`) changes the attempt counter. -/
theorem cycle_steps_keep_counter (s : MQTTWebSocketClient.State) :
    (MQTTWebSocketClient.onClose s).1.connectionAttempts = s.connectionAttempts ∧
    (MQTTWebSocketClient.scheduleReconnect s).1.connectionAttempts = s.connectionAttempts ∧
    (MQTTWebSocketClient.onReconnectTimer s).1.connectionAttempts = s.connectionAttempts ∧
    (MQTTWebSocketClient.connect s).1.connectionAttempts = s.connectionAttempts := by
  refine ⟨?_, ?_, ?_, ?_⟩
  · unfold MQTTWebSocketClient.onClose MQTTWebSocketClient.scheduleReconnect
    dsimp only
    split <;> [split; skip] <;> rfl
  · unfold MQTTWebSocketClient.scheduleReconnect
    split <;> rfl
  · unfold MQTTWebSocketClient.onReconnectTimer MQTTWebSocketClient.connect
    split <;> [split; skip] <;> rfl
  · unfold MQTTWebSocketClient.connect
    split <;> rfl

/-- Method `disconnect()` does not change the attempt counter. -/
theorem disconnect_keeps_counter (s : MQTTWebSocketClient.State) :
    (MQTTWebSocketClient.disconnect s).1.connectionAttempts = s.connectionAttempts := by
  unfold MQTTWebSocketClient.disconnect
  split <;> rfl

/-- A handler other than that of the transport event `reconnect` leaves a counter that is
0 at 0. -/
theorem handlerOf_counter_zero (sys : MQTTWebSocketClient.System)
    (a : MQTTWebSocketClient.Action) (ha : a ≠ .transportReconnect)
    (h0 : sys.client.connectionAttempts = 0) :
    (MQTTWebSocketClient.handlerOf sys a).1.connectionAttempts = 0 := by
  obtain ⟨hclose, _, htimer, hconnect⟩ := cycle_steps_keep_counter sys.client
  cases a with
  | transportReconnect => exact absurd rfl ha
  | callConnect => exact hconnect.trans h0
  | callDisconnect => exact (disconnect_keeps_counter sys.client).trans h0
  | transportConnect =>
    show (if sys.client.hasClient then MQTTWebSocketClient.onConnect sys.client
      else (sys.client, [])).1.connectionAttempts = 0
    split
    · rfl
    · exact h0
  | transportError =>
    show (if sys.client.hasClient then MQTTWebSocketClient.onError sys.client
      else (sys.client, [])).1.connectionAttempts = 0
    split
    · exact h0
    · exact h0
  | transportClose =>
    show (if sys.client.hasClient then MQTTWebSocketClient.onClose sys.client
      else (sys.client, [])).1.connectionAttempts = 0
    split
    · exact hclose.trans h0
    · exact h0
  | timerFires =>
    show (if sys.timers.isEmpty then (sys.client, [])
      else MQTTWebSocketClient.onReconnectTimer sys.client).1.connectionAttempts = 0
    split
    · exact h0
    · exact htimer.trans h0

/-- In every state a client reaches, the attempt counter is 0. -/
theorem reachable_counter_zero (sys : MQTTWebSocketClient.System)
    (h : MQTTWebSocketClient.System.Reachable sys) : sys.client.connectionAttempts = 0 := by
  induction h with
  | init => rfl
  | step sys a ha _ ih => exact handlerOf_counter_zero sys a ha ih
  | updateConfig sys _ _ => rfl
  | setAutoReconnect sys enabled _ ih => exact ih

/-- C11 (code defect): no step of a reconnection cycle increments `connectionAttempts`;
from a fresh client the retry of every cycle, the `(k+1)`-th for each `k`, is scheduled
with the counter still at 0, not at `k + 1`. -/
theorem C11_retry_scheduled_with_counter_zero (k : Nat) (s : MQTTWebSocketClient.State) :
    ((MQTTWebSocketClient.onClose s).1.connectionAttempts = s.connectionAttempts ∧
     (MQTTWebSocketClient.scheduleReconnect s).1.connectionAttempts = s.connectionAttempts ∧
     (MQTTWebSocketClient.onReconnectTimer s).1.connectionAttempts = s.connectionAttempts ∧
     (MQTTWebSocketClient.connect s).1.connectionAttempts = s.connectionAttempts) ∧
    MQTTWebSocketClient.scheduledRetries
        (MQTTWebSocketClient.onClose (MQTTWebSocketClient.connect
          (MQTTWebSocketClient.failedCycle^[k] MQTTWebSocketClient.State.init)).1).2
      = [MQTTWebSocketClient.retryDelay
          (MQTTWebSocketClient.failedCycle^[k + 1] MQTTWebSocketClient.State.init)] ∧
    (MQTTWebSocketClient.failedCycle^[k + 1]
      MQTTWebSocketClient.State.init).connectionAttempts = 0 := by
  obtain ⟨hc, ha, hr, hm⟩ := failedCycle_iterate k
  refine ⟨cycle_steps_keep_counter s, ?_, (failedCycle_iterate (k + 1)).2.1⟩
  rw [Function.iterate_succ_apply']
  exact (failedCycle_keeps_counter _ hc ha hr hm).2.2.2.2


/-- C12: in every state a client reaches, a manual reconnect call, `connect()` invoked
while the client is not connected, starts a new connection attempt (one call of
`mqtt.connect`, `this.client` set), and after the call the attempt counter
`connectionAttempts` is 0. The counter is 0 before the call as well: nothing the client
receives increments it, so the retry ceiling is never reached. -/
theorem C12_manual_connect_starts_attempt (sys : MQTTWebSocketClient.System)
    (h : MQTTWebSocketClient.System.Reachable sys)
    (hc : sys.client.isConnected = false) :
    (sys.step .callConnect).2 = [.mqttConnect] ∧
    (sys.step .callConnect).1.client.hasClient = true ∧
    (sys.step .callConnect).1.client.connectionAttempts = 0 ∧
    (sys.step .callConnect).1.client = { sys.client with hasClient := true } ∧
    (sys.step .callConnect).1.timers = sys.timers ∧
    sys.client.connectionAttempts = 0 ∧
    MQTTWebSocketClient.System.Reachable (sys.step .callConnect).1 := by
  have h0 := reachable_counter_zero sys h
  have hstep : MQTTWebSocketClient.handlerOf sys .callConnect =
      ({ sys.client with hasClient := true }, [.mqttConnect]) := by
    show MQTTWebSocketClient.connect sys.client = _
    simp [MQTTWebSocketClient.connect, hc]
  refine ⟨?_, ?_, ?_, ?_, ?_, h0, .step sys .callConnect (by decide) h⟩
  · show (MQTTWebSocketClient.handlerOf sys .callConnect).2 = _
    rw [hstep]
  · show (MQTTWebSocketClient.handlerOf sys .callConnect).1.hasClient = true
    rw [hstep]
  · show (MQTTWebSocketClient.handlerOf sys .callConnect).1.connectionAttempts = 0
    rw [hstep]
    exact h0
  · show (MQTTWebSocketClient.handlerOf sys .callConnect).1 = _
    rw [hstep]
  · show (if MQTTWebSocketClient.Action.callConnect = .timerFires then sys.timers.drop 1
        else sys.timers) ++
        MQTTWebSocketClient.scheduledRetries (MQTTWebSocketClient.handlerOf sys .callConnect).2
      = sys.timers
    rw [hstep]
    simp [MQTTWebSocketClient.scheduledRetries]

/-- C12 witness: a client that was connected, lost its transport and failed to reconnect
twice; it is not connected, and `connect()` starts an attempt with the counter at 0. -/
theorem C12_manual_connect_starts_attempt_witness :
    ((MQTTWebSocketClient.System.init.run
        [.callConnect, .transportConnect, .transportClose, .timerFires, .transportClose,
         .timerFires, .transportClose]).step .callConnect).2 = [.mqttConnect] ∧
    ((MQTTWebSocketClient.System.init.run
        [.callConnect, .transportConnect, .transportClose, .timerFires, .transportClose,
         .timerFires, .transportClose]).step .callConnect).1.client.connectionAttempts = 0 :=
  ⟨(C12_manual_connect_starts_attempt _
      (.step _ .transportClose (by decide) (.step _ .timerFires (by decide)
        (.step _ .transportClose (by decide) (.step _ .timerFires (by decide)
          (.step _ .transportClose (by decide) (.step _ .transportConnect (by decide)
            (.step _ .callConnect (by decide) .init)))))))
      rfl).1,
   (C12_manual_connect_starts_attempt _
      (.step _ .transportClose (by decide) (.step _ .timerFires (by decide)
        (.step _ .transportClose (by decide) (.step _ .timerFires (by decide)
          (.step _ .transportClose (by decide) (.step _ .transportConnect (by decide)
            (.step _ .callConnect (by decide) .init)))))))
      rfl).2.2.1⟩

/-- C16 (code defect): a fresh client calls `connect()`, the transport closes (a reconnect
timer is now pending), and `disconnect()` is called: it does nothing, because the client
is not connected: `autoReconnect` stays on and the timer stays pending. When the timer
fires, a new connection attempt is started. The same happens when the client was
connected again by a manual `connect()` before `disconnect()`, which then does run. -/
theorem C16_reconnect_after_disconnect :
    ((MQTTWebSocketClient.System.init.run
        [.callConnect, .transportClose, .callDisconnect]).timers.length = 1 ∧
     (MQTTWebSocketClient.System.init.run
        [.callConnect, .transportClose, .callDisconnect]).client.autoReconnect = true ∧
     MQTTWebSocketClient.startsConnection
       ((MQTTWebSocketClient.System.init.run
          [.callConnect, .transportClose, .callDisconnect]).step .timerFires).2 = true) ∧
    ((MQTTWebSocketClient.System.init.run
        [.callConnect, .transportClose, .callConnect, .transportConnect,
         .callDisconnect]).client.autoReconnect = false ∧
     MQTTWebSocketClient.startsConnection
       ((MQTTWebSocketClient.System.init.run
          [.callConnect, .transportClose, .callConnect, .transportConnect,
           .callDisconnect, .transportClose]).step .timerFires).2 = true) := by
  simp [MQTTWebSocketClient.System.run, MQTTWebSocketClient.System.step,
    MQTTWebSocketClient.System.init, MQTTWebSocketClient.State.init,
    MQTTWebSocketClient.handlerOf, MQTTWebSocketClient.connect, MQTTWebSocketClient.onClose,
    MQTTWebSocketClient.onConnect, MQTTWebSocketClient.disconnect,
    MQTTWebSocketClient.scheduleReconnect, MQTTWebSocketClient.scheduledRetries,
    MQTTWebSocketClient.onReconnectTimer, MQTTWebSocketClient.startsConnection,
    MQTTWebSocketClient.publishStatus, MQTTWebSocketClient.subscribeToTopics,
    MQTTWebSocketClient.topics]


/-! ## C13 to C15 and C17: the dual-broker coordinator -/

/-- C13: on the `connect` event of one broker of `MQTTDualClient`, that broker's attempt
counter becomes 0 and its connected flag true, while the other broker's attempt counter,
connected flag and message counter are unchanged; `MQTTWebSocketClient` likewise sets
`connectionAttempts` to 0 and `isConnected` to true. -/
theorem C13_connect_resets_own_broker_only (s : MQTTDualClient.State)
    (w : MQTTWebSocketClient.State) :
    ((MQTTDualClient.onLocalConnect s).1.attemptsLocal = 0 ∧
     (MQTTDualClient.onLocalConnect s).1.isLocalConnected = true ∧
     (MQTTDualClient.onLocalConnect s).1.attemptsHivemq = s.attemptsHivemq ∧
     (MQTTDualClient.onLocalConnect s).1.isHivemqConnected = s.isHivemqConnected ∧
     (MQTTDualClient.onLocalConnect s).1.messageCountHivemq = s.messageCountHivemq) ∧
    ((MQTTDualClient.onHivemqConnect s).1.attemptsHivemq = 0 ∧
     (MQTTDualClient.onHivemqConnect s).1.isHivemqConnected = true ∧
     (MQTTDualClient.onHivemqConnect s).1.attemptsLocal = s.attemptsLocal ∧
     (MQTTDualClient.onHivemqConnect s).1.isLocalConnected = s.isLocalConnected ∧
     (MQTTDualClient.onHivemqConnect s).1.messageCountLocal = s.messageCountLocal) ∧
    ((MQTTWebSocketClient.onConnect w).1.connectionAttempts = 0 ∧
     (MQTTWebSocketClient.onConnect w).1.isConnected = true) :=
  ⟨⟨rfl, rfl, rfl, rfl, rfl⟩, ⟨rfl, rfl, rfl, rfl, rfl⟩, ⟨rfl, rfl⟩⟩

/-- C14: `connectAll` completes without raising for every combination of outcomes of
`connectLocal` and `connectHiveMQ` and either order of the two reports. Both connection
attempts are started, first of all and once each, and both transports are held, whatever
the outcomes. A side that connects is established (its flag is on, its topics are
subscribed, `onConnect` is emitted for it) and a side that fails reports `onError`, each
by its own outcome only; the logged and displayed status show the final flags. -/
theorem C14_connectAll_never_raises (s : MQTTDualClient.State)
    (ol oh : MQTTDualClient.ConnectOutcome) (localFirst : Bool) :
    ∃ s' es, MQTTDualClient.connectAll s ol oh localFirst = .ok (s', es) ∧
      es.take 2 = [.mqttConnect .local, .mqttConnect .hivemq] ∧
      es.count (.mqttConnect .local) = 1 ∧
      es.count (.mqttConnect .hivemq) = 1 ∧
      s'.hasLocalClient = true ∧
      s'.hasHivemqClient = true ∧
      s'.isLocalConnected = (decide (ol = .connected) || s.isLocalConnected) ∧
      s'.isHivemqConnected = (decide (oh = .connected) || s.isHivemqConnected) ∧
      (MQTTDualClient.Effect.emitConnect .local ∈ es ↔ ol = .connected) ∧
      (MQTTDualClient.Effect.emitConnect .hivemq ∈ es ↔ oh = .connected) ∧
      (∀ t ∈ MQTTDualClient.localTopics,
        (MQTTDualClient.Effect.subscribe .local t ∈ es ↔ ol = .connected)) ∧
      (∀ t ∈ MQTTDualClient.hivemqTopics,
        (MQTTDualClient.Effect.subscribe .hivemq t ∈ es ↔ oh = .connected)) ∧
      (MQTTDualClient.Effect.emitError .local ∈ es ↔ ol = .failed) ∧
      (MQTTDualClient.Effect.emitError .hivemq ∈ es ↔ oh = .failed) ∧
      es.getLast? = some (.updateUI (MQTTDualClient.updateConnectionUI s')) ∧
      MQTTDualClient.Effect.logStatus s'.isLocalConnected s'.isHivemqConnected ∈ es := by
  cases ol <;> cases oh <;> cases localFirst <;> refine ⟨_, _, rfl, ?_⟩ <;>
    simp [MQTTDualClient.settleLocal, MQTTDualClient.settleHiveMQ,
      MQTTDualClient.connectLocal, MQTTDualClient.connectHiveMQ,
      MQTTDualClient.onLocalConnect, MQTTDualClient.onHivemqConnect,
      MQTTDualClient.onLocalError, MQTTDualClient.onHivemqError,
      MQTTDualClient.getConnectionStatus, MQTTDualClient.localTopics,
      MQTTDualClient.hivemqTopics, List.count_cons]

/-- C15: in every state `getConnectionStatus().both` is true exactly when both flags are
true, and exactly one branch of `updateConnectionUI` applies: both up, one up (exactly one
flag true) or none up; from the initial state, after the local `connect` event and a
failed HiveMQ connect, the status is `local = true`, `hivemq = false`, `both = false`,
shown as one up (local). -/
theorem C15_status_cases (s : MQTTDualClient.State) :
    ((MQTTDualClient.getConnectionStatus s).both = true ↔
      s.isLocalConnected = true ∧ s.isHivemqConnected = true) ∧
    (MQTTDualClient.getConnectionStatus s).local = s.isLocalConnected ∧
    (MQTTDualClient.getConnectionStatus s).hivemq = s.isHivemqConnected ∧
    (MQTTDualClient.updateConnectionUI s = .connected ↔
      s.isLocalConnected = true ∧ s.isHivemqConnected = true) ∧
    (MQTTDualClient.updateConnectionUI s
        = .connecting s.isLocalConnected s.isHivemqConnected ↔
      s.isLocalConnected ≠ s.isHivemqConnected) ∧
    (MQTTDualClient.updateConnectionUI s = .disconnected ↔
      s.isLocalConnected = false ∧ s.isHivemqConnected = false) ∧
    (∀ l h, MQTTDualClient.updateConnectionUI s = .connecting l h →
      l = s.isLocalConnected ∧ h = s.isHivemqConnected) ∧
    MQTTDualClient.getConnectionStatus
        (MQTTDualClient.onHivemqError (MQTTDualClient.connectHiveMQ
          (MQTTDualClient.onLocalConnect
            (MQTTDualClient.connectLocal MQTTDualClient.State.init).1).1).1).1
      = ⟨true, false, false⟩ ∧
    MQTTDualClient.updateConnectionUI
        (MQTTDualClient.onHivemqError (MQTTDualClient.connectHiveMQ
          (MQTTDualClient.onLocalConnect
            (MQTTDualClient.connectLocal MQTTDualClient.State.init).1).1).1).1
      = .connecting true false := by
  refine ⟨?_, rfl, rfl, ?_, ?_, ?_, ?_, by decide, by decide⟩ <;>
    cases hl : s.isLocalConnected <;> cases hh : s.isHivemqConnected <;>
    simp [MQTTDualClient.getConnectionStatus, MQTTDualClient.updateConnectionUI, hl, hh]

/-- In a reachable state a connected flag implies that the transport exists. -/
theorem reachable_flag_has_client (s : MQTTDualClient.State)
    (h : MQTTDualClient.Reachable s) :
    (s.isLocalConnected = true → s.hasLocalClient = true) ∧
    (s.isHivemqConnected = true → s.hasHivemqClient = true) := by
  induction h with
  | init => exact ⟨fun h => absurd h (by decide), fun h => absurd h (by decide)⟩
  | step s a _ ih =>
    obtain ⟨ihl, ihh⟩ := ih
    cases a <;>
      simp only [MQTTDualClient.step, MQTTDualClient.connectLocal,
        MQTTDualClient.connectHiveMQ, MQTTDualClient.disconnectAll,
        MQTTDualClient.onLocalConnect, MQTTDualClient.onLocalError,
        MQTTDualClient.onLocalClose, MQTTDualClient.onLocalMessage,
        MQTTDualClient.onHivemqConnect, MQTTDualClient.onHivemqError,
        MQTTDualClient.onHivemqClose, MQTTDualClient.onHivemqMessage] <;>
      cases hl : s.hasLocalClient <;> cases hh : s.hasHivemqClient <;>
      simp_all

/-- C17: in every reachable state of `MQTTDualClient`, `disconnectAll` called twice in
succession leaves, after the second call, the state left by the first, in which
`isLocalConnected` and `isHivemqConnected` are both false; no call raises. -/
theorem C17_disconnectAll_idempotent (s : MQTTDualClient.State)
    (h : MQTTDualClient.Reachable s) :
    (MQTTDualClient.disconnectAll (MQTTDualClient.disconnectAll s).1).1
      = (MQTTDualClient.disconnectAll s).1 ∧
    (MQTTDualClient.disconnectAll s).1.isLocalConnected = false ∧
    (MQTTDualClient.disconnectAll s).1.isHivemqConnected = false ∧
    (MQTTDualClient.disconnectAll (MQTTDualClient.disconnectAll s).1).1.isLocalConnected
      = false ∧
    (MQTTDualClient.disconnectAll (MQTTDualClient.disconnectAll s).1).1.isHivemqConnected
      = false := by
  obtain ⟨hl, hh⟩ := reachable_flag_has_client s h
  unfold MQTTDualClient.disconnectAll
  cases h1 : s.hasLocalClient <;> cases h2 : s.hasHivemqClient <;>
    cases h3 : s.isLocalConnected <;> cases h4 : s.isHivemqConnected <;>
    simp_all

/-- C17 witness: both brokers connected, then `disconnectAll` twice. -/
theorem C17_disconnectAll_idempotent_witness :
    (MQTTDualClient.disconnectAll (MQTTDualClient.disconnectAll
      (MQTTDualClient.step (MQTTDualClient.step (MQTTDualClient.step (MQTTDualClient.step
        MQTTDualClient.State.init .callConnectLocal).1 .callConnectHiveMQ).1
        .localConnect).1 .hivemqConnect).1).1).1
      = (MQTTDualClient.disconnectAll
      (MQTTDualClient.step (MQTTDualClient.step (MQTTDualClient.step (MQTTDualClient.step
        MQTTDualClient.State.init .callConnectLocal).1 .callConnectHiveMQ).1
        .localConnect).1 .hivemqConnect).1).1 ∧
    (MQTTDualClient.step (MQTTDualClient.step (MQTTDualClient.step (MQTTDualClient.step
        MQTTDualClient.State.init .callConnectLocal).1 .callConnectHiveMQ).1
        .localConnect).1 .hivemqConnect).1.isLocalConnected = true :=
  ⟨(C17_disconnectAll_idempotent _
      (.step _ .hivemqConnect (.step _ .localConnect (.step _ .callConnectHiveMQ
        (.step _ .callConnectLocal .init))))).1, by decide⟩


/-! ## C18 and C19: the event dispatcher -/

theorem lookupCallbacks_toName (e : EventName) : lookupCallbacks e.toName = .array e := by
  cases e <;> decide

theorem lookupCallbacks_eq_array {event : List Char} {e : EventName}
    (h : lookupCallbacks event = .array e) : e.toName = event := by
  unfold lookupCallbacks at h
  cases hf : EventName.all.find? (fun e => e.toName = event) with
  | none =>
    rw [hf] at h
    dsimp only at h
    split at h <;> cases h
  | some e' =>
    rw [hf] at h
    dsimp only at h
    cases h
    simpa using List.find?_some hf

/-- The array of a known event after a sequence of registrations: what it held before,
followed by the callbacks registered under that event's name, in registration order. -/
theorem register_handlers {α : Type} (regs : List (List Char × Callback α))
    (cbs : Callbacks α) (e : EventName) :
    (cbs.register regs).handlers e = cbs.handlers e ++ registeredFor e.toName regs := by
  induction regs generalizing cbs with
  | nil => simp [Callbacks.register, registeredFor]
  | cons r rest ih =>
    obtain ⟨event, cb⟩ := r
    unfold Callbacks.register Callbacks.on
    cases hl : lookupCallbacks event with
    | array e' =>
      have hname := lookupCallbacks_eq_array hl
      dsimp only
      rw [ih]
      by_cases he : e' = e
      · subst he
        simp [registeredFor, hname]
      · have hne : ¬ (event = e.toName) := by
          intro h
          rw [h, lookupCallbacks_toName] at hl
          cases hl
          exact he rfl
        simp [registeredFor, Function.update_noteq (Ne.symm he), hne]
    | inherited =>
      have hne : ¬ (event = e.toName) := by
        intro h
        rw [h, lookupCallbacks_toName] at hl
        cases hl
      dsimp only
      rw [ih]
      simp [registeredFor, hne]
    | undefined =>
      have hne : ¬ (event = e.toName) := by
        intro h
        rw [h, lookupCallbacks_toName] at hl
        cases hl
      dsimp only
      rw [ih]
      simp [registeredFor, hne]

theorem invocations_append {α : Type} (xs ys : List (Dispatched α)) :
    invocations (xs ++ ys) = invocations xs ++ invocations ys := by
  induction xs with
  | nil => rfl
  | cons x xs ih => cases x <;> simp [invocations, ih]

theorem caughtMessages_append {α : Type} (xs ys : List (Dispatched α)) :
    caughtMessages (xs ++ ys) = caughtMessages xs ++ caughtMessages ys := by
  induction xs with
  | nil => rfl
  | cons x xs ih => cases x <;> simp [caughtMessages, ih]

/-- The body of the `forEach` calls the callback once, whatever the callback does. -/
theorem callGuarded_invocations {α : Type} (event : List Char) (payload : α)
    (cb : Callback α) :
    invocations (callGuarded event payload cb).trace = [(cb.ident, payload)] := by
  unfold callGuarded
  cases h : cb.run payload with
  | returned => rfl
  | threw v => cases v <;> rfl

/-- The body of the `forEach` raises exactly when the callback throws a value whose
`message` cannot be read. -/
theorem callGuarded_raised {α : Type} (event : List Char) (payload : α) (cb : Callback α) :
    (callGuarded event payload cb).raised = none ↔ cb.run payload ≠ .threw .unreadable := by
  unfold callGuarded
  cases h : cb.run payload with
  | returned => simp
  | threw v => cases v <;> simp

/-- The `forEach` over an array none of whose callbacks throws an unreadable value: it
ends normally and has called every callback once, in array order. -/
theorem forEachGuarded_readable {α : Type} (event : List Char) (payload : α)
    (cbs : List (Callback α)) (h : ∀ cb ∈ cbs, cb.run payload ≠ .threw .unreadable) :
    (forEachGuarded event payload cbs).raised = none ∧
    invocations (forEachGuarded event payload cbs).trace =
      cbs.map fun cb => (cb.ident, payload) := by
  induction cbs with
  | nil => exact ⟨rfl, rfl⟩
  | cons cb rest ih =>
    have hcb := (callGuarded_raised event payload cb).2 (h cb (by simp))
    obtain ⟨ih1, ih2⟩ := ih (fun c hc => h c (List.mem_cons_of_mem _ hc))
    unfold forEachGuarded
    dsimp only
    rw [hcb]
    dsimp only
    exact ⟨ih1, by rw [invocations_append, callGuarded_invocations, ih2]; rfl⟩

/-- The `forEach` over an array in which a callback throws an unreadable value, none
before it doing so: the exception leaves the loop, the callbacks up to the failing one
have been called once each, and those after it have not been called. -/
theorem forEachGuarded_unreadable {α : Type} (event : List Char) (payload : α)
    (before after : List (Callback α)) (failing : Callback α)
    (hb : ∀ cb ∈ before, cb.run payload ≠ .threw .unreadable)
    (hf : failing.run payload = .threw .unreadable) :
    (forEachGuarded event payload (before ++ failing :: after)).raised =
      some "TypeError: Cannot read properties of null (reading 'message')" ∧
    invocations (forEachGuarded event payload (before ++ failing :: after)).trace =
      (before ++ [failing]).map fun cb => (cb.ident, payload) := by
  induction before with
  | nil =>
    have hr : callGuarded event payload failing =
        { trace := [.invoked failing.ident payload],
          raised := some "TypeError: Cannot read properties of null (reading 'message')" } := by
      unfold callGuarded
      rw [hf]
    rw [List.nil_append, forEachGuarded]
    dsimp only
    rw [hr]
    exact ⟨rfl, rfl⟩
  | cons cb rest ih =>
    have hcb := (callGuarded_raised event payload cb).2 (hb cb (by simp))
    obtain ⟨ih1, ih2⟩ := ih (fun c hc => hb c (List.mem_cons_of_mem _ hc))
    rw [List.cons_append, forEachGuarded]
    dsimp only
    rw [hcb]
    dsimp only
    exact ⟨ih1, by rw [invocations_append, callGuarded_invocations, ih2]; rfl⟩

/-- The messages logged by the `forEach` over an array none of whose callbacks throws an
unreadable value: one for each callback that throws, in array order. -/
theorem forEachGuarded_caught {α : Type} (event : List Char) (payload : α)
    (cbs : List (Callback α)) (h : ∀ cb ∈ cbs, cb.run payload ≠ .threw .unreadable) :
    caughtMessages (forEachGuarded event payload cbs).trace =
      cbs.filterMap fun cb =>
        match cb.run payload with
        | .threw (.withMessage m) => some m
        | _ => none := by
  induction cbs with
  | nil => rfl
  | cons cb rest ih =>
    have hcb := (callGuarded_raised event payload cb).2 (h cb (by simp))
    have ih' := ih (fun c hc => h c (List.mem_cons_of_mem _ hc))
    unfold forEachGuarded
    dsimp only
    rw [hcb]
    dsimp only
    rw [caughtMessages_append, ih', List.filterMap_cons]
    have hne := h cb (by simp)
    unfold callGuarded
    cases hrun : cb.run payload with
    | returned => rfl
    | threw v =>
      cases v with
      | withMessage m => rfl
      | unreadable => exact absurd hrun hne

/-- An `emit` of a known event runs the guarded `forEach` over the event's array. -/
theorem emit_known {α : Type} (cbs : Callbacks α) (e : EventName) (payload : α) :
    cbs.emit e.toName payload = forEachGuarded e.toName payload (cbs.handlers e) := by
  unfold Callbacks.emit
  rw [lookupCallbacks_toName]

/-- When no callback registered for a known event throws a value whose `message` cannot
be read, a single `emit()` of the event returns normally and calls each callback
registered under the event's name exactly once per registration, in registration order,
with the emitted payload, and calls no callback registered under another name. -/
theorem emit_invokes_registered_in_order {α : Type}
    (regs : List (List Char × Callback α)) (e : EventName) (payload : α)
    (h : ∀ cb ∈ registeredFor e.toName regs, cb.run payload ≠ .threw .unreadable) :
    (((Callbacks.empty α).register regs).emit e.toName payload).raised = none ∧
    invocations (((Callbacks.empty α).register regs).emit e.toName payload).trace =
      (registeredFor e.toName regs).map fun cb => (cb.ident, payload) := by
  rw [emit_known, register_handlers]
  exact forEachGuarded_readable _ _ _ h

/-- When a callback throws a value with a readable `message` and no callback of the event
throws an unreadable one, the error does not leave `emit()`, the message is logged, and
the callbacks before and after the failing one are each called once, in order. -/
theorem emit_isolates_readable_throw {α : Type}
    (regs : List (List Char × Callback α)) (e : EventName) (payload : α)
    (before after : List (Callback α)) (failing : Callback α) (message : String)
    (hreg : registeredFor e.toName regs = before ++ failing :: after)
    (hthrow : failing.run payload = .threw (.withMessage message))
    (h : ∀ cb ∈ before ++ after, cb.run payload ≠ .threw .unreadable) :
    (((Callbacks.empty α).register regs).emit e.toName payload).raised = none ∧
    message ∈ caughtMessages
      (((Callbacks.empty α).register regs).emit e.toName payload).trace ∧
    invocations (((Callbacks.empty α).register regs).emit e.toName payload).trace =
      (before.map fun cb => (cb.ident, payload)) ++ (failing.ident, payload) ::
        (after.map fun cb => (cb.ident, payload)) := by
  have hall : ∀ cb ∈ registeredFor e.toName regs, cb.run payload ≠ .threw .unreadable := by
    intro cb hcb
    rw [hreg] at hcb
    rcases List.mem_append.1 hcb with hb | hb
    · exact h cb (List.mem_append.2 (Or.inl hb))
    · rcases List.mem_cons.1 hb with rfl | ha
      · rw [hthrow]
        intro hc
        cases hc
      · exact h cb (List.mem_append.2 (Or.inr ha))
  obtain ⟨h1, h2⟩ := emit_invokes_registered_in_order regs e payload hall
  refine ⟨h1, ?_, ?_⟩
  · rw [emit_known, register_handlers]
    show message ∈ caughtMessages
      (forEachGuarded e.toName payload (registeredFor e.toName regs)).trace
    rw [forEachGuarded_caught _ _ _ hall]
    rw [List.mem_filterMap]
    refine ⟨failing, by rw [hreg]; simp, ?_⟩
    rw [hthrow]
  · rw [h2, hreg]
    simp

/-- C18 (code defect, shared with C19): three callbacks are registered for `onAlert`
through `on()`, and one for `onMessage`. The first one throws `null`. A single `emit()`
of `onAlert` calls the first callback only: reading `error.message` in the `catch` raises,
the exception leaves the `forEach` and `emit()`, and the second and third callbacks,
registered for the same event, are not called at all. -/
theorem C18_emit_skips_handlers_after_thrown_null :
    (registeredFor "onAlert".toList
        [("onAlert".toList, ({ ident := 1, run := fun _ => .threw .unreadable } : Callback Nat)),
         ("onAlert".toList, { ident := 2, run := fun _ => .returned }),
         ("onMessage".toList, { ident := 9, run := fun _ => .returned }),
         ("onAlert".toList, { ident := 3, run := fun _ => .returned })]).map
      (fun cb => cb.ident) = [1, 2, 3] ∧
    invocations (((Callbacks.empty Nat).register
        [("onAlert".toList, { ident := 1, run := fun _ => .threw .unreadable }),
         ("onAlert".toList, { ident := 2, run := fun _ => .returned }),
         ("onMessage".toList, { ident := 9, run := fun _ => .returned }),
         ("onAlert".toList, { ident := 3, run := fun _ => .returned })]).emit
        "onAlert".toList 7).trace = [(1, 7)] ∧
    (((Callbacks.empty Nat).register
        [("onAlert".toList, { ident := 1, run := fun _ => .threw .unreadable }),
         ("onAlert".toList, { ident := 2, run := fun _ => .returned }),
         ("onMessage".toList, { ident := 9, run := fun _ => .returned }),
         ("onAlert".toList, { ident := 3, run := fun _ => .returned })]).emit
        "onAlert".toList 7).raised
      = some "TypeError: Cannot read properties of null (reading 'message')" := by
  refine ⟨by simp [registeredFor], ?_, ?_⟩
  · rw [show "onAlert".toList = EventName.onAlert.toName from rfl, emit_known,
      register_handlers]
    simp [registeredFor, EventName.toName, Callbacks.empty, forEachGuarded, callGuarded,
      invocations]
  · rw [show "onAlert".toList = EventName.onAlert.toName from rfl, emit_known,
      register_handlers]
    simp [registeredFor, EventName.toName, Callbacks.empty, forEachGuarded, callGuarded]

/-- C19 (code defect, shared with C18): if a callback registered for a known event throws
`null` or `undefined` during `emit()` (none before it doing so), the exception raised by
reading `error.message` in the `catch` propagates out of `emit()`; the callbacks
registered before the failing one and the failing one have been called once each, and no
callback registered after it is called in that emission. -/
theorem C19_thrown_null_leaves_emit {α : Type}
    (regs : List (List Char × Callback α)) (e : EventName) (payload : α)
    (before after : List (Callback α)) (failing : Callback α)
    (hreg : registeredFor e.toName regs = before ++ failing :: after)
    (hbefore : ∀ cb ∈ before, cb.run payload ≠ .threw .unreadable)
    (hthrow : failing.run payload = .threw .unreadable) :
    (((Callbacks.empty α).register regs).emit e.toName payload).raised
      = some "TypeError: Cannot read properties of null (reading 'message')" ∧
    invocations (((Callbacks.empty α).register regs).emit e.toName payload).trace =
      (before.map fun cb => (cb.ident, payload)) ++ [(failing.ident, payload)] := by
  rw [emit_known, register_handlers, hreg]
  obtain ⟨h1, h2⟩ := forEachGuarded_unreadable e.toName payload before after failing
    hbefore hthrow
  refine ⟨by simpa [Callbacks.empty] using h1, ?_⟩
  simp only [Callbacks.empty, List.nil_append]
  rw [h2]
  simp

/-- C19 witness: of three callbacks registered for `onAlert`, the second throws `null`:
the first two are called, the third is not, and `emit()` raises. -/
theorem C19_thrown_null_leaves_emit_witness :
    (((Callbacks.empty Nat).register
        [("onAlert".toList, { ident := 1, run := fun _ => .threw (.withMessage "boom") }),
         ("onAlert".toList, { ident := 2, run := fun _ => .threw .unreadable }),
         ("onAlert".toList, { ident := 3, run := fun _ => .returned })]).emit
        "onAlert".toList 7).raised
      = some "TypeError: Cannot read properties of null (reading 'message')" ∧
    invocations (((Callbacks.empty Nat).register
        [("onAlert".toList, { ident := 1, run := fun _ => .threw (.withMessage "boom") }),
         ("onAlert".toList, { ident := 2, run := fun _ => .threw .unreadable }),
         ("onAlert".toList, { ident := 3, run := fun _ => .returned })]).emit
        "onAlert".toList 7).trace = [(1, 7), (2, 7)] :=
  C19_thrown_null_leaves_emit
    [("onAlert".toList, { ident := 1, run := fun _ => .threw (.withMessage "boom") }),
     ("onAlert".toList, { ident := 2, run := fun _ => .threw .unreadable }),
     ("onAlert".toList, { ident := 3, run := fun _ => .returned })]
    .onAlert 7
    [{ ident := 1, run := fun _ => .threw (.withMessage "boom") }]
    [{ ident := 3, run := fun _ => .returned }]
    { ident := 2, run := fun _ => .threw .unreadable }
    (by simp [registeredFor, EventName.toName]) (by simp) rfl

/-! ## C20: the LED controller -/

/-- The validator of the controller accepts exactly the triples of integers within
`0..255`. -/
theorem led_isValidRGB_iff (r g b : LEDController.JSArg) :
    LEDController.isValidRGB r g b = true ↔
      ∃ i j k : Int, r = .integer i ∧ g = .integer j ∧ b = .integer k ∧
        0 ≤ i ∧ i ≤ 255 ∧ 0 ≤ j ∧ j ≤ 255 ∧ 0 ≤ k ∧ k ≤ 255 := by
  cases r <;> cases g <;> cases b <;> simp [LEDController.isValidRGB, and_assoc]

/-- C20: `setColor(r, g, b)` throws without running the hardware driver and without
changing `currentColor` if and only if `r`, `g`, `b` are not all integers within `0..255`;
for valid input the driver is run once with exactly those three values, and `currentColor`
becomes `(r, g, b)` when the driver exits with code 0 and keeps its value otherwise. -/
theorem C20_setColor_validates_first (s : LEDController.State) (r g b : LEDController.JSArg)
    (outcome : LEDController.DriverOutcome) :
    (((LEDController.setColor s r g b outcome).threw = true ∧
        (LEDController.setColor s r g b outcome).calls = [] ∧
        (LEDController.setColor s r g b outcome).state = s) ↔
      ¬ ∃ i j k : Int, r = .integer i ∧ g = .integer j ∧ b = .integer k ∧
        0 ≤ i ∧ i ≤ 255 ∧ 0 ≤ j ∧ j ≤ 255 ∧ 0 ≤ k ∧ k ≤ 255) ∧
    (∀ i j k : Int, r = .integer i → g = .integer j → b = .integer k →
      0 ≤ i ∧ i ≤ 255 ∧ 0 ≤ j ∧ j ≤ 255 ∧ 0 ≤ k ∧ k ≤ 255 →
      (LEDController.setColor s r g b outcome).calls
        = [{ args := [LEDController.numberToString i, LEDController.numberToString j,
                      LEDController.numberToString k] }] ∧
      (LEDController.setColor s r g b outcome).state.currentColor
        = (if outcome = .exit 0 then { r := i, g := j, b := k } else s.currentColor) ∧
      ((LEDController.setColor s r g b outcome).threw = false ↔ outcome = .exit 0)) := by
  constructor
  · rw [← led_isValidRGB_iff]
    cases hv : LEDController.isValidRGB r g b with
    | false =>
      simp [LEDController.setColor, hv, LEDController.Result.threw]
    | true =>
      obtain ⟨i, j, k, rfl, rfl, rfl, _⟩ := (led_isValidRGB_iff r g b).1 hv
      have hcalls : (LEDController.setColor s (.integer i) (.integer j) (.integer k)
          outcome).calls ≠ [] := by
        simp only [LEDController.setColor, hv, Bool.not_true, Bool.false_eq_true, if_false,
          LEDController.setColorHardware]
        cases outcome with
        | exit code => by_cases hc : code = 0 <;> simp [hc]
        | error => simp
        | spawnThrows => simp
      simp [hcalls]
  · rintro i j k rfl rfl rfl hr
    have hv : LEDController.isValidRGB (.integer i) (.integer j) (.integer k) = true :=
      (led_isValidRGB_iff _ _ _).2 ⟨i, j, k, rfl, rfl, rfl, hr⟩
    simp only [LEDController.setColor, hv, Bool.not_true, Bool.false_eq_true, if_false,
      LEDController.setColorHardware]
    cases outcome with
    | exit code => by_cases hc : code = 0 <;> simp [hc, LEDController.Result.threw]
    | error => simp [LEDController.Result.threw]
    | spawnThrows => simp [LEDController.Result.threw]

/-- C20 witness: red is passed to the driver and stored on exit code 0, not stored on exit
code 1; the value 300 throws before the driver is run. -/
theorem C20_setColor_validates_first_witness :
    (LEDController.setColor LEDController.State.init (.integer 255) (.integer 0) (.integer 0)
        (.exit 0)).calls = [{ args := ["255".toList, "0".toList, "0".toList] }] ∧
    (LEDController.setColor LEDController.State.init (.integer 255) (.integer 0) (.integer 0)
        (.exit 0)).state.currentColor = { r := 255, g := 0, b := 0 } ∧
    (LEDController.setColor LEDController.State.init (.integer 255) (.integer 0) (.integer 0)
        (.exit 1)).state.currentColor = { r := 0, g := 0, b := 0 } ∧
    ((LEDController.setColor LEDController.State.init (.integer 300) (.integer 0) (.integer 0)
        (.exit 0)).threw = true ∧
     (LEDController.setColor LEDController.State.init (.integer 300) (.integer 0) (.integer 0)
        (.exit 0)).calls = [] ∧
     (LEDController.setColor LEDController.State.init (.integer 300) (.integer 0) (.integer 0)
        (.exit 0)).state = LEDController.State.init) :=
  ⟨((C20_setColor_validates_first LEDController.State.init (.integer 255) (.integer 0)
      (.integer 0) (.exit 0)).2 255 0 0 rfl rfl rfl (by decide)).1,
   ((C20_setColor_validates_first LEDController.State.init (.integer 255) (.integer 0)
      (.integer 0) (.exit 0)).2 255 0 0 rfl rfl rfl (by decide)).2.1,
   ((C20_setColor_validates_first LEDController.State.init (.integer 255) (.integer 0)
      (.integer 0) (.exit 1)).2 255 0 0 rfl rfl rfl (by decide)).2.1,
   (C20_setColor_validates_first LEDController.State.init (.integer 300) (.integer 0)
      (.integer 0) (.exit 0)).1.2 (by
        rintro ⟨i, j, k, hi, _, _, _, h255, _⟩
        cases hi
        exact absurd h255 (by decide))⟩


/-! ## C21 and C22: classification of the configured topics, the sentinel -/

/-- Scanning a `/`-free segment for a pattern that begins with `/`: the pattern can only
start at the `/` that ends the segment. -/
theorem includes_segment (s rest pat : List Char) (hs : '/' ∉ s) :
    includes (s ++ '/' :: rest) ('/' :: pat) =
      (pat.isPrefixOf rest || includes rest ('/' :: pat)) := by
  induction s with
  | nil =>
    rw [List.nil_append, includes]
    simp [List.isPrefixOf]
  | cons c s' ih =>
    have hc : c ≠ '/' := fun h => hs (by simp [h])
    have hs' : '/' ∉ s' := fun h => hs (List.mem_cons_of_mem _ h)
    rw [List.cons_append, includes, ih hs']
    simp [List.isPrefixOf, Ne.symm hc]

theorem includes_last_segment (s pat : List Char) (hs : '/' ∉ s) :
    includes s ('/' :: pat) = false := by
  induction s with
  | nil => simp [includes, List.isPrefixOf]
  | cons c s' ih =>
    have hc : c ≠ '/' := fun h => hs (by simp [h])
    have hs' : '/' ∉ s' := fun h => hs (List.mem_cons_of_mem _ h)
    rw [includes, ih hs']
    simp [List.isPrefixOf, Ne.symm hc]

theorem isPrefixOf_cons_ne (c d : Char) (p s : List Char) (h : c ≠ d) :
    (c :: p).isPrefixOf (d :: s) = false := by
  simp [List.isPrefixOf, h]

/-- The topics built by `getTopics()` are instances of the two wire patterns. -/
theorem getTopics_eq (team : List Char) :
    ConfigLoader.getTopics team =
      { temperature := dataTopic "GTI700".toList "E2025".toList team "temperature".toList,
        humidity := dataTopic "GTI700".toList "E2025".toList team "humidite".toList,
        alerts := alertsTopic "GTI700".toList "E2025".toList team } := rfl

/-- A sensor topic with a leaf other than `temperature` does not contain `/temperature`,
for a leaf that neither is nor contains it. -/
theorem not_includes_dataTopic (id leaf pat : List Char) (p : Char)
    (hid : id ≠ []) (hdig : ∀ c ∈ id, isDecimalDigit c = true)
    (hp : isDecimalDigit p = false) (hpD : p ≠ 'D') (hpE : p ≠ 'E')
    (hleaf1 : (p :: pat).isPrefixOf leaf = false)
    (hleaf2 : includes leaf ('/' :: p :: pat) = false) :
    includes (dataTopic "GTI700".toList "E2025".toList id leaf) ('/' :: p :: pat) = false := by
  obtain ⟨d, ds, rfl⟩ : ∃ d ds, id = d :: ds := by
    cases id with
    | nil => exact absurd rfl hid
    | cons d ds => exact ⟨d, ds, rfl⟩
  have hd : isDecimalDigit d = true := hdig d (by simp)
  have hpd : p ≠ d := fun h => by rw [h, hd] at hp; cases hp
  unfold dataTopic
  rw [includes_segment _ _ _ (by decide), includes_segment _ _ _ (by decide),
    includes_segment _ _ _ (by decide),
    includes_segment _ _ _ (sep_not_mem_digits _ hdig), hleaf1, hleaf2]
  have h1 : (p :: pat).isPrefixOf
      ("Data".toList ++ '/' :: ("E2025".toList ++ '/' :: ((d :: ds) ++ '/' :: leaf))) = false :=
    isPrefixOf_cons_ne p 'D' _ _ hpD
  have h2 : (p :: pat).isPrefixOf ("E2025".toList ++ '/' :: ((d :: ds) ++ '/' :: leaf))
      = false := isPrefixOf_cons_ne p 'E' _ _ hpE
  have h3 : (p :: pat).isPrefixOf ((d :: ds) ++ '/' :: leaf) = false :=
    isPrefixOf_cons_ne p d _ _ hpd
  rw [h1, h2, h3]
  rfl

/-- An alert topic contains neither `/temperature` nor `/humidite`. -/
theorem not_includes_alertsTopic (id pat : List Char) (p : Char)
    (hid : id ≠ []) (hdig : ∀ c ∈ id, isDecimalDigit c = true)
    (hp : isDecimalDigit p = false) (hpA : p ≠ 'A') (hpE : p ≠ 'E') :
    includes (alertsTopic "GTI700".toList "E2025".toList id) ('/' :: p :: pat) = false := by
  obtain ⟨d, ds, rfl⟩ : ∃ d ds, id = d :: ds := by
    cases id with
    | nil => exact absurd rfl hid
    | cons d ds => exact ⟨d, ds, rfl⟩
  have hd : isDecimalDigit d = true := hdig d (by simp)
  have hpd : p ≠ d := fun h => by rw [h, hd] at hp; cases hp
  unfold alertsTopic
  rw [includes_segment _ _ _ (by decide), includes_segment _ _ _ (by decide),
    includes_segment _ _ _ (by decide),
    includes_last_segment _ _ (sep_not_mem_digits _ hdig)]
  have h1 : (p :: pat).isPrefixOf
      ("Alerts".toList ++ '/' :: ("E2025".toList ++ '/' :: (d :: ds))) = false :=
    isPrefixOf_cons_ne p 'A' _ _ hpA
  have h2 : (p :: pat).isPrefixOf ("E2025".toList ++ '/' :: (d :: ds)) = false :=
    isPrefixOf_cons_ne p 'E' _ _ hpE
  have h3 : (p :: pat).isPrefixOf (d :: ds) = false := isPrefixOf_cons_ne p d _ _ hpd
  rw [h1, h2, h3]
  rfl

theorem includes_alertsTopic (ns epoch id : List Char) (hns : '/' ∉ ns) :
    includes (alertsTopic ns epoch id) "/Alerts/".toList = true := by
  unfold alertsTopic
  show includes (ns ++ '/' :: _) ('/' :: "Alerts/".toList) = true
  rw [includes_segment _ _ _ hns]
  have h : "Alerts/".toList.isPrefixOf ("Alerts".toList ++ '/' :: (epoch ++ '/' :: id)) = true := by
    show ("Alerts/".toList ++ []).isPrefixOf ("Alerts/".toList ++ (epoch ++ '/' :: id)) = true
    simp
  rw [h]
  rfl

/-- The team number read from `ns/Alerts/E2025/id` is `id`. -/
theorem teamNumberOf_alertsTopic (ns id : List Char) (hns : '/' ∉ ns) (hid : id ≠ [])
    (hdig : ∀ c ∈ id, isDecimalDigit c = true) :
    teamNumberOf (alertsTopic ns "E2025".toList id) = id := by
  have hne : id.isEmpty = false := by
    cases id with
    | nil => exact absurd rfl hid
    | cons d ds => rfl
  have h3 : matchTeam ("E2025".toList ++ '/' :: id) = some id := by
    rw [matchTeam_segment _ _ (by decide), takeWhile_digits _ hdig,
      if_pos ⟨by decide, hne⟩]
  have h2 : matchTeam ("Alerts".toList ++ '/' :: ("E2025".toList ++ '/' :: id)) = some id := by
    rw [matchTeam_segment _ _ (by decide), if_neg (fun hh => absurd hh.1 (by decide)), h3]
  have h1 : matchTeam (ns ++ '/' :: ("Alerts".toList ++ '/' :: ("E2025".toList ++ '/' :: id)))
      = some id := by
    rw [matchTeam_segment ns _ hns]
    have : (("Alerts".toList ++ '/' :: ("E2025".toList ++ '/' :: id)).takeWhile
        isDecimalDigit).isEmpty = true := by
      show ((List.takeWhile isDecimalDigit ('A' :: _)).isEmpty = true)
      rw [List.takeWhile_cons_of_neg (by decide)]
      rfl
    rw [if_neg (fun hh => by rw [this] at hh; exact absurd hh.2 (by decide)), h2]
  unfold teamNumberOf alertsTopic
  rw [h1]

/-- C21: for every team number that is a non-empty string of decimal digits, the three
topics built by `getTopics()` follow the wire patterns (namespace `GTI700`, epoch `E2025`)
and `handleMessage` classifies them as temperature, humidity and alert respectively, each
with `teamNumber` equal to that team number. -/
theorem C21_config_topics_classified (team msg : List Char) (ts : Nat)
    (hne : team ≠ []) (hdig : ∀ c ∈ team, isDecimalDigit c = true) :
    (ConfigLoader.getTopics team).temperature
      = dataTopic "GTI700".toList "E2025".toList team "temperature".toList ∧
    (ConfigLoader.getTopics team).humidity
      = dataTopic "GTI700".toList "E2025".toList team "humidite".toList ∧
    (ConfigLoader.getTopics team).alerts
      = alertsTopic "GTI700".toList "E2025".toList team ∧
    MQTTWebSocketClient.route (ConfigLoader.getTopics team).temperature msg ts
      = some (.temperature msg ts team) ∧
    MQTTWebSocketClient.route (ConfigLoader.getTopics team).humidity msg ts
      = some (.humidity msg ts team) ∧
    MQTTWebSocketClient.route (ConfigLoader.getTopics team).alerts msg ts
      = some (.alert msg ts team) := by
  rw [getTopics_eq]
  refine ⟨rfl, rfl, rfl, ?_, ?_, ?_⟩
  · have hteam : teamNumberOf (dataTopic "GTI700".toList "E2025".toList team
        "temperature".toList) = team := by
      have h := teamNumberOf_dataTopic "GTI700".toList "E2025".toList team
        "temperature".toList (by decide) (by decide) hne hdig (by decide) (by decide)
      rw [if_pos (by decide)] at h
      exact h
    have hinc := includes_dataTopic_temperature "GTI700".toList "E2025".toList team
    simp only [MQTTWebSocketClient.route, hteam, hinc, if_true]
  · have hteam : teamNumberOf (dataTopic "GTI700".toList "E2025".toList team
        "humidite".toList) = team := by
      have h := teamNumberOf_dataTopic "GTI700".toList "E2025".toList team
        "humidite".toList (by decide) (by decide) hne hdig (by decide) (by decide)
      rw [if_pos (by decide)] at h
      exact h
    have hnot : includes (dataTopic "GTI700".toList "E2025".toList team "humidite".toList)
        "/temperature".toList = false :=
      not_includes_dataTopic team "humidite".toList "emperature".toList 't' hne hdig
        (by decide) (by decide) (by decide) (by decide) (by decide)
    have hinc : includes (dataTopic "GTI700".toList "E2025".toList team "humidite".toList)
        "/humidite".toList = true := by
      have h : dataTopic "GTI700".toList "E2025".toList team "humidite".toList =
          ("GTI700".toList ++ '/' :: ("Data".toList ++ '/' :: ("E2025".toList ++ '/' :: team)))
            ++ ("/humidite".toList ++ []) := by
        simp [dataTopic]
      rw [h]
      exact includes_append_self _ _ _
    simp only [MQTTWebSocketClient.route, hteam, hnot, hinc, Bool.false_eq_true, if_false,
      if_true]
  · have hteam := teamNumberOf_alertsTopic "GTI700".toList team (by decide) hne hdig
    have hnot1 : includes (alertsTopic "GTI700".toList "E2025".toList team)
        "/temperature".toList = false :=
      not_includes_alertsTopic team "emperature".toList 't' hne hdig
        (by decide) (by decide) (by decide)
    have hnot2 : includes (alertsTopic "GTI700".toList "E2025".toList team)
        "/humidite".toList = false :=
      not_includes_alertsTopic team "umidite".toList 'h' hne hdig
        (by decide) (by decide) (by decide)
    have hinc := includes_alertsTopic "GTI700".toList "E2025".toList team (by decide)
    simp only [MQTTWebSocketClient.route, hteam, hnot1, hnot2, hinc, Bool.false_eq_true,
      if_false, if_true]

/-- C21 witness: the topics of team `05`. -/
theorem C21_config_topics_classified_witness :
    MQTTWebSocketClient.route "GTI700/Data/E2025/05/temperature".toList "23.50".toList 0
      = some (.temperature "23.50".toList 0 "05".toList) ∧
    MQTTWebSocketClient.route "GTI700/Data/E2025/05/humidite".toList "40.00".toList 0
      = some (.humidity "40.00".toList 0 "05".toList) ∧
    MQTTWebSocketClient.route "GTI700/Alerts/E2025/05".toList "255;0;0".toList 0
      = some (.alert "255;0;0".toList 0 "05".toList) :=
  ⟨(C21_config_topics_classified "05".toList "23.50".toList 0 (by decide) (by decide)).2.2.2.1,
   (C21_config_topics_classified "05".toList "40.00".toList 0
      (by decide) (by decide)).2.2.2.2.1,
   (C21_config_topics_classified "05".toList "255;0;0".toList 0
      (by decide) (by decide)).2.2.2.2.2⟩


theorem split_ne_nil (sep : Char) (s : List Char) : split sep s ≠ [] := by
  cases s with
  | nil => simp [split]
  | cons c cs =>
    unfold split
    split
    · simp
    · split <;> simp

theorem split_append (sep : Char) (a y : List Char) :
    split sep (a ++ sep :: y) = split sep a ++ split sep y := by
  induction a with
  | nil => simp [split]
  | cons c cs ih =>
    rw [List.cons_append, split, ih]
    by_cases hc : c = sep
    · rw [if_pos hc]
      conv_rhs => rw [split, if_pos hc]
      rfl
    · rw [if_neg hc]
      conv_rhs => rw [split, if_neg hc]
      cases hs : split sep cs with
      | nil => exact absurd hs (split_ne_nil sep cs)
      | cons f fs => rfl

/-- A segment that follows a `/` and begins with the character after it. -/
theorem split_head_mem (sep d : Char) (a b : List Char) (hd : d ≠ sep) :
    ∃ f, (d :: f) ∈ split sep (a ++ sep :: d :: b) := by
  rw [split_append]
  have h : ∃ f fs, split sep (d :: b) = (d :: f) :: fs := by
    rw [split, if_neg hd]
    cases hs : split sep b with
    | nil => exact ⟨[], [], rfl⟩
    | cons f fs => exact ⟨f, fs, rfl⟩
  obtain ⟨f, fs, hf⟩ := h
  exact ⟨f, by rw [hf]; simp⟩

/-- Where the team expression matches, the text holds a `/` followed by a digit. -/
theorem matchTeam_some_decompose (s g : List Char) (h : matchTeam s = some g) :
    ∃ a b d, s = a ++ '/' :: d :: b ∧ isDecimalDigit d = true := by
  induction s with
  | nil => simp [matchTeam] at h
  | cons c cs ih =>
    rw [matchTeam] at h
    cases hm : matchTeamAt (c :: cs) with
    | none =>
      rw [hm] at h
      obtain ⟨a, b, d, hs, hd⟩ := ih h
      exact ⟨c :: a, b, d, by rw [hs]; rfl, hd⟩
    | some g' =>
      unfold matchTeamAt at hm
      by_cases hp : "E2025/".toList.isPrefixOf (c :: cs) = true
      · rw [if_pos hp] at hm
        obtain ⟨t, ht⟩ := List.isPrefixOf_iff_prefix.1 hp
        have hdrop : List.drop 6 (c :: cs) = t := by
          rw [← ht]
          rfl
        rw [hdrop] at hm
        dsimp only at hm
        cases t with
        | nil => simp at hm
        | cons d t' =>
          by_cases hd : isDecimalDigit d = true
          · exact ⟨"E2025".toList, t', d, by rw [← ht]; rfl, hd⟩
          · rw [List.takeWhile_cons_of_neg hd] at hm
            simp at hm
      · rw [if_neg hp] at hm
        cases hm

/-- An anchored match right at the marker followed by a digit. -/
theorem matchTeamAt_marker (d : Char) (b : List Char) (hd : isDecimalDigit d = true) :
    ∃ g, matchTeamAt ("E2025/".toList ++ d :: b) = some g := by
  refine ⟨d :: b.takeWhile isDecimalDigit, ?_⟩
  have hp : "E2025/".toList.isPrefixOf ("E2025/".toList ++ d :: b) = true :=
    List.isPrefixOf_iff_prefix.2 (List.prefix_append _ _)
  unfold matchTeamAt
  rw [if_pos hp]
  have hdrop : List.drop 6 ("E2025/".toList ++ d :: b) = d :: b := rfl
  rw [hdrop]
  dsimp only
  rw [List.takeWhile_cons_of_pos hd]
  rfl

/-- Where `E2025/` is directly followed by a digit, the team expression matches. -/
theorem matchTeam_of_marker (a b : List Char) (d : Char) (hd : isDecimalDigit d = true) :
    ∃ g, matchTeam (a ++ ("E2025/".toList ++ d :: b)) = some g := by
  induction a with
  | nil =>
    obtain ⟨g, hg⟩ := matchTeamAt_marker d b hd
    refine ⟨g, ?_⟩
    show matchTeam ('E' :: ("2025/".toList ++ d :: b)) = some g
    rw [matchTeam]
    have hg' : matchTeamAt ('E' :: ("2025/".toList ++ d :: b)) = some g := hg
    rw [hg']
  | cons c cs ih =>
    obtain ⟨g, hg⟩ := ih
    rw [List.cons_append, matchTeam]
    cases hm : matchTeamAt (c :: (cs ++ ("E2025/".toList ++ d :: b))) with
    | some g' => exact ⟨g', rfl⟩
    | none => exact ⟨g, hg⟩

/-- Where the team expression matches, the text holds `E2025/` directly followed by a
digit, and the captured group is a non-empty run of digits. -/
theorem matchTeam_some_marker (s g : List Char) (h : matchTeam s = some g) :
    (∃ a b d, s = a ++ ("E2025/".toList ++ d :: b) ∧ isDecimalDigit d = true) ∧
    g ≠ [] ∧ ∀ c ∈ g, isDecimalDigit c = true := by
  induction s with
  | nil => simp [matchTeam] at h
  | cons c cs ih =>
    rw [matchTeam] at h
    cases hm : matchTeamAt (c :: cs) with
    | none =>
      rw [hm] at h
      obtain ⟨⟨a, b, d, hs, hd⟩, hg⟩ := ih h
      exact ⟨⟨c :: a, b, d, by rw [hs]; rfl, hd⟩, hg⟩
    | some g' =>
      rw [hm] at h
      cases h
      unfold matchTeamAt at hm
      by_cases hp : "E2025/".toList.isPrefixOf (c :: cs) = true
      · rw [if_pos hp] at hm
        obtain ⟨t, ht⟩ := List.isPrefixOf_iff_prefix.1 hp
        have hdrop : List.drop 6 (c :: cs) = t := by
          rw [← ht]
          rfl
        rw [hdrop] at hm
        dsimp only at hm
        by_cases he : (List.takeWhile isDecimalDigit t).isEmpty = true
        · rw [if_pos he] at hm
          cases hm
        · rw [if_neg he] at hm
          cases hm
          refine ⟨?_, ?_, fun x hx => List.mem_takeWhile_imp hx⟩
          · cases t with
            | nil => simp at he
            | cons d t' =>
              by_cases hd : isDecimalDigit d = true
              · exact ⟨[], t', d, by rw [← ht]; rfl, hd⟩
              · rw [List.takeWhile_cons_of_neg hd] at he
                simp at he
          · intro hnil
            rw [hnil] at he
            exact he rfl
      · rw [if_neg hp] at hm
        cases hm

/-- The team number is the sentinel exactly when the team expression does not match. -/
theorem teamNumberOf_eq_sentinel_iff (topic : List Char) :
    teamNumberOf topic = "XX".toList ↔ matchTeam topic = none := by
  unfold teamNumberOf
  cases hm : matchTeam topic with
  | none => simp
  | some g =>
    obtain ⟨_, _, hdig⟩ := matchTeam_some_marker topic g hm
    constructor
    · intro hg
      dsimp only at hg
      have hX := hdig 'X' (by rw [hg]; decide)
      exact absurd hX (by decide)
    · intro h
      cases h

/-- C22, as stated, fails: no segment of `GTI700/Data/E2025/12abc/temperature` is
numeric, yet the team number extracted is `12`, not `XX`. -/
theorem C22_counterexample :
    (∀ seg ∈ split '/' "GTI700/Data/E2025/12abc/temperature".toList,
      isNumericSegment seg = false) ∧
    teamNumberOf "GTI700/Data/E2025/12abc/temperature".toList = "12".toList ∧
    MQTTWebSocketClient.route "GTI700/Data/E2025/12abc/temperature".toList "23.5".toList 0
      = some (.temperature "23.5".toList 0 "12".toList) ∧
    MQTTDualClient.routeLocal "GTI700/Data/E2025/12abc/temperature".toList "23.5".toList 0
      = some (.temperature "23.5".toList 0 "12".toList) ∧
    "12".toList ≠ "XX".toList := by
  decide

/-- C22 (amended): the team number extracted by `handleMessage`, `handleLocalMessage` and
`handleHiveMQMessage` is the sentinel `XX` for every topic in which the text `E2025/` is
nowhere directly followed by a decimal digit, and for no other topic; it is the team
number handed to the handler the topic is routed to. -/
theorem C22_sentinel_iff_no_digit_after_marker (topic msg : List Char) (ts : Nat) :
    (teamNumberOf topic = "XX".toList ↔
      ∀ a b d, topic = a ++ ("E2025/".toList ++ d :: b) → isDecimalDigit d = false) ∧
    (∀ call, MQTTWebSocketClient.route topic msg ts = some call →
      call.team = teamNumberOf topic) ∧
    (∀ call, MQTTDualClient.routeLocal topic msg ts = some call →
      call.team = teamNumberOf topic) ∧
    (∀ call, MQTTDualClient.routeHiveMQ topic msg ts = some call →
      call.team = teamNumberOf topic) := by
  refine ⟨?_, ?_, ?_, ?_⟩
  · rw [teamNumberOf_eq_sentinel_iff]
    constructor
    · intro hnone a b d hs
      cases hd : isDecimalDigit d with
      | false => rfl
      | true =>
        obtain ⟨g, hg⟩ := matchTeam_of_marker a b d hd
        rw [← hs, hnone] at hg
        cases hg
    · intro hno
      cases hm : matchTeam topic with
      | none => rfl
      | some g =>
        obtain ⟨⟨a, b, d, hs, hd⟩, _⟩ := matchTeam_some_marker topic g hm
        rw [hno a b d hs] at hd
        cases hd
  · intro call hc
    unfold MQTTWebSocketClient.route at hc
    dsimp only at hc
    split at hc
    · cases hc; rfl
    · split at hc
      · cases hc; rfl
      · split at hc
        · cases hc; rfl
        · cases hc
  · intro call hc
    unfold MQTTDualClient.routeLocal at hc
    dsimp only at hc
    split at hc
    · cases hc; rfl
    · split at hc
      · cases hc; rfl
      · cases hc
  · intro call hc
    unfold MQTTDualClient.routeHiveMQ at hc
    dsimp only at hc
    split at hc
    · cases hc; rfl
    · cases hc

/-- C22 witness: in `GTI700/Data/E2024/12abc/temperature` a segment begins with digits, but
not after `E2025/`: the team number is the sentinel, and `E2025/` is nowhere followed by a
digit. -/
theorem C22_sentinel_iff_no_digit_after_marker_witness :
    teamNumberOf "GTI700/Data/E2024/12abc/temperature".toList = "XX".toList ∧
    ∀ a b d, "GTI700/Data/E2024/12abc/temperature".toList = a ++ ("E2025/".toList ++ d :: b) →
      isDecimalDigit d = false :=
  ⟨by decide,
   (C22_sentinel_iff_no_digit_after_marker "GTI700/Data/E2024/12abc/temperature".toList
      "23.5".toList 0).1.1 (by decide)⟩

/-- A topic of another epoch whose next segment begins with digits: the sentinel. -/
theorem teamNumberOf_other_epoch :
    teamNumberOf "GTI700/Data/E2024/12abc/temperature".toList = "XX".toList := by
  decide

/-! ## C23 and C24: the dashboard's history and active alerts -/

/-- The trend is computed on binary64 values: after 15, the sample 15.1 differs by less
than the Number `0.1` and is `stable`, the sample 15.2 is `up` and 14.8 is `down`. -/
theorem calculateTrend_examples :
    IoTDashboard.tenth = .finite false 7205759403792794 (-56) ∧
    IoTDashboard.calculateTrend
        [{ value := parseFloat "15".toList, timestamp := 0, trend := .stable }]
        (parseFloat "15.1".toList) = .stable ∧
    IoTDashboard.calculateTrend
        [{ value := parseFloat "15".toList, timestamp := 0, trend := .stable }]
        (parseFloat "15.2".toList) = .up ∧
    IoTDashboard.calculateTrend
        [{ value := parseFloat "15".toList, timestamp := 0, trend := .stable }]
        (parseFloat "14.8".toList) = .down ∧
    (parseFloat "15.1".toList).sub (parseFloat "15".toList)
      = .finite false 7205759403792768 (-56) := by
  decide

theorem history_setHistory (s : IoTDashboard.State) (type type' : IoTDashboard.SensorType)
    (h : List IoTDashboard.HistoryEntry) :
    (s.setHistory type h).history type' = if type' = type then h else s.history type' := by
  cases type <;> cases type' <;> rfl

/-- One call of `addToHistory`: the array of the type becomes the new entry followed by
the old array, cut to `maxHistoryLength`; the other array is unchanged. -/
theorem addToHistory_history (s : IoTDashboard.State) (type type' : IoTDashboard.SensorType)
    (data : SensorEvent) :
    (IoTDashboard.addToHistory s type data).history type' =
      if type' = type then
        (({ value := data.value, timestamp := data.timestamp,
            trend := IoTDashboard.calculateTrend (s.history type) data.value } :
          IoTDashboard.HistoryEntry) :: s.history type).take s.maxHistoryLength
      else s.history type' := by
  unfold IoTDashboard.addToHistory
  rw [history_setHistory]
  by_cases ht : type' = type
  · rw [if_pos ht, if_pos ht]
    split
    · rfl
    · rename_i hlen
      rw [List.take_of_length_le (by omega)]
  · rw [if_neg ht, if_neg ht]

theorem addToHistory_max (s : IoTDashboard.State) (type : IoTDashboard.SensorType)
    (data : SensorEvent) :
    (IoTDashboard.addToHistory s type data).maxHistoryLength = s.maxHistoryLength := by
  cases type <;> rfl

theorem take_append_take {α : Type} (n : Nat) (pre l : List α) :
    (pre ++ l.take n).take n = (pre ++ l).take n := by
  rw [List.take_append_eq_append_take, List.take_take, List.take_append_eq_append_take]
  congr 2
  omega

/-- After a sequence of calls each array holds the stamps of what it held before, preceded
by those of the calls made for its type, newest first, cut to `maxHistoryLength`. -/
theorem addAllToHistory_stamps (calls : List (IoTDashboard.SensorType × SensorEvent))
    (s : IoTDashboard.State) (type : IoTDashboard.SensorType)
    (hlen : (s.history type).length ≤ s.maxHistoryLength) :
    (IoTDashboard.addAllToHistory s calls).maxHistoryLength = s.maxHistoryLength ∧
    ((IoTDashboard.addAllToHistory s calls).history type).map
        (fun e => (e.value, e.timestamp)) =
      ((IoTDashboard.stampsOf type calls).reverse ++
        (s.history type).map (fun e => (e.value, e.timestamp))).take s.maxHistoryLength := by
  induction calls generalizing s with
  | nil =>
    refine ⟨rfl, ?_⟩
    simp only [IoTDashboard.addAllToHistory, IoTDashboard.stampsOf, List.foldl_nil,
      List.filter_nil, List.map_nil, List.reverse_nil, List.nil_append]
    rw [List.take_of_length_le (by simpa using hlen)]
  | cons c rest ih =>
    have hstep := addToHistory_history s c.1 type c.2
    have hmax := addToHistory_max s c.1 c.2
    have hlen' : ((IoTDashboard.addToHistory s c.1 c.2).history type).length ≤
        (IoTDashboard.addToHistory s c.1 c.2).maxHistoryLength := by
      rw [hstep, hmax]
      split
      · exact List.length_take_le _ _
      · exact hlen
    obtain ⟨ih1, ih2⟩ := ih (IoTDashboard.addToHistory s c.1 c.2) hlen'
    have hfold : IoTDashboard.addAllToHistory s (c :: rest) =
        IoTDashboard.addAllToHistory (IoTDashboard.addToHistory s c.1 c.2) rest := rfl
    rw [hfold]
    refine ⟨by rw [ih1, hmax], ?_⟩
    rw [ih2, hstep, hmax]
    by_cases ht : type = c.1
    · have hst : IoTDashboard.stampsOf type (c :: rest) =
          (c.2.value, c.2.timestamp) :: IoTDashboard.stampsOf type rest := by
        simp [IoTDashboard.stampsOf, List.filter_cons, ht]
      rw [if_pos ht, hst, List.reverse_cons, List.append_assoc, List.map_take,
        List.map_cons, ← ht]
      rw [List.singleton_append]
      exact take_append_take _ _ _
    · have hst : IoTDashboard.stampsOf type (c :: rest) = IoTDashboard.stampsOf type rest := by
        have : ¬ (c.1 = type) := fun h => ht h.symm
        simp [IoTDashboard.stampsOf, List.filter_cons, this]
      rw [if_neg ht, hst]

/-- C23: with `maxHistoryLength = 15`, after a call of `addToHistory` on a sensor type its
history holds at most 15 entries, the new entry first; a call on a full history yields the
new entry followed by the 14 most recent previous entries in their previous order; and
after any sequence of calls from the constructor's state the history holds the data of the
(at most 15) most recent calls for the type, newest first. -/
theorem C23_history_bounded_newest_first (s : IoTDashboard.State)
    (hmax : s.maxHistoryLength = 15) (type : IoTDashboard.SensorType) (data : SensorEvent)
    (calls : List (IoTDashboard.SensorType × SensorEvent)) :
    ((IoTDashboard.addToHistory s type data).history type).length ≤ 15 ∧
    ((IoTDashboard.addToHistory s type data).history type).head? =
      some { value := data.value, timestamp := data.timestamp,
             trend := IoTDashboard.calculateTrend (s.history type) data.value } ∧
    ((s.history type).length = 15 →
      (IoTDashboard.addToHistory s type data).history type =
        { value := data.value, timestamp := data.timestamp,
          trend := IoTDashboard.calculateTrend (s.history type) data.value } ::
          (s.history type).take 14) ∧
    ((IoTDashboard.addAllToHistory IoTDashboard.State.init calls).history type).length ≤ 15 ∧
    ((IoTDashboard.addAllToHistory IoTDashboard.State.init calls).history type).map
        (fun e => (e.value, e.timestamp)) =
      (IoTDashboard.stampsOf type calls).reverse.take 15 := by
  have hstep := addToHistory_history s type type data
  rw [if_pos rfl, hmax] at hstep
  have hall := (addAllToHistory_stamps calls IoTDashboard.State.init type
    (by cases type <;> exact Nat.zero_le _)).2
  have hinit : (IoTDashboard.State.init.history type).map
      (fun e => (e.value, e.timestamp)) = [] := by
    cases type <;> rfl
  rw [hinit, List.append_nil] at hall
  have hmax0 : IoTDashboard.State.init.maxHistoryLength = 15 := rfl
  rw [hmax0] at hall
  refine ⟨?_, ?_, ?_, ?_, hall⟩
  · rw [hstep]
    exact List.length_take_le _ _
  · rw [hstep]
    rfl
  · intro _
    rw [hstep]
    rfl
  · have h := congrArg List.length hall
    rw [List.length_map] at h
    rw [h]
    exact List.length_take_le _ _

/-- C23 witness: sixteen temperature readings, stamped 0 to 15, leave the fifteen newest,
stamp 15 first; the reading stamped 0 is evicted. -/
theorem C23_history_bounded_newest_first_witness :
    ((IoTDashboard.addAllToHistory IoTDashboard.State.init
        ((List.range 16).map fun i =>
          (IoTDashboard.SensorType.temperature,
           ({ value := .finite false 5629499534213120 (-48), timestamp := i, teamNumber := "05".toList,
              unit := none, broker := none } : SensorEvent)))).history .temperature).map
        (fun e => e.timestamp) =
      [15, 14, 13, 12, 11, 10, 9, 8, 7, 6, 5, 4, 3, 2, 1] ∧
    ((IoTDashboard.addToHistory IoTDashboard.State.init .temperature
        { value := .finite false 5629499534213120 (-48), timestamp := 7, teamNumber := "05".toList,
          unit := none, broker := none }).history .temperature).length ≤ 15 := by
  constructor
  · have h := (C23_history_bounded_newest_first IoTDashboard.State.init rfl .temperature
      { value := .finite false 5629499534213120 (-48), timestamp := 7, teamNumber := "05".toList,
        unit := none, broker := none }
      ((List.range 16).map fun i =>
        (IoTDashboard.SensorType.temperature,
         ({ value := .finite false 5629499534213120 (-48), timestamp := i, teamNumber := "05".toList,
            unit := none, broker := none } : SensorEvent)))).2.2.2.2
    have h2 := congrArg (List.map Prod.snd) h
    rw [List.map_map] at h2
    exact h2.trans (by decide)
  · exact (C23_history_bounded_newest_first IoTDashboard.State.init rfl .temperature
      { value := .finite false 5629499534213120 (-48), timestamp := 7, teamNumber := "05".toList,
        unit := none, broker := none } []).1

/-- C24: when the expiry timer started by `handleAlertData` for a team fires, the entry
that the map holds for that team, also when a newer alert of the same team replaced it in
the meantime, is marked inactive with its other fields unchanged, and the entries of the
other teams are unchanged. -/
theorem C24_expiry_marks_inactive (s : IoTDashboard.State) (first newer : AlertEvent)
    (hsame : newer.teamNumber = first.teamNumber) :
    (IoTDashboard.handleAlertData s first).2 = first.teamNumber ∧
    (IoTDashboard.onAlertTimer s first.teamNumber).alertsData first.teamNumber =
      (s.alertsData first.teamNumber).map (fun e => { e with isActive := false }) ∧
    (IoTDashboard.onAlertTimer (IoTDashboard.handleAlertData s first).1
        first.teamNumber).alertsData first.teamNumber =
      some { data := first, isActive := false, lastColor := first.hexColor,
             lastRGB := first.rgb } ∧
    (IoTDashboard.onAlertTimer
        (IoTDashboard.handleAlertData (IoTDashboard.handleAlertData s first).1 newer).1
        first.teamNumber).alertsData first.teamNumber =
      some { data := newer, isActive := false, lastColor := newer.hexColor,
             lastRGB := newer.rgb } ∧
    (∀ other, other ≠ first.teamNumber →
      (IoTDashboard.onAlertTimer s first.teamNumber).alertsData other =
        s.alertsData other) := by
  refine ⟨rfl, ?_, ?_, ?_, ?_⟩
  · unfold IoTDashboard.onAlertTimer
    cases h : s.alertsData first.teamNumber with
    | none => simp [h]
    | some e => simp
  · simp [IoTDashboard.onAlertTimer, IoTDashboard.handleAlertData]
  · simp [IoTDashboard.onAlertTimer, IoTDashboard.handleAlertData, hsame]
  · intro other hne
    unfold IoTDashboard.onAlertTimer
    cases h : s.alertsData first.teamNumber with
    | none => rfl
    | some e => simp [Function.update_noteq hne]

/-- C24 witness: team 05 raises red, then green; the timer of the red alert marks the
green entry inactive. -/
theorem C24_expiry_marks_inactive_witness :
    (IoTDashboard.onAlertTimer
        (IoTDashboard.handleAlertData (IoTDashboard.handleAlertData IoTDashboard.State.init
          { teamNumber := "05".toList, rgb := { r := 255, g := 0, b := 0 }, timestamp := 0,
            hexColor := "#ff0000".toList, broker := none }).1
          { teamNumber := "05".toList, rgb := { r := 0, g := 255, b := 0 }, timestamp := 9,
            hexColor := "#00ff00".toList, broker := none }).1
        "05".toList).alertsData "05".toList =
      some { data := { teamNumber := "05".toList, rgb := { r := 0, g := 255, b := 0 },
                       timestamp := 9, hexColor := "#00ff00".toList, broker := none },
             isActive := false, lastColor := "#00ff00".toList,
             lastRGB := { r := 0, g := 255, b := 0 } } :=
  (C24_expiry_marks_inactive IoTDashboard.State.init
    { teamNumber := "05".toList, rgb := { r := 255, g := 0, b := 0 }, timestamp := 0,
      hexColor := "#ff0000".toList, broker := none }
    { teamNumber := "05".toList, rgb := { r := 0, g := 255, b := 0 }, timestamp := 9,
      hexColor := "#00ff00".toList, broker := none } rfl).2.2.2.1


/-! ## C25: the change-or-timeout publisher -/

/-- Method `publishTemperature` by cases: nothing while disconnected or for `NaN`,
otherwise one publish and the counter incremented. -/
theorem publishTemperature_eq (s : SensorPublisher.State) (id : Nat) (value : ExtNum)
    (hclient : s.mqttClient = some id) :
    SensorPublisher.publishTemperature s value =
      if s.isConnected = false ∨ value = .nan then (s, []) else
        ({ s with publishCountTemperature := s.publishCountTemperature + 1 },
         [.publish id (ConfigLoader.getTopics s.teamNumber).temperature value]) := by
  unfold SensorPublisher.publishTemperature
  rw [hclient]
  cases hc : s.isConnected <;> cases value <;> simp [SensorPublisher.formatSensorValue]

/-- Method `publishHumidity` by cases: nothing while disconnected or for `NaN`, otherwise
one publish and the counter incremented. -/
theorem publishHumidity_eq (s : SensorPublisher.State) (id : Nat) (value : ExtNum)
    (hclient : s.mqttClient = some id) :
    SensorPublisher.publishHumidity s value =
      if s.isConnected = false ∨ value = .nan then (s, []) else
        ({ s with publishCountHumidity := s.publishCountHumidity + 1 },
         [.publish id (ConfigLoader.getTopics s.teamNumber).humidity value]) := by
  unfold SensorPublisher.publishHumidity
  rw [hclient]
  cases hc : s.isConnected <;> cases value <;> simp [SensorPublisher.formatSensorValue]

/-- C25, as stated, fails. The publisher connects and publishes 19 at time 1000; the
transport closes; the sample 20 at time 2000 is not sent (not connected) but is recorded
as the last value; a new transport connects; the sample 20 at time 3000 arrives while
connected and differs from the last published value 19, yet nothing is published. -/
theorem C25_counterexample :
    (SensorPublisher.run (SensorPublisher.State.init "05".toList)
        [.callStart, .transportConnect 0, .temperature (.fin 19) 1000, .transportClose 0,
         .temperature (.fin 20) 2000, .timerFires, .transportConnect 1]).2
      = [.createClient 0,
         .publish 0 "GTI700/Data/E2025/05/temperature".toList (.fin 19),
         .setTimeout 5000, .createClient 1] ∧
    (SensorPublisher.run (SensorPublisher.State.init "05".toList)
        [.callStart, .transportConnect 0, .temperature (.fin 19) 1000, .transportClose 0,
         .temperature (.fin 20) 2000, .timerFires, .transportConnect 1]).1.isConnected
      = true ∧
    (SensorPublisher.step
        (SensorPublisher.run (SensorPublisher.State.init "05".toList)
          [.callStart, .transportConnect 0, .temperature (.fin 19) 1000, .transportClose 0,
           .temperature (.fin 20) 2000, .timerFires, .transportConnect 1]).1
        (.temperature (.fin 20) 3000)).2 = [] := by
  decide

/-- C25 (amended): for a publisher holding a transport. While the MQTT client is
connected, a temperature (or humidity) sample is published if and only if it is not `NaN`
and either its value differs from `lastTemperature` (`lastHumidity`) or more than 5000 ms
have elapsed since `lastPublishTime`; otherwise nothing is sent. While it is not
connected nothing is sent. Connected or not, a sample that differs or comes after more
than 5000 ms is an attempt, and every attempt, sent or not, records the sample as the last
value and the time as the last publish time; a sample that is no attempt changes
nothing. -/
theorem C25_publish_iff_changed_or_timeout (s : SensorPublisher.State) (id : Nat)
    (value : ExtNum) (now : Nat) (hclient : s.mqttClient = some id) :
    (s.isConnected = true →
      ((SensorPublisher.onTemperatureData s value now).2
          = [.publish id (ConfigLoader.getTopics s.teamNumber).temperature value] ↔
        value ≠ .nan ∧ (SensorPublisher.differs value s.lastTemperature = true ∨
          (now : Int) - (s.lastPublishTimeTemperature : Int) > 5000)) ∧
      ((SensorPublisher.onTemperatureData s value now).2 = [] ↔
        ¬ (value ≠ .nan ∧ (SensorPublisher.differs value s.lastTemperature = true ∨
          (now : Int) - (s.lastPublishTimeTemperature : Int) > 5000))) ∧
      ((SensorPublisher.onHumidityData s value now).2
          = [.publish id (ConfigLoader.getTopics s.teamNumber).humidity value] ↔
        value ≠ .nan ∧ (SensorPublisher.differs value s.lastHumidity = true ∨
          (now : Int) - (s.lastPublishTimeHumidity : Int) > 5000)) ∧
      ((SensorPublisher.onHumidityData s value now).2 = [] ↔
        ¬ (value ≠ .nan ∧ (SensorPublisher.differs value s.lastHumidity = true ∨
          (now : Int) - (s.lastPublishTimeHumidity : Int) > 5000)))) ∧
    (s.isConnected = false →
      (SensorPublisher.onTemperatureData s value now).2 = [] ∧
      (SensorPublisher.onHumidityData s value now).2 = []) ∧
    ((SensorPublisher.differs value s.lastTemperature = true ∨
        (now : Int) - (s.lastPublishTimeTemperature : Int) > 5000) →
      (SensorPublisher.onTemperatureData s value now).1.lastTemperature = some value ∧
      (SensorPublisher.onTemperatureData s value now).1.lastPublishTimeTemperature = now) ∧
    (¬ (SensorPublisher.differs value s.lastTemperature = true ∨
        (now : Int) - (s.lastPublishTimeTemperature : Int) > 5000) →
      SensorPublisher.onTemperatureData s value now = (s, [])) ∧
    ((SensorPublisher.differs value s.lastHumidity = true ∨
        (now : Int) - (s.lastPublishTimeHumidity : Int) > 5000) →
      (SensorPublisher.onHumidityData s value now).1.lastHumidity = some value ∧
      (SensorPublisher.onHumidityData s value now).1.lastPublishTimeHumidity = now) ∧
    (¬ (SensorPublisher.differs value s.lastHumidity = true ∨
        (now : Int) - (s.lastPublishTimeHumidity : Int) > 5000) →
      SensorPublisher.onHumidityData s value now = (s, [])) := by
  have hpt := publishTemperature_eq s id value hclient
  have hph := publishHumidity_eq s id value hclient
  unfold SensorPublisher.onTemperatureData SensorPublisher.onHumidityData
  rw [hpt, hph]
  simp only [SensorPublisher.publishInterval]
  generalize SensorPublisher.differs value s.lastTemperature = dt
  generalize SensorPublisher.differs value s.lastHumidity = dh
  refine ⟨?_, ?_, ?_, ?_, ?_, ?_⟩
  · intro hconn
    refine ⟨?_, ?_, ?_, ?_⟩
    · by_cases hn : value = .nan <;> cases dt <;>
        by_cases h2 : (now : Int) - (s.lastPublishTimeTemperature : Int) > 5000 <;>
        simp [hn, h2, hconn]
    · by_cases hn : value = .nan <;> cases dt <;>
        by_cases h2 : (now : Int) - (s.lastPublishTimeTemperature : Int) > 5000 <;>
        simp [hn, h2, hconn]
    · by_cases hn : value = .nan <;> cases dh <;>
        by_cases h2 : (now : Int) - (s.lastPublishTimeHumidity : Int) > 5000 <;>
        simp [hn, h2, hconn]
    · by_cases hn : value = .nan <;> cases dh <;>
        by_cases h2 : (now : Int) - (s.lastPublishTimeHumidity : Int) > 5000 <;>
        simp [hn, h2, hconn]
  · intro hconn
    constructor
    · cases dt <;>
        by_cases h2 : (now : Int) - (s.lastPublishTimeTemperature : Int) > 5000 <;>
        simp [h2, hconn]
    · cases dh <;>
        by_cases h2 : (now : Int) - (s.lastPublishTimeHumidity : Int) > 5000 <;>
        simp [h2, hconn]
  · intro h
    cases hc : s.isConnected <;> by_cases hn : value = .nan <;> cases dt <;>
      by_cases h2 : (now : Int) - (s.lastPublishTimeTemperature : Int) > 5000 <;>
      simp_all
  · intro h
    cases dt <;>
      by_cases h2 : (now : Int) - (s.lastPublishTimeTemperature : Int) > 5000 <;>
      simp_all
  · intro h
    cases hc : s.isConnected <;> by_cases hn : value = .nan <;> cases dh <;>
      by_cases h2 : (now : Int) - (s.lastPublishTimeHumidity : Int) > 5000 <;>
      simp_all
  · intro h
    cases dh <;>
      by_cases h2 : (now : Int) - (s.lastPublishTimeHumidity : Int) > 5000 <;>
      simp_all

/-- C25 witness: the first sample of a connected publisher is published and the same
value one second later is not; after the transport closed, the sample 20 is not sent, yet
it is recorded as the last value with its time. -/
theorem C25_publish_iff_changed_or_timeout_witness :
    (SensorPublisher.onTemperatureData
        (SensorPublisher.run (SensorPublisher.State.init "05".toList)
          [.callStart, .transportConnect 0]).1 (.fin 19) 1000).2
      = [.publish 0 "GTI700/Data/E2025/05/temperature".toList (.fin 19)] ∧
    (SensorPublisher.onTemperatureData
        (SensorPublisher.run (SensorPublisher.State.init "05".toList)
          [.callStart, .transportConnect 0, .temperature (.fin 19) 1000]).1
        (.fin 19) 2000).2 = [] ∧
    ((SensorPublisher.onTemperatureData
        (SensorPublisher.run (SensorPublisher.State.init "05".toList)
          [.callStart, .transportConnect 0, .temperature (.fin 19) 1000,
           .transportClose 0]).1 (.fin 20) 2000).2 = [] ∧
     (SensorPublisher.onHumidityData
        (SensorPublisher.run (SensorPublisher.State.init "05".toList)
          [.callStart, .transportConnect 0, .temperature (.fin 19) 1000,
           .transportClose 0]).1 (.fin 20) 2000).2 = []) ∧
    ((SensorPublisher.onTemperatureData
        (SensorPublisher.run (SensorPublisher.State.init "05".toList)
          [.callStart, .transportConnect 0, .temperature (.fin 19) 1000,
           .transportClose 0]).1 (.fin 20) 2000).1.lastTemperature = some (.fin 20) ∧
     (SensorPublisher.onTemperatureData
        (SensorPublisher.run (SensorPublisher.State.init "05".toList)
          [.callStart, .transportConnect 0, .temperature (.fin 19) 1000,
           .transportClose 0]).1 (.fin 20) 2000).1.lastPublishTimeTemperature = 2000) :=
  ⟨((C25_publish_iff_changed_or_timeout
      (SensorPublisher.run (SensorPublisher.State.init "05".toList)
        [.callStart, .transportConnect 0]).1 0 (.fin 19) 1000 rfl).1 rfl).1.2
      ⟨by decide, Or.inl (by decide)⟩,
   ((C25_publish_iff_changed_or_timeout
      (SensorPublisher.run (SensorPublisher.State.init "05".toList)
        [.callStart, .transportConnect 0, .temperature (.fin 19) 1000]).1 0 (.fin 19) 2000
      (by decide)).1 (by decide)).2.1.2 (by decide),
   (C25_publish_iff_changed_or_timeout
      (SensorPublisher.run (SensorPublisher.State.init "05".toList)
        [.callStart, .transportConnect 0, .temperature (.fin 19) 1000,
         .transportClose 0]).1 0 (.fin 20) 2000 (by decide)).2.1 (by decide),
   (C25_publish_iff_changed_or_timeout
      (SensorPublisher.run (SensorPublisher.State.init "05".toList)
        [.callStart, .transportConnect 0, .temperature (.fin 19) 1000,
         .transportClose 0]).1 0 (.fin 20) 2000 (by decide)).2.2.1
      (Or.inl (by decide))⟩

/-! ## C26 and C27: the subscriber and the publisher after a transport close -/

/-- C26 (code defect): `start()` subscribes on the first transport once it is connected.
After that transport closes, the timer creates a second transport, which becomes
`this.client` and connects: the subscriber is connected again, and no subscription request
is issued on the transport now held in `this.client`; the only request of the whole run
went to the first transport. -/
theorem C26_no_subscription_after_reconnect :
    (AlertSubscriber.run (AlertSubscriber.State.init "05".toList)
        [.callStart, .transportConnect 0, .transportClose 0, .timerFires]).1.client
      = some 1 ∧
    (AlertSubscriber.step
        (AlertSubscriber.run (AlertSubscriber.State.init "05".toList)
          [.callStart, .transportConnect 0, .transportClose 0, .timerFires]).1
        (.transportConnect 1)).1.isConnected = true ∧
    (AlertSubscriber.step
        (AlertSubscriber.run (AlertSubscriber.State.init "05".toList)
          [.callStart, .transportConnect 0, .transportClose 0, .timerFires]).1
        (.transportConnect 1)).2 = [] ∧
    AlertSubscriber.subscribedClients
        (AlertSubscriber.run (AlertSubscriber.State.init "05".toList)
          [.callStart, .transportConnect 0, .transportClose 0, .timerFires,
           .transportConnect 1]).2 = [0] := by
  decide

/-- In every state, the `connect` event of a transport that `start()` is not waiting for
issues no subscription request. -/
theorem connect_handler_never_subscribes (s : AlertSubscriber.State) (id : Nat)
    (h : s.startAwaits ≠ some id) :
    AlertSubscriber.subscribedClients (AlertSubscriber.step s (.transportConnect id)).2
      = [] := by
  by_cases hid : id < s.created
  · simp [AlertSubscriber.step, hid, h, AlertSubscriber.subscribedClients]
  · simp [AlertSubscriber.step, hid, AlertSubscriber.subscribedClients]

/-- A run of the subscriber from a state with effects already made. -/
theorem alertSubscriber_foldl (as : List AlertSubscriber.Action) (s : AlertSubscriber.State)
    (es : List AlertSubscriber.Effect) :
    as.foldl (fun acc a => ((AlertSubscriber.step acc.1 a).1,
        acc.2 ++ (AlertSubscriber.step acc.1 a).2)) (s, es)
      = ((AlertSubscriber.run s as).1, es ++ (AlertSubscriber.run s as).2) := by
  induction as generalizing s es with
  | nil => simp [AlertSubscriber.run]
  | cons a as ih =>
    unfold AlertSubscriber.run
    rw [List.foldl_cons, List.foldl_cons, ih, ih (AlertSubscriber.step s a).1]
    simp

/-- A run of the subscriber: the first action, then the rest. -/
theorem alertSubscriber_run_cons (a : AlertSubscriber.Action)
    (as : List AlertSubscriber.Action) (s : AlertSubscriber.State) :
    AlertSubscriber.run s (a :: as)
      = ((AlertSubscriber.run (AlertSubscriber.step s a).1 as).1,
         (AlertSubscriber.step s a).2 ++
           (AlertSubscriber.run (AlertSubscriber.step s a).1 as).2) := by
  conv_lhs => unfold AlertSubscriber.run
  rw [List.foldl_cons, alertSubscriber_foldl]
  simp

/-- While no reconnect timer is pending, an action of the subscriber other than `start()`
and a transport `close` starts no connection and sets no timer. -/
theorem alertSubscriber_step_quiet (s : AlertSubscriber.State) (a : AlertSubscriber.Action)
    (hs : s.timers = 0) (ha : a ≠ .callStart ∧ ∀ id, a ≠ .transportClose id) :
    (AlertSubscriber.step s a).1.timers = 0 ∧
    ∀ e ∈ (AlertSubscriber.step s a).2, e.isConnectionAttempt = false := by
  cases a with
  | callStart => exact absurd rfl ha.1
  | transportClose id => exact absurd rfl (ha.2 id)
  | callStop =>
    refine ⟨hs, ?_⟩
    intro e he
    simp only [AlertSubscriber.step] at he
    cases hc : s.client <;> rw [hc] at he <;> simp at he
    · rw [he]; rfl
    · rcases he with rfl | rfl <;> rfl
  | transportConnect id =>
    by_cases hid : id < s.created
    · by_cases hw : s.startAwaits = some id
      · refine ⟨by simp [AlertSubscriber.step, hid, hw, hs], ?_⟩
        intro e he
        simp only [AlertSubscriber.step, hid, hw, if_true, AlertSubscriber.subscribeToAlerts]
          at he
        cases hc : s.client <;> rw [hc] at he <;> simp at he
        rw [he]; rfl
      · exact ⟨by simp [AlertSubscriber.step, hid, hw, hs],
          by simp [AlertSubscriber.step, hid, hw]⟩
    · exact ⟨by simp [AlertSubscriber.step, hid, hs], by simp [AlertSubscriber.step, hid]⟩
  | transportError id =>
    by_cases hid : id < s.created
    · exact ⟨by simp [AlertSubscriber.step, hid, hs], by simp [AlertSubscriber.step, hid]⟩
    · exact ⟨by simp [AlertSubscriber.step, hid, hs], by simp [AlertSubscriber.step, hid]⟩
  | timerFires =>
    exact ⟨by simp [AlertSubscriber.step, hs], by simp [AlertSubscriber.step, hs]⟩

/-- While no reconnect timer is pending, a run of the subscriber without `start()` and
without a transport `close` starts no connection. -/
theorem alertSubscriber_run_quiet (as : List AlertSubscriber.Action)
    (s : AlertSubscriber.State) (hs : s.timers = 0)
    (has : ∀ a ∈ as, a ≠ .callStart ∧ ∀ id, a ≠ .transportClose id) :
    ∀ e ∈ (AlertSubscriber.run s as).2, e.isConnectionAttempt = false := by
  induction as generalizing s with
  | nil => simp [AlertSubscriber.run]
  | cons a as ih =>
    obtain ⟨h1, h2⟩ := alertSubscriber_step_quiet s a hs (has a (by simp))
    rw [alertSubscriber_run_cons]
    intro e he
    rcases List.mem_append.1 he with he | he
    · exact h2 e he
    · exact ih _ h1 (fun b hb => has b (List.mem_cons_of_mem _ hb)) e he

/-- A run of the publisher from a state with effects already made. -/
theorem sensorPublisher_foldl (as : List SensorPublisher.Action) (s : SensorPublisher.State)
    (es : List SensorPublisher.Effect) :
    as.foldl (fun acc a => ((SensorPublisher.step acc.1 a).1,
        acc.2 ++ (SensorPublisher.step acc.1 a).2)) (s, es)
      = ((SensorPublisher.run s as).1, es ++ (SensorPublisher.run s as).2) := by
  induction as generalizing s es with
  | nil => simp [SensorPublisher.run]
  | cons a as ih =>
    unfold SensorPublisher.run
    rw [List.foldl_cons, List.foldl_cons, ih, ih (SensorPublisher.step s a).1]
    simp

/-- A run of the publisher: the first action, then the rest. -/
theorem sensorPublisher_run_cons (a : SensorPublisher.Action)
    (as : List SensorPublisher.Action) (s : SensorPublisher.State) :
    SensorPublisher.run s (a :: as)
      = ((SensorPublisher.run (SensorPublisher.step s a).1 as).1,
         (SensorPublisher.step s a).2 ++
           (SensorPublisher.run (SensorPublisher.step s a).1 as).2) := by
  conv_lhs => unfold SensorPublisher.run
  rw [List.foldl_cons, sensorPublisher_foldl]
  simp

/-- The sample callbacks of the publisher leave the timers alone and start no connection. -/
theorem sensorPublisher_sample_quiet (s : SensorPublisher.State) (v : ExtNum) (now : Nat) :
    ((SensorPublisher.onTemperatureData s v now).1.timers = s.timers ∧
      ∀ e ∈ (SensorPublisher.onTemperatureData s v now).2, e.isConnectionAttempt = false) ∧
    ((SensorPublisher.onHumidityData s v now).1.timers = s.timers ∧
      ∀ e ∈ (SensorPublisher.onHumidityData s v now).2, e.isConnectionAttempt = false) := by
  constructor
  · unfold SensorPublisher.onTemperatureData SensorPublisher.publishTemperature
    dsimp only
    split
    · split
      · exact ⟨rfl, by simp⟩
      · split
        · refine ⟨rfl, ?_⟩
          intro e he
          simp at he
          rw [he]; rfl
        · exact ⟨rfl, by simp⟩
    · exact ⟨rfl, by simp⟩
  · unfold SensorPublisher.onHumidityData SensorPublisher.publishHumidity
    dsimp only
    split
    · split
      · exact ⟨rfl, by simp⟩
      · split
        · refine ⟨rfl, ?_⟩
          intro e he
          simp at he
          rw [he]; rfl
        · exact ⟨rfl, by simp⟩
    · exact ⟨rfl, by simp⟩

/-- While no reconnect timer is pending, an action of the publisher other than `start()`
and a transport `close` starts no connection and sets no timer. -/
theorem sensorPublisher_step_quiet (s : SensorPublisher.State) (a : SensorPublisher.Action)
    (hs : s.timers = 0) (ha : a ≠ .callStart ∧ ∀ id, a ≠ .transportClose id) :
    (SensorPublisher.step s a).1.timers = 0 ∧
    ∀ e ∈ (SensorPublisher.step s a).2, e.isConnectionAttempt = false := by
  cases a with
  | callStart => exact absurd rfl ha.1
  | transportClose id => exact absurd rfl (ha.2 id)
  | callStop =>
    refine ⟨hs, ?_⟩
    intro e he
    simp only [SensorPublisher.step] at he
    cases hc : s.mqttClient <;> cases hr : s.readerStarted <;> rw [hc, hr] at he <;>
      simp at he
    · rw [he]; rfl
    · rw [he]; rfl
    · rcases he with rfl | rfl <;> rfl
  | transportConnect id =>
    by_cases hid : id < s.created
    · by_cases hw : s.startAwaits = some id
      · exact ⟨by simp [SensorPublisher.step, hid, hw, hs, SensorPublisher.startSensorReading],
          by simp [SensorPublisher.step, hid, hw]⟩
      · exact ⟨by simp [SensorPublisher.step, hid, hw, hs],
          by simp [SensorPublisher.step, hid, hw]⟩
    · exact ⟨by simp [SensorPublisher.step, hid, hs], by simp [SensorPublisher.step, hid]⟩
  | transportError id =>
    by_cases hid : id < s.created
    · exact ⟨by simp [SensorPublisher.step, hid, hs], by simp [SensorPublisher.step, hid]⟩
    · exact ⟨by simp [SensorPublisher.step, hid, hs], by simp [SensorPublisher.step, hid]⟩
  | timerFires =>
    exact ⟨by simp [SensorPublisher.step, hs], by simp [SensorPublisher.step, hs]⟩
  | temperature v now =>
    obtain ⟨⟨h1, h2⟩, _⟩ := sensorPublisher_sample_quiet s v now
    cases hr : s.readerStarted
    · exact ⟨by simp [SensorPublisher.step, hr, hs], by simp [SensorPublisher.step, hr]⟩
    · simp only [SensorPublisher.step, hr, if_true]
      exact ⟨by rw [h1, hs], h2⟩
  | humidity v now =>
    obtain ⟨_, ⟨h1, h2⟩⟩ := sensorPublisher_sample_quiet s v now
    cases hr : s.readerStarted
    · exact ⟨by simp [SensorPublisher.step, hr, hs], by simp [SensorPublisher.step, hr]⟩
    · simp only [SensorPublisher.step, hr, if_true]
      exact ⟨by rw [h1, hs], h2⟩

/-- While no reconnect timer is pending, a run of the publisher without `start()` and
without a transport `close` starts no connection. -/
theorem sensorPublisher_run_quiet (as : List SensorPublisher.Action)
    (s : SensorPublisher.State) (hs : s.timers = 0)
    (has : ∀ a ∈ as, a ≠ .callStart ∧ ∀ id, a ≠ .transportClose id) :
    ∀ e ∈ (SensorPublisher.run s as).2, e.isConnectionAttempt = false := by
  induction as generalizing s with
  | nil => simp [SensorPublisher.run]
  | cons a as ih =>
    obtain ⟨h1, h2⟩ := sensorPublisher_step_quiet s a hs (has a (by simp))
    rw [sensorPublisher_run_cons]
    intro e he
    rcases List.mem_append.1 he with he | he
    · exact h2 e he
    · exact ih _ h1 (fun b hb => has b (List.mem_cons_of_mem _ hb)) e he

/-- C27, as stated, fails: after `stop()` of a connected `AlertSubscriber`, the transport
close caused by ending the client sets the reconnect timer, and when it fires a new
transport is created: a broker connection attempt after `stop()`. The same holds for
`SensorPublisher.stop()`. -/
theorem C27_counterexample :
    ((AlertSubscriber.run (AlertSubscriber.State.init "05".toList)
        [.callStart, .transportConnect 0, .callStop]).2.contains (.clientEnd 0) = true ∧
     (AlertSubscriber.step
        (AlertSubscriber.run (AlertSubscriber.State.init "05".toList)
          [.callStart, .transportConnect 0, .callStop]).1 (.transportClose 0)).2
       = [.setTimeout 5000] ∧
     (AlertSubscriber.step
        (AlertSubscriber.run (AlertSubscriber.State.init "05".toList)
          [.callStart, .transportConnect 0, .callStop, .transportClose 0]).1 .timerFires).2
       = [.createClient 1]) ∧
    ((SensorPublisher.run (SensorPublisher.State.init "05".toList)
        [.callStart, .transportConnect 0, .callStop]).2.contains (.clientEnd 0) = true ∧
     (SensorPublisher.step
        (SensorPublisher.run (SensorPublisher.State.init "05".toList)
          [.callStart, .transportConnect 0, .callStop]).1 (.transportClose 0)).2
       = [.setTimeout 5000] ∧
     (SensorPublisher.step
        (SensorPublisher.run (SensorPublisher.State.init "05".toList)
          [.callStart, .transportConnect 0, .callStop, .transportClose 0]).1 .timerFires).2
       = [.createClient 1]) := by
  decide

/-- C27 (amended): after `AlertSubscriber.stop()` (and likewise after
`SensorPublisher.stop()`) called while no reconnect timer is pending, the client is marked
disconnected and no new broker connection attempt is started as long as no transport
reports `close` (and `start()` is not called again); the transport close caused by ending
the client does lead to a reconnect: it sets a timer of 5000 ms, and when the timer fires a
new transport is created. -/
theorem C27_reconnect_only_after_close (s : AlertSubscriber.State)
    (p : SensorPublisher.State) (hs : s.timers = 0) (hp : p.timers = 0) :
    ((AlertSubscriber.step s .callStop).1.isConnected = false ∧
     (∀ as : List AlertSubscriber.Action,
        (∀ a ∈ as, a ≠ .callStart ∧ ∀ id, a ≠ .transportClose id) →
        ∀ e ∈ (AlertSubscriber.run s (.callStop :: as)).2, e.isConnectionAttempt = false) ∧
     (∀ id, id < s.created →
        (AlertSubscriber.run (AlertSubscriber.step s .callStop).1
          [.transportClose id, .timerFires]).2
          = [.setTimeout 5000, .createClient s.created])) ∧
    ((SensorPublisher.step p .callStop).1.isConnected = false ∧
     (∀ as : List SensorPublisher.Action,
        (∀ a ∈ as, a ≠ .callStart ∧ ∀ id, a ≠ .transportClose id) →
        ∀ e ∈ (SensorPublisher.run p (.callStop :: as)).2, e.isConnectionAttempt = false) ∧
     (∀ id, id < p.created →
        (SensorPublisher.run (SensorPublisher.step p .callStop).1
          [.transportClose id, .timerFires]).2
          = [.setTimeout 5000, .createClient p.created])) := by
  refine ⟨⟨rfl, ?_, ?_⟩, ⟨rfl, ?_, ?_⟩⟩
  · intro as has
    refine alertSubscriber_run_quiet (.callStop :: as) s hs ?_
    intro a ha
    rcases List.mem_cons.1 ha with rfl | ha
    · exact ⟨by simp, by simp⟩
    · exact has a ha
  · intro id hid
    simp [AlertSubscriber.run, AlertSubscriber.step, AlertSubscriber.connectHiveMQ, hid, hs]
  · intro as has
    refine sensorPublisher_run_quiet (.callStop :: as) p hp ?_
    intro a ha
    rcases List.mem_cons.1 ha with rfl | ha
    · exact ⟨by simp, by simp⟩
    · exact has a ha
  · intro id hid
    simp [SensorPublisher.run, SensorPublisher.step, SensorPublisher.connectMQTT, hid, hp]

/-- C27 witness: a started and connected subscriber and publisher. After `stop()` the
`connect` and `error` events and idle timer expiries start nothing; the close of the
ended transport and the timer start transport 1. -/
theorem C27_reconnect_only_after_close_witness :
    (∀ e ∈ (AlertSubscriber.run
        (AlertSubscriber.run (AlertSubscriber.State.init "05".toList)
          [.callStart, .transportConnect 0]).1
        [.callStop, .timerFires, .transportError 0, .timerFires]).2,
      e.isConnectionAttempt = false) ∧
    (AlertSubscriber.run
        (AlertSubscriber.step
          (AlertSubscriber.run (AlertSubscriber.State.init "05".toList)
            [.callStart, .transportConnect 0]).1 .callStop).1
        [.transportClose 0, .timerFires]).2 = [.setTimeout 5000, .createClient 1] ∧
    (SensorPublisher.run
        (SensorPublisher.step
          (SensorPublisher.run (SensorPublisher.State.init "05".toList)
            [.callStart, .transportConnect 0]).1 .callStop).1
        [.transportClose 0, .timerFires]).2 = [.setTimeout 5000, .createClient 1] :=
  ⟨(C27_reconnect_only_after_close
      (AlertSubscriber.run (AlertSubscriber.State.init "05".toList)
        [.callStart, .transportConnect 0]).1
      (SensorPublisher.run (SensorPublisher.State.init "05".toList)
        [.callStart, .transportConnect 0]).1 (by decide) (by decide)).1.2.1
      [.timerFires, .transportError 0, .timerFires] (by simp),
   (C27_reconnect_only_after_close
      (AlertSubscriber.run (AlertSubscriber.State.init "05".toList)
        [.callStart, .transportConnect 0]).1
      (SensorPublisher.run (SensorPublisher.State.init "05".toList)
        [.callStart, .transportConnect 0]).1 (by decide) (by decide)).1.2.2 0 (by decide),
   (C27_reconnect_only_after_close
      (AlertSubscriber.run (AlertSubscriber.State.init "05".toList)
        [.callStart, .transportConnect 0]).1
      (SensorPublisher.run (SensorPublisher.State.init "05".toList)
        [.callStart, .transportConnect 0]).1 (by decide) (by decide)).2.2.2 0 (by decide)⟩

/-! ## Digits of a number (`Number.prototype.toString`) -/

theorem toDigitsCore_acc (b : Nat) (fuel n : Nat) (ds : List Char) :
    Nat.toDigitsCore b fuel n ds = Nat.toDigitsCore b fuel n [] ++ ds := by
  induction fuel generalizing n ds with
  | zero => rfl
  | succ f ih =>
    simp only [Nat.toDigitsCore]
    split
    · rfl
    · rw [ih (n / b) (_ :: ds), ih (n / b) [_], List.append_assoc]
      rfl

theorem toDigitsCore_fuel (b : Nat) (hb : 2 ≤ b) (fuel : Nat) :
    ∀ n, n < fuel → ∀ fuel', n < fuel' →
      Nat.toDigitsCore b fuel n [] = Nat.toDigitsCore b fuel' n [] := by
  induction fuel with
  | zero => intro n hn; omega
  | succ f ih =>
    intro n hn fuel' hn'
    obtain ⟨f', rfl⟩ : ∃ f', fuel' = f' + 1 := ⟨fuel' - 1, by omega⟩
    simp only [Nat.toDigitsCore]
    by_cases h0 : n / b = 0
    · rw [if_pos h0, if_pos h0]
    · rw [if_neg h0, if_neg h0]
      have hlt : n / b < n := by
        have hn0 : 0 < n := by
          rcases Nat.eq_zero_or_pos n with h | h
          · rw [h] at h0; simp at h0
          · exact h
        exact Nat.div_lt_self hn0 (by omega)
      rw [toDigitsCore_acc b f, toDigitsCore_acc b f', ih (n / b) (by omega) f' (by omega)]

/-- The last digit of a number of at least two digits is split off. -/
theorem toDigits_step (b : Nat) (hb : 2 ≤ b) (n : Nat) (hn : b ≤ n) :
    Nat.toDigits b n = Nat.toDigits b (n / b) ++ [Nat.digitChar (n % b)] := by
  unfold Nat.toDigits
  have h0 : n / b ≠ 0 := by
    have : 0 < n / b := Nat.div_pos hn (by omega)
    omega
  have hlt : n / b < n := Nat.div_lt_self (by omega) (by omega)
  have hL : Nat.toDigitsCore b (n + 1) n [] =
      Nat.toDigitsCore b n (n / b) [Nat.digitChar (n % b)] := by
    simp only [Nat.toDigitsCore]
    rw [if_neg h0]
  rw [hL, toDigitsCore_acc, toDigitsCore_fuel b hb n (n / b) hlt (n / b + 1) (by omega)]

theorem toDigits_small (b n : Nat) (hn : n < b) :
    Nat.toDigits b n = [Nat.digitChar n] := by
  unfold Nat.toDigits
  simp only [Nat.toDigitsCore]
  rw [if_pos (Nat.div_eq_of_lt hn), Nat.mod_eq_of_lt hn]

theorem digitChar_decimal (d : Nat) (hd : d < 10) :
    isDecimalDigit (Nat.digitChar d) = true ∧ digitValue 10 (Nat.digitChar d) = some d := by
  interval_cases d <;> decide

/-- The decimal rendering of a number consists of decimal digits and reads back as the
number. -/
theorem decimalString_spec (n : Nat) :
    (∀ c ∈ decimalString n, isDecimalDigit c = true) ∧
    digitsValue 10 (decimalString n) = n := by
  induction n using Nat.strong_induction_on with
  | _ n ih =>
    unfold decimalString
    by_cases hn : n < 10
    · rw [toDigits_small 10 n hn]
      obtain ⟨h1, h2⟩ := digitChar_decimal n hn
      refine ⟨fun c hc => ?_, ?_⟩
      · rw [List.mem_singleton] at hc
        rw [hc]
        exact h1
      · simp [digitsValue, h2]
    · rw [toDigits_step 10 (by omega) n (by omega)]
      obtain ⟨ih1, ih2⟩ := ih (n / 10) (Nat.div_lt_self (by omega) (by omega))
      obtain ⟨h1, h2⟩ := digitChar_decimal (n % 10) (Nat.mod_lt _ (by omega))
      unfold decimalString at ih1 ih2
      refine ⟨fun c hc => ?_, ?_⟩
      · rcases List.mem_append.1 hc with hc | hc
        · exact ih1 c hc
        · rw [List.mem_singleton] at hc
          rw [hc]
          exact h1
      · rw [digitsValue_append, ih2]
        simp only [digitsValue, List.foldl_cons, List.foldl_nil, h2, List.length_singleton,
          Option.getD_some]
        omega


/-! ## C30: the uptime text -/

theorem digitsValue_replicate_zero (k : Nat) :
    digitsValue 10 (List.replicate k '0') = 0 := by
  induction k with
  | zero => rfl
  | succ k ih =>
    rw [List.replicate_succ]
    have h := digitsValue_append 10 ['0'] (List.replicate k '0')
    rw [List.singleton_append] at h
    have h0 : digitsValue 10 ['0'] = 0 := by decide
    rw [h, ih, h0]
    omega

/-- A number padded to two characters: decimal digits that read back as the number, at
least two of them, exactly two below 100. -/
theorem padStart_decimal_spec (n : Nat) :
    (∀ c ∈ padStart 2 '0' (decimalString n), isDecimalDigit c = true) ∧
    digitsValue 10 (padStart 2 '0' (decimalString n)) = n ∧
    2 ≤ (padStart 2 '0' (decimalString n)).length ∧
    (n < 100 → (padStart 2 '0' (decimalString n)).length = 2) := by
  obtain ⟨hd, hv⟩ := decimalString_spec n
  unfold padStart
  refine ⟨fun c hc => ?_, ?_, ?_, ?_⟩
  · rcases List.mem_append.1 hc with hc | hc
    · rw [(List.mem_replicate.1 hc).2]
      decide
    · exact hd c hc
  · rw [digitsValue_append, digitsValue_replicate_zero, hv]
    omega
  · rw [List.length_append, List.length_replicate]
    omega
  · intro hn
    have hlen : (decimalString n).length ≤ 2 := by
      unfold decimalString
      by_cases h10 : n < 10
      · rw [toDigits_small 10 n h10]
        simp
      · rw [toDigits_step 10 (by omega) n (by omega),
          toDigits_small 10 (n / 10) (by omega)]
        simp
    rw [List.length_append, List.length_replicate]
    omega

/-- C30: for every non-negative integer uptime in milliseconds, `getUptime` renders three
fields separated by `:`; each field consists of decimal digits, at least two, and reads
back as hours, minutes and seconds with minutes and seconds within `0..59` (two digits
each) and `hours*3600 + minutes*60 + seconds = floor(uptimeMs / 1000)`. -/
theorem C30_uptime_fields (uptimeMs : Nat) :
    ∃ hh mm ss : List Char,
      MQTTWebSocketClient.getUptime uptimeMs = hh ++ ':' :: (mm ++ ':' :: ss) ∧
      split ':' (MQTTWebSocketClient.getUptime uptimeMs) = [hh, mm, ss] ∧
      (∀ c ∈ hh ++ mm ++ ss, isDecimalDigit c = true) ∧
      2 ≤ hh.length ∧ mm.length = 2 ∧ ss.length = 2 ∧
      digitsValue 10 mm ≤ 59 ∧ digitsValue 10 ss ≤ 59 ∧
      digitsValue 10 hh * 3600 + digitsValue 10 mm * 60 + digitsValue 10 ss
        = uptimeMs / 1000 := by
  obtain ⟨hd, hv, hl, _⟩ := padStart_decimal_spec (uptimeMs / (1000 * 60 * 60))
  obtain ⟨md, mv, _, ml⟩ := padStart_decimal_spec (uptimeMs % (1000 * 60 * 60) / (1000 * 60))
  obtain ⟨sd, sv, _, sl⟩ := padStart_decimal_spec (uptimeMs % (1000 * 60) / 1000)
  have hsep : ∀ l : List Char, (∀ c ∈ l, isDecimalDigit c = true) → ':' ∉ l :=
    fun l hl hc => absurd (hl ':' hc) (by decide)
  refine ⟨_, _, _, rfl, ?_, ?_, hl, ml (by omega), sl (by omega), ?_, ?_, ?_⟩
  · unfold MQTTWebSocketClient.getUptime
    rw [split_append_sep _ _ _ (hsep _ hd), split_append_sep _ _ _ (hsep _ md),
      split_of_not_mem _ _ (hsep _ sd)]
  · intro c hc
    rcases List.mem_append.1 hc with hc | hc
    · rcases List.mem_append.1 hc with hc | hc
      · exact hd c hc
      · exact md c hc
    · exact sd c hc
  · rw [mv]
    omega
  · rw [sv]
    omega
  · rw [hv, mv, sv]
    omega


/-! ## C28: agreement of the four alert decoders -/

/-- The controller runs the driver with the colour that `parseRGBMessage` decodes. -/
theorem setColorFromMQTTMessage_some (s : LEDController.State) (payload : List Char)
    (outcome : LEDController.DriverOutcome) (c : RGB)
    (hp : MQTTHelper.parseRGBMessage payload = some c) :
    LEDController.setColorFromMQTTMessage s payload outcome =
      LEDController.setColorHardware s c.r c.g c.b outcome := by
  obtain ⟨f0, f1, f2, hs, h0, h1, h2, hr⟩ := (parseRGBMessage_eq_some_iff payload c).1 hp
  have hv : LEDController.isValidRGB (.integer c.r) (.integer c.g) (.integer c.b) = true :=
    (led_isValidRGB_iff _ _ _).2 ⟨c.r, c.g, c.b, rfl, rfl, rfl, hr⟩
  unfold LEDController.setColorFromMQTTMessage
  rw [hs]
  simp only [h0, h1, h2, LEDController.toArg, LEDController.setColor, hv, Bool.not_true,
    Bool.false_eq_true, if_false]

/-- The controller throws without running the driver when `parseRGBMessage` returns
`null`. -/
theorem setColorFromMQTTMessage_none (s : LEDController.State) (payload : List Char)
    (outcome : LEDController.DriverOutcome)
    (hp : MQTTHelper.parseRGBMessage payload = none) :
    (LEDController.setColorFromMQTTMessage s payload outcome).calls = [] ∧
    (LEDController.setColorFromMQTTMessage s payload outcome).threw = true ∧
    (LEDController.setColorFromMQTTMessage s payload outcome).state = s := by
  unfold LEDController.setColorFromMQTTMessage
  cases hs : split ';' payload with
  | nil => exact ⟨rfl, rfl, rfl⟩
  | cons a0 l1 =>
    cases l1 with
    | nil => exact ⟨rfl, rfl, rfl⟩
    | cons a1 l2 =>
      cases l2 with
      | nil => exact ⟨rfl, rfl, rfl⟩
      | cons a2 l3 =>
        cases l3 with
        | cons a3 l4 => exact ⟨rfl, rfl, rfl⟩
        | nil =>
          dsimp only
          cases hv : LEDController.isValidRGB (LEDController.toArg (parseInt a0))
              (LEDController.toArg (parseInt a1)) (LEDController.toArg (parseInt a2)) with
          | false =>
            simp [LEDController.setColor, hv, LEDController.Result.threw]
          | true =>
            obtain ⟨i, j, k, hi, hj, hk, hr⟩ := (led_isValidRGB_iff _ _ _).1 hv
            have e0 : parseInt a0 = some i := by
              cases h : parseInt a0 with
              | none => rw [h] at hi; cases hi
              | some x => rw [h] at hi; cases hi; rfl
            have e1 : parseInt a1 = some j := by
              cases h : parseInt a1 with
              | none => rw [h] at hj; cases hj
              | some x => rw [h] at hj; cases hj; rfl
            have e2 : parseInt a2 = some k := by
              cases h : parseInt a2 with
              | none => rw [h] at hk; cases hk
              | some x => rw [h] at hk; cases hk; rfl
            have hsome : MQTTHelper.parseRGBMessage payload = some { r := i, g := j, b := k } :=
              (parseRGBMessage_eq_some_iff payload _).2 ⟨a0, a1, a2, hs, e0, e1, e2, hr⟩
            rw [hp] at hsome
            cases hsome

theorem setColorHardware_calls (s : LEDController.State) (r g b : Int)
    (outcome : LEDController.DriverOutcome) :
    (LEDController.setColorHardware s r g b outcome).calls =
      [{ args := [LEDController.numberToString r, LEDController.numberToString g,
                  LEDController.numberToString b] }] := by
  unfold LEDController.setColorHardware
  cases outcome with
  | exit code => by_cases hc : code = 0 <;> simp [hc]
  | error => rfl
  | spawnThrows => rfl

/-- C28: the four alert-payload decoders agree. For every payload, either
`parseRGBMessage` returns a colour, both `handleAlertMessage` emit one `onAlert` with that
colour, and `setColorFromMQTTMessage` passes validation and runs the driver with that
colour; or `parseRGBMessage` returns `null`, neither `handleAlertMessage` emits, and
`setColorFromMQTTMessage` throws without running the driver. -/
theorem C28_alert_decoders_agree (payload team : List Char) (ts : Nat)
    (s : LEDController.State) (outcome : LEDController.DriverOutcome) :
    (∃ c, MQTTHelper.parseRGBMessage payload = some c ∧
      MQTTWebSocketClient.handleAlertMessage payload ts team =
        [.onAlert { teamNumber := team, rgb := c, timestamp := ts,
                    hexColor := MQTTWebSocketClient.rgbToHex c.r c.g c.b, broker := none }] ∧
      MQTTDualClient.handleAlertMessage payload ts team =
        [.onAlert { teamNumber := team, rgb := c, timestamp := ts,
                    hexColor := MQTTDualClient.rgbToHex c.r c.g c.b,
                    broker := some "hivemq".toList }] ∧
      (LEDController.setColorFromMQTTMessage s payload outcome).calls =
        [{ args := [LEDController.numberToString c.r, LEDController.numberToString c.g,
                    LEDController.numberToString c.b] }] ∧
      LEDController.isValidRGB (.integer c.r) (.integer c.g) (.integer c.b) = true) ∨
    (MQTTHelper.parseRGBMessage payload = none ∧
      MQTTWebSocketClient.handleAlertMessage payload ts team = [] ∧
      MQTTDualClient.handleAlertMessage payload ts team = [] ∧
      (LEDController.setColorFromMQTTMessage s payload outcome).calls = [] ∧
      (LEDController.setColorFromMQTTMessage s payload outcome).threw = true) := by
  rw [webSocket_handleAlertMessage_eq, dual_handleAlertMessage_eq]
  cases hp : MQTTHelper.parseRGBMessage payload with
  | none =>
    right
    obtain ⟨h1, h2, _⟩ := setColorFromMQTTMessage_none s payload outcome hp
    exact ⟨rfl, rfl, rfl, h1, h2⟩
  | some c =>
    left
    obtain ⟨_, _, _, _, _, _, _, hr⟩ := (parseRGBMessage_eq_some_iff payload c).1 hp
    refine ⟨c, rfl, rfl, rfl, ?_, ?_⟩
    · rw [setColorFromMQTTMessage_some s payload outcome c hp]
      exact setColorHardware_calls s c.r c.g c.b outcome
    · exact (led_isValidRGB_iff _ _ _).2 ⟨c.r, c.g, c.b, rfl, rfl, rfl, hr⟩


/-! ## C29: the two `rgbToHex` -/

set_option maxRecDepth 100000 in
/-- The padded hexadecimal text of a channel value is its two hexadecimal digits, which
are lowercase and read back as the value. -/
theorem hexPair_spec (n : Nat) (h : n ≤ 255) :
    padStart 2 '0' (Nat.toDigits 16 n) = hexPair n ∧
    (∀ c ∈ hexPair n, isLowerHexDigit c = true) ∧
    digitsValue 16 (hexPair n) = n := by
  have key : ∀ m : Fin 256, padStart 2 '0' (Nat.toDigits 16 m.val) = hexPair m.val ∧
      (∀ c ∈ hexPair m.val, isLowerHexDigit c = true) ∧
      digitsValue 16 (hexPair m.val) = m.val := by
    decide
  exact key ⟨n, by omega⟩

/-- The hexadecimal text of `2^24 + 65536 r + 256 g + b`: a `1` and the three pairs. -/
theorem toDigits_packed (r g b : Nat) (hr : r ≤ 255) (hg : g ≤ 255) (hb : b ≤ 255) :
    Nat.toDigits 16 (16777216 + r * 65536 + g * 256 + b) =
      '1' :: (hexPair r ++ (hexPair g ++ hexPair b)) := by
  have e1 : (16777216 + r * 65536 + g * 256 + b) / 16 = 1048576 + r * 4096 + g * 16 + b / 16 := by
    omega
  have m1 : (16777216 + r * 65536 + g * 256 + b) % 16 = b % 16 := by omega
  have e2 : (1048576 + r * 4096 + g * 16 + b / 16) / 16 = 65536 + r * 256 + g := by omega
  have m2 : (1048576 + r * 4096 + g * 16 + b / 16) % 16 = b / 16 := by omega
  have e3 : (65536 + r * 256 + g) / 16 = 4096 + r * 16 + g / 16 := by omega
  have m3 : (65536 + r * 256 + g) % 16 = g % 16 := by omega
  have e4 : (4096 + r * 16 + g / 16) / 16 = 256 + r := by omega
  have m4 : (4096 + r * 16 + g / 16) % 16 = g / 16 := by omega
  have e5 : (256 + r) / 16 = 16 + r / 16 := by omega
  have m5 : (256 + r) % 16 = r % 16 := by omega
  have e6 : (16 + r / 16) / 16 = 1 := by omega
  have m6 : (16 + r / 16) % 16 = r / 16 := by omega
  rw [toDigits_step 16 (by omega) _ (by omega), e1, m1,
    toDigits_step 16 (by omega) _ (by omega), e2, m2,
    toDigits_step 16 (by omega) _ (by omega), e3, m3,
    toDigits_step 16 (by omega) _ (by omega), e4, m4,
    toDigits_step 16 (by omega) _ (by omega), e5, m5,
    toDigits_step 16 (by omega) _ (by omega), e6, m6,
    toDigits_small 16 1 (by omega)]
  rfl

theorem shiftLeft_channel (x : Int) (k : Nat) (hx0 : 0 ≤ x) (hx : x ≤ 255) (hk : k ≤ 16) :
    shiftLeft x k = x * 2 ^ k := by
  unfold shiftLeft toInt32
  have hk32 : k % 32 = k := Nat.mod_eq_of_lt (by omega)
  rw [hk32]
  have hpow : (2 : Int) ^ k ≤ 2 ^ 16 := pow_le_pow_right₀ (by norm_num) hk
  have hpos : (0 : Int) < 2 ^ k := by positivity
  have h1 : (x + 2 ^ 31) % 2 ^ 32 - 2 ^ 31 = x := by
    norm_num
    omega
  rw [h1]
  have hle : x * 2 ^ k ≤ 255 * 2 ^ 16 := by
    calc x * 2 ^ k ≤ 255 * 2 ^ k := by nlinarith
      _ ≤ 255 * 2 ^ 16 := by nlinarith
  have hge : 0 ≤ x * 2 ^ k := by positivity
  generalize x * 2 ^ k = y at hle hge
  norm_num at hle ⊢
  omega

theorem toStringHex_natCast (n : Nat) : toStringHex (n : Int) = Nat.toDigits 16 n := by
  unfold toStringHex
  rw [if_neg (by omega), Int.natAbs_ofNat]

/-- Both `rgbToHex` on channel values: `#` and the three pairs of hexadecimal digits. -/
theorem rgbToHex_nat (r g b : Nat) (hr : r ≤ 255) (hg : g ≤ 255) (hb : b ≤ 255) :
    MQTTWebSocketClient.rgbToHex r g b = '#' :: (hexPair r ++ (hexPair g ++ hexPair b)) ∧
    MQTTDualClient.rgbToHex r g b = '#' :: (hexPair r ++ (hexPair g ++ hexPair b)) := by
  constructor
  · unfold MQTTWebSocketClient.rgbToHex
    have h1 : shiftLeft 1 24 = 16777216 := by decide
    rw [h1, shiftLeft_channel r 16 (by omega) (by omega) (by omega),
      shiftLeft_channel g 8 (by omega) (by omega) (by omega)]
    have hsum : (16777216 : Int) + (r : Int) * 2 ^ 16 + (g : Int) * 2 ^ 8 + (b : Int) =
        ((16777216 + r * 65536 + g * 256 + b : Nat) : Int) := by
      push_cast
      ring
    rw [hsum, toStringHex_natCast, toDigits_packed r g b hr hg hb]
    rfl
  · unfold MQTTDualClient.rgbToHex
    simp only [List.map_cons, List.map_nil, toStringHex_natCast, (hexPair_spec r hr).1,
      (hexPair_spec g hg).1, (hexPair_spec b hb).1]
    rfl

/-- C29: for all integers `r`, `g`, `b` within `0..255`, the bit-shift `rgbToHex` of
`MQTTWebSocketClient` and the `padStart`-based `rgbToHex` of `MQTTDualClient` return the
same string: `#` followed by exactly six lowercase hexadecimal digits, two per channel in
the order `r`, `g`, `b`, whose numeric value is `65536*r + 256*g + b`. -/
theorem C29_rgbToHex_agree (r g b : Int) (hr : 0 ≤ r ∧ r ≤ 255) (hg : 0 ≤ g ∧ g ≤ 255)
    (hb : 0 ≤ b ∧ b ≤ 255) :
    MQTTWebSocketClient.rgbToHex r g b = MQTTDualClient.rgbToHex r g b ∧
    ∃ rr gg bb : List Char,
      MQTTWebSocketClient.rgbToHex r g b = '#' :: (rr ++ (gg ++ bb)) ∧
      rr.length = 2 ∧ gg.length = 2 ∧ bb.length = 2 ∧
      (∀ c ∈ rr ++ (gg ++ bb), isLowerHexDigit c = true) ∧
      (digitsValue 16 rr : Int) = r ∧ (digitsValue 16 gg : Int) = g ∧
      (digitsValue 16 bb : Int) = b ∧
      (digitsValue 16 (rr ++ (gg ++ bb)) : Int) = 65536 * r + 256 * g + b := by
  obtain ⟨hr0, hr1⟩ := hr
  obtain ⟨hg0, hg1⟩ := hg
  obtain ⟨hb0, hb1⟩ := hb
  lift r to ℕ using hr0
  lift g to ℕ using hg0
  lift b to ℕ using hb0
  have hr' : r ≤ 255 := by omega
  have hg' : g ≤ 255 := by omega
  have hb' : b ≤ 255 := by omega
  obtain ⟨hws, hdual⟩ := rgbToHex_nat r g b hr' hg' hb'
  obtain ⟨_, rl, rv⟩ := hexPair_spec r hr'
  obtain ⟨_, gl, gv⟩ := hexPair_spec g hg'
  obtain ⟨_, bl, bv⟩ := hexPair_spec b hb'
  refine ⟨by rw [hws, hdual], hexPair r, hexPair g, hexPair b, hws, rfl, rfl, rfl, ?_, ?_, ?_,
    ?_, ?_⟩
  · intro c hc
    rcases List.mem_append.1 hc with hc | hc
    · exact rl c hc
    · rcases List.mem_append.1 hc with hc | hc
      · exact gl c hc
      · exact bl c hc
  · rw [rv]
  · rw [gv]
  · rw [bv]
  · rw [digitsValue_append, digitsValue_append, rv, gv, bv]
    have h2 : (hexPair b).length = 2 := rfl
    have h4 : (hexPair g ++ hexPair b).length = 4 := rfl
    rw [h2, h4]
    push_cast
    ring

/-- C29 witness: orange, `(255, 128, 0)`, is `#ff8000` for both clients. -/
theorem C29_rgbToHex_agree_witness :
    MQTTWebSocketClient.rgbToHex 255 128 0 = MQTTDualClient.rgbToHex 255 128 0 ∧
    MQTTWebSocketClient.rgbToHex 255 128 0 = "#ff8000".toList :=
  ⟨(C29_rgbToHex_agree 255 128 0 (by decide) (by decide) (by decide)).1, by decide⟩

end IotApp
